import Mathlib

/-!
# Booking lifecycle of the vehicle-rental backend

Shallow embedding of `src/services/bookings.go` and `src/services/users.go`
together with the data contracts they use (`src/domain`, `src/commons`,
`src/handlers/requests`), of the queries of `src/sql/client.go` over a
list-of-rows store, and of the handlers of `src/handlers`.

Conventions of the embedding:

* Go `uint` and `int` are `Nat` and `Int`; the service performs no arithmetic
  on them, only comparisons and copies.
* `time.Time` is an instant, counted in nanoseconds from Go's zero time, so
  the zero value of a Go `time.Time` is `⟨0⟩`.
* `float64` is carried as its IEEE-754 bit pattern; the service only copies it.
* A Go pointer result `*T` is `Option T` (`nil` is `none`), and a Go result
  pair `(*T, error)` is the structure `Ret T`.
* `gorm.Model` is the embedded record `Model` (ID, CreatedAt, UpdatedAt,
  DeletedAt).
* The two gorm back-reference associations `Vehicle.Bookings` and
  `BookingMessage.Booking` are not represented: no function of the service
  reads or writes them, and `GetBookingById` does not preload them.
* The persistence gateway is the Go interface `BookingsDatabase`; it is a
  record of functions, so every statement quantified over `db` holds for every
  store state.
* Each service method ends in a tail call `return b.Database.UpdateBooking(..)`
  (or `CreateBooking`). The body up to that tail call is the function
  `<Method>Call`, returning an `Outcome` that records either the pair returned
  directly or the booking handed to the store; `<Method>` runs the outcome
  against the store.
* `Store` is the state behind `sql/client.go`: the rows of the three tables,
  soft-deleted rows included, and the disposition of the database engine. Its
  read methods see only the rows whose `DeletedAt` is nil, as every gorm query
  on a model embedding `gorm.Model` does, and relay an engine error.
* `BookingsService.<Method>` is the same method in state-passing form over
  a `Session` (the store and the record of the writes invoked on it); it is
  proved equal to `<Method>` on the store, and is the form on which the
  absence of writes is stated.
-/

namespace Backend

/-! ## commons -/

namespace commons

abbrev VehicleStatusAvailable : String := "disponible"

abbrev BookingStatusReserved : String := "reservado"
abbrev BookingStatusConfirmed : String := "confirmado"
abbrev BookingStatusCancelled : String := "cancelado"
abbrev BookingStatusFinished : String := "finalizado"

abbrev UserTypeClient : String := "client"
abbrev UserTypeAdmin : String := "admin"

end commons

/-- Go `error` values: the sentinel errors of `commons/errors.go`, and any
other error (storage failures relayed from the persistence gateway). -/
inductive Error where
  | ErrUserAlreadyExists
  | ErrUserNotFound
  | ErrInvalidCredentials
  | ErrVehicleNotAvailable
  | ErrVehicleNotFound
  | ErrBookingNotFound
  | ErrBookingAlreadyCancelled
  | ErrBookingAlreadyFinished
  | ErrBookingAlreadyStarted
  | ErrBookingNotStarted
  | ErrBookingNotFinished
  | ErrBookingAlreadyHaveFeedback
  | other (msg : String)
  deriving DecidableEq, Repr

/-- The text given to `errors.New` for each sentinel. -/
def Error.message : Error → String
  | .ErrUserAlreadyExists => "user already exists"
  | .ErrUserNotFound => "user not found"
  | .ErrInvalidCredentials => "invalid credentials"
  | .ErrVehicleNotAvailable => "vehicle not available"
  | .ErrVehicleNotFound => "vehicle not found"
  | .ErrBookingNotFound => "booking not found"
  | .ErrBookingAlreadyCancelled => "booking already cancelled"
  | .ErrBookingAlreadyFinished => "booking already finished"
  | .ErrBookingAlreadyStarted => "booking already started"
  | .ErrBookingNotStarted => "booking not started"
  | .ErrBookingNotFinished => "booking not finished"
  | .ErrBookingAlreadyHaveFeedback => "booking already have feedback"
  | .other msg => msg

/-! ## domain -/

/-- An instant (`time.Time`), in nanoseconds from Go's zero time. -/
structure Time where
  nanos : Int
  deriving DecidableEq, Repr

/-- A `float64`, as its bit pattern. -/
structure Float64 where
  bits : Nat
  deriving DecidableEq, Repr

/-- The embedded `gorm.Model`. -/
structure Model where
  ID : Nat
  CreatedAt : Time
  UpdatedAt : Time
  DeletedAt : Option Time
  deriving DecidableEq, Repr

/-- Go zero value of `gorm.Model`. -/
def Model.zero : Model := ⟨0, ⟨0⟩, ⟨0⟩, none⟩

structure User extends Model where
  Email : String
  Name : String
  Password : String
  DNI : String
  Type_ : String
  deriving DecidableEq, Repr

structure Vehicle extends Model where
  Status : String
  BrandModel : String
  Brand : String
  TransmissionType : String
  Year : Int
  Type_ : String
  HourlyFare : Float64
  deriving DecidableEq, Repr

structure BookingMessage extends Model where
  BookingID : Nat
  Message : String
  deriving DecidableEq, Repr

structure Booking extends Model where
  Status : String
  UserID : Nat
  User : User
  VehicleID : Nat
  Vehicle : Vehicle
  Observations : Option String
  Rating : Option Int
  Feedback : Option String
  StartDate : Time
  EndDate : Time
  PickUpLocation : String
  DropOffLocation : String
  HourlyFare : Float64
  Messages : List BookingMessage
  deriving DecidableEq, Repr

/-! ## handlers/requests -/

namespace requests

structure CreateBookingRequest where
  UserID : Nat
  VehicleID : Nat
  StartDate : Time
  EndDate : Time
  PickUpLocation : String
  DropOffLocation : String
  deriving DecidableEq, Repr

structure CancelBookingRequest where
  ID : Nat
  UserID : Nat
  deriving DecidableEq, Repr

structure ConfirmBookingRequest where
  ID : Nat
  UserID : Nat
  deriving DecidableEq, Repr

structure FinishBookingRequest where
  ID : Nat
  UserID : Nat
  deriving DecidableEq, Repr

structure AddFeedbackBookingRequest where
  ID : Nat
  UserID : Nat
  Feedback : String
  deriving DecidableEq, Repr

structure RateBookingRequest where
  ID : Nat
  UserID : Nat
  Rating : Int
  deriving DecidableEq, Repr

structure AddMessageToBookingRequest where
  ID : Nat
  UserID : Nat
  Message : String
  deriving DecidableEq, Repr

end requests

/-! ## services: the persistence gateway interface -/

/-- A Go result pair `(*α, error)`. -/
structure Ret (α : Type) where
  val : Option α
  err : Option Error
  deriving DecidableEq, Repr

/-- A Go result pair `([]α, error)`. -/
structure RetList (α : Type) where
  val : List α
  err : Option Error
  deriving DecidableEq, Repr

/-- The interface `services.BookingsDatabase`. -/
structure BookingsDatabase where
  GetAvailableVehicles : Time → Time → RetList Vehicle
  GetUserById : Nat → Ret User
  GetVehicleById : Nat → Ret Vehicle
  GetBookingById : Nat → Ret Booking
  CreateBooking : Booking → Ret Booking
  UpdateBooking : Booking → Ret Booking
  GetBookingsByUserID : Nat → RetList Booking
  GetAdminBookings : RetList Booking

/-- What a service method does at its exit: return a pair of its own, or hand a
booking to `Database.CreateBooking` / `Database.UpdateBooking` and relay the
store's answer. -/
inductive Outcome where
  | returned (val : Option Booking) (err : Option Error)
  | callCreateBooking (booking : Booking)
  | callUpdateBooking (booking : Booking)
  deriving DecidableEq, Repr

/-- Run the exit of a service method against the store. -/
def Outcome.run (db : BookingsDatabase) : Outcome → Ret Booking
  | .returned val err => ⟨val, err⟩
  | .callCreateBooking booking => db.CreateBooking booking
  | .callUpdateBooking booking => db.UpdateBooking booking

/-! ## services: `BookingsService` -/

def GetAvailableVehicles (db : BookingsDatabase) (from_ to_ : Time) : RetList Vehicle :=
  db.GetAvailableVehicles from_ to_

def CreateBookingCall (db : BookingsDatabase) (request : requests.CreateBookingRequest) :
    Outcome :=
  match db.GetUserById request.UserID with
  | ⟨_, some err⟩ => .returned none (some err)
  | ⟨none, none⟩ => .returned none (some .ErrUserNotFound)
  | ⟨some user, none⟩ =>
    match db.GetVehicleById request.VehicleID with
    | ⟨_, some err⟩ => .returned none (some err)
    | ⟨none, none⟩ => .returned none (some .ErrVehicleNotFound)
    | ⟨some vehicle, none⟩ =>
      let booking : Booking :=
        { toModel := Model.zero
          Status := commons.BookingStatusReserved
          UserID := request.UserID
          User := user
          VehicleID := request.VehicleID
          Vehicle := vehicle
          Observations := none
          Rating := none
          Feedback := none
          StartDate := request.StartDate
          EndDate := request.EndDate
          PickUpLocation := request.PickUpLocation
          DropOffLocation := request.DropOffLocation
          HourlyFare := vehicle.HourlyFare
          Messages := [] }
      .callCreateBooking booking

def CreateBooking (db : BookingsDatabase) (request : requests.CreateBookingRequest) :
    Ret Booking :=
  (CreateBookingCall db request).run db

def CancelBookingCall (db : BookingsDatabase) (request : requests.CancelBookingRequest) :
    Outcome :=
  match db.GetUserById request.UserID with
  | ⟨_, some err⟩ => .returned none (some err)
  | ⟨none, none⟩ => .returned none (some .ErrInvalidCredentials)
  | ⟨some user, none⟩ =>
    match db.GetBookingById request.ID with
    | ⟨_, some err⟩ => .returned none (some err)
    | ⟨none, none⟩ => .returned none (some .ErrBookingNotFound)
    | ⟨some booking, none⟩ =>
      if booking.UserID ≠ request.UserID ∧ user.Type_ ≠ commons.UserTypeAdmin then
        .returned none (some .ErrInvalidCredentials)
      else if booking.Status = commons.BookingStatusCancelled then
        .returned none (some .ErrBookingAlreadyCancelled)
      else if booking.Status = commons.BookingStatusFinished then
        .returned none (some .ErrBookingAlreadyFinished)
      else if booking.Status = commons.BookingStatusConfirmed then
        .returned none (some .ErrBookingAlreadyStarted)
      else
        let booking : Booking :=
          if booking.Status = commons.BookingStatusReserved then
            { booking with Status := commons.BookingStatusCancelled }
          else booking
        let message : String :=
          if user.Type_ = commons.UserTypeAdmin then "Booking cancelled by admin"
          else "Booking cancelled by user"
        let booking : Booking := { booking with Observations := some message }
        .callUpdateBooking booking

def CancelBooking (db : BookingsDatabase) (request : requests.CancelBookingRequest) :
    Ret Booking :=
  (CancelBookingCall db request).run db

def ConfirmBookingCall (db : BookingsDatabase) (request : requests.ConfirmBookingRequest) :
    Outcome :=
  match db.GetUserById request.UserID with
  | ⟨_, some err⟩ => .returned none (some err)
  | ⟨none, none⟩ => .returned none (some .ErrInvalidCredentials)
  | ⟨some user, none⟩ =>
    match db.GetBookingById request.ID with
    | ⟨_, some err⟩ => .returned none (some err)
    | ⟨none, none⟩ => .returned none (some .ErrBookingNotFound)
    | ⟨some booking, none⟩ =>
      if booking.UserID ≠ request.UserID ∧ user.Type_ ≠ commons.UserTypeAdmin then
        .returned none (some .ErrInvalidCredentials)
      else if booking.Status = commons.BookingStatusCancelled then
        .returned none (some .ErrBookingAlreadyCancelled)
      else if booking.Status = commons.BookingStatusFinished then
        .returned none (some .ErrBookingAlreadyFinished)
      else if booking.Status = commons.BookingStatusConfirmed then
        .returned none (some .ErrBookingAlreadyStarted)
      else
        let booking : Booking :=
          if booking.Status = commons.BookingStatusReserved then
            { booking with Status := commons.BookingStatusConfirmed }
          else booking
        let message : String :=
          if user.Type_ = commons.UserTypeAdmin then "Booking confirmed by admin"
          else "Booking confirmed by user"
        let booking : Booking := { booking with Observations := some message }
        .callUpdateBooking booking

def ConfirmBooking (db : BookingsDatabase) (request : requests.ConfirmBookingRequest) :
    Ret Booking :=
  (ConfirmBookingCall db request).run db

def FinishBookingCall (db : BookingsDatabase) (request : requests.FinishBookingRequest) :
    Outcome :=
  match db.GetUserById request.UserID with
  | ⟨_, some err⟩ => .returned none (some err)
  | ⟨none, none⟩ => .returned none (some .ErrInvalidCredentials)
  | ⟨some user, none⟩ =>
    match db.GetBookingById request.ID with
    | ⟨_, some err⟩ => .returned none (some err)
    | ⟨none, none⟩ => .returned none (some .ErrBookingNotFound)
    | ⟨some booking, none⟩ =>
      if booking.UserID ≠ request.UserID ∧ user.Type_ ≠ commons.UserTypeAdmin then
        .returned none (some .ErrInvalidCredentials)
      else if booking.Status = commons.BookingStatusCancelled then
        .returned none (some .ErrBookingAlreadyCancelled)
      else if booking.Status = commons.BookingStatusFinished then
        .returned none (some .ErrBookingAlreadyFinished)
      else if booking.Status = commons.BookingStatusReserved then
        .returned none (some .ErrBookingNotStarted)
      else
        let booking : Booking :=
          if booking.Status = commons.BookingStatusConfirmed then
            { booking with Status := commons.BookingStatusFinished }
          else booking
        let message : String :=
          if user.Type_ = commons.UserTypeAdmin then "Booking finished by admin"
          else "Booking finished by user"
        let booking : Booking := { booking with Observations := some message }
        .callUpdateBooking booking

def FinishBooking (db : BookingsDatabase) (request : requests.FinishBookingRequest) :
    Ret Booking :=
  (FinishBookingCall db request).run db

def AddFeedbackBookingCall (db : BookingsDatabase) (request : requests.AddFeedbackBookingRequest) :
    Outcome :=
  match db.GetUserById request.UserID with
  | ⟨_, some err⟩ => .returned none (some err)
  | ⟨none, none⟩ => .returned none (some .ErrInvalidCredentials)
  | ⟨some user, none⟩ =>
    match db.GetBookingById request.ID with
    | ⟨_, some err⟩ => .returned none (some err)
    | ⟨none, none⟩ => .returned none (some .ErrBookingNotFound)
    | ⟨some booking, none⟩ =>
      if booking.UserID ≠ request.UserID ∨ user.Type_ ≠ commons.UserTypeClient then
        .returned none (some .ErrInvalidCredentials)
      else if booking.Status = commons.BookingStatusReserved then
        .returned none (some .ErrBookingNotStarted)
      else if booking.Status = commons.BookingStatusConfirmed then
        .returned none (some .ErrBookingNotFinished)
      else if booking.Status = commons.BookingStatusCancelled then
        .returned none (some .ErrBookingAlreadyCancelled)
      else if booking.Status ≠ commons.BookingStatusFinished then
        .returned none (some .ErrBookingNotFinished)
      -- booking.Feedback != nil && *booking.Feedback != ""
      else if booking.Feedback ≠ none ∧ booking.Feedback ≠ some "" then
        .returned none (some .ErrBookingAlreadyHaveFeedback)
      else
        let booking : Booking := { booking with Feedback := some request.Feedback }
        .callUpdateBooking booking

def AddFeedbackBooking (db : BookingsDatabase) (request : requests.AddFeedbackBookingRequest) :
    Ret Booking :=
  (AddFeedbackBookingCall db request).run db

def RateBookingCall (db : BookingsDatabase) (request : requests.RateBookingRequest) :
    Outcome :=
  match db.GetUserById request.UserID with
  | ⟨_, some err⟩ => .returned none (some err)
  | ⟨none, none⟩ => .returned none (some .ErrInvalidCredentials)
  | ⟨some user, none⟩ =>
    match db.GetBookingById request.ID with
    | ⟨_, some err⟩ => .returned none (some err)
    | ⟨none, none⟩ => .returned none (some .ErrBookingNotFound)
    | ⟨some booking, none⟩ =>
      if booking.UserID ≠ request.UserID ∨ user.Type_ ≠ commons.UserTypeClient then
        .returned none (some .ErrInvalidCredentials)
      else if booking.Status = commons.BookingStatusReserved then
        .returned none (some .ErrBookingNotStarted)
      else if booking.Status = commons.BookingStatusConfirmed then
        .returned none (some .ErrBookingNotFinished)
      else if booking.Status = commons.BookingStatusCancelled then
        .returned none (some .ErrBookingAlreadyCancelled)
      else if booking.Status ≠ commons.BookingStatusFinished then
        .returned none (some .ErrBookingNotFinished)
      else
        let booking : Booking := { booking with Rating := some request.Rating }
        .callUpdateBooking booking

def RateBooking (db : BookingsDatabase) (request : requests.RateBookingRequest) :
    Ret Booking :=
  (RateBookingCall db request).run db

def AddMessageToBookingCall (db : BookingsDatabase)
    (request : requests.AddMessageToBookingRequest) :
    Outcome :=
  match db.GetUserById request.UserID with
  | ⟨_, some err⟩ => .returned none (some err)
  | ⟨none, none⟩ => .returned none (some .ErrInvalidCredentials)
  | ⟨some user, none⟩ =>
    match db.GetBookingById request.ID with
    | ⟨_, some err⟩ => .returned none (some err)
    | ⟨none, none⟩ => .returned none (some .ErrBookingNotFound)
    | ⟨some booking, none⟩ =>
      if booking.UserID ≠ request.UserID ∨ user.Type_ ≠ commons.UserTypeClient then
        .returned none (some .ErrInvalidCredentials)
      else
        let message : BookingMessage :=
          { toModel := Model.zero, BookingID := booking.ID, Message := request.Message }
        let booking : Booking := { booking with Messages := booking.Messages ++ [message] }
        .callUpdateBooking booking

def AddMessageToBooking (db : BookingsDatabase) (request : requests.AddMessageToBookingRequest) :
    Ret Booking :=
  (AddMessageToBookingCall db request).run db

def GetBookingsByUserID (db : BookingsDatabase) (userID : Nat) : RetList Booking :=
  db.GetBookingsByUserID userID

def GetBookingByID (db : BookingsDatabase) (bookingID : Nat) : Ret Booking :=
  match db.GetBookingById bookingID with
  | ⟨_, some err⟩ => ⟨none, some err⟩
  | ⟨none, none⟩ => ⟨none, some .ErrBookingNotFound⟩
  | ⟨some booking, none⟩ => ⟨some booking, none⟩

def GetAdminBookings (db : BookingsDatabase) : RetList Booking :=
  db.GetAdminBookings

/-! ## Vocabulary for the statements -/

/-- The three edges of the booking state machine:
reserved→confirmed, reserved→cancelled, confirmed→finished. -/
def LifecycleEdge (old new : String) : Prop :=
  (old = commons.BookingStatusReserved ∧ new = commons.BookingStatusConfirmed) ∨
  (old = commons.BookingStatusReserved ∧ new = commons.BookingStatusCancelled) ∨
  (old = commons.BookingStatusConfirmed ∧ new = commons.BookingStatusFinished)

instance (old new : String) : Decidable (LifecycleEdge old new) := by
  unfold LifecycleEdge; infer_instance

/-- A request to one of the six methods that end in `Database.UpdateBooking`. -/
inductive UpdateRequest where
  | cancel (request : requests.CancelBookingRequest)
  | confirm (request : requests.ConfirmBookingRequest)
  | finish (request : requests.FinishBookingRequest)
  | addFeedback (request : requests.AddFeedbackBookingRequest)
  | rate (request : requests.RateBookingRequest)
  | addMessage (request : requests.AddMessageToBookingRequest)
  deriving DecidableEq, Repr

/-- The booking id carried by the request. -/
def UpdateRequest.ID : UpdateRequest → Nat
  | .cancel r => r.ID
  | .confirm r => r.ID
  | .finish r => r.ID
  | .addFeedback r => r.ID
  | .rate r => r.ID
  | .addMessage r => r.ID

/-- The acting user id carried by the request. -/
def UpdateRequest.UserID : UpdateRequest → Nat
  | .cancel r => r.UserID
  | .confirm r => r.UserID
  | .finish r => r.UserID
  | .addFeedback r => r.UserID
  | .rate r => r.UserID
  | .addMessage r => r.UserID

/-- Dispatch a request to the service method it names. -/
def UpdateRequest.call (db : BookingsDatabase) : UpdateRequest → Outcome
  | .cancel r => CancelBookingCall db r
  | .confirm r => ConfirmBookingCall db r
  | .finish r => FinishBookingCall db r
  | .addFeedback r => AddFeedbackBookingCall db r
  | .rate r => RateBookingCall db r
  | .addMessage r => AddMessageToBookingCall db r

/-- The full service method named by the request, run against the store. -/
def UpdateRequest.run (db : BookingsDatabase) : UpdateRequest → Ret Booking
  | .cancel r => CancelBooking db r
  | .confirm r => ConfirmBooking db r
  | .finish r => FinishBooking db r
  | .addFeedback r => AddFeedbackBooking db r
  | .rate r => RateBooking db r
  | .addMessage r => AddMessageToBooking db r

/-! ## A concrete store, used to instantiate the statements -/

namespace Fixture

/-- Client with id 1, owner of every fixture booking. -/
def clientA : User :=
  { toModel := ⟨1, ⟨0⟩, ⟨0⟩, none⟩, Email := "a@example.com", Name := "A",
    Password := "secret", DNI := "100", Type_ := commons.UserTypeClient }

/-- Admin with id 2. -/
def admin : User :=
  { toModel := ⟨2, ⟨0⟩, ⟨0⟩, none⟩, Email := "root@example.com", Name := "Root",
    Password := "hunter2", DNI := "200", Type_ := commons.UserTypeAdmin }

/-- Client with id 3, owner of no booking. -/
def clientB : User :=
  { toModel := ⟨3, ⟨0⟩, ⟨0⟩, none⟩, Email := "b@example.com", Name := "B",
    Password := "pass", DNI := "300", Type_ := commons.UserTypeClient }

/-- Vehicle with id 1; its current fare is 30.0. -/
def vehicleV : Vehicle :=
  { toModel := ⟨1, ⟨0⟩, ⟨0⟩, none⟩, Status := commons.VehicleStatusAvailable,
    BrandModel := "Corolla", Brand := "Toyota", TransmissionType := "manual", Year := 2020,
    Type_ := "sedan", HourlyFare := ⟨0x403E000000000000⟩ }

/-- A booking of `vehicleV` by `clientA` over the window [1000, 2000), made when
the fare was 25.0. -/
def bookingOf (id : Nat) (status : String) (feedback : Option String) : Booking :=
  { toModel := ⟨id, ⟨0⟩, ⟨0⟩, none⟩, Status := status, UserID := 1, User := clientA,
    VehicleID := 1, Vehicle := vehicleV, Observations := none, Rating := none,
    Feedback := feedback, StartDate := ⟨1000⟩, EndDate := ⟨2000⟩,
    PickUpLocation := "airport", DropOffLocation := "downtown",
    HourlyFare := ⟨0x4039000000000000⟩, Messages := [] }

/-- Booking 10 after its owner cancelled it. -/
def cancelled10 : Booking :=
  { bookingOf 10 commons.BookingStatusCancelled none with
    Observations := some "Booking cancelled by user" }

/-- Booking 13 after its owner left the feedback "great". -/
def feedback13 : Booking :=
  { bookingOf 13 commons.BookingStatusFinished none with Feedback := some "great" }

/-- Booking 13 after its owner rated it 4. -/
def rated13 : Booking :=
  { bookingOf 13 commons.BookingStatusFinished none with Rating := some 4 }

/-- Store answers: users 1..3, vehicle 1, bookings 10 (reserved), 11 (confirmed),
12 (cancelled), 13 (finished, no feedback), 14 (finished, feedback "ok"),
15 (status "pendiente", outside the four known values). Every booking is on
vehicle 1 over [1000, 2000), so the vehicle is reported available only for
windows that do not overlap it. Writes echo the booking. -/
def db : BookingsDatabase :=
  { GetAvailableVehicles := fun from_ to_ =>
      if 1000 < to_.nanos ∧ 2000 > from_.nanos then ⟨[], none⟩ else ⟨[vehicleV], none⟩
    GetUserById := fun id =>
      if id = 1 then ⟨some clientA, none⟩
      else if id = 2 then ⟨some admin, none⟩
      else if id = 3 then ⟨some clientB, none⟩
      else ⟨none, none⟩
    GetVehicleById := fun id => if id = 1 then ⟨some vehicleV, none⟩ else ⟨none, none⟩
    GetBookingById := fun id =>
      if id = 10 then ⟨some (bookingOf 10 commons.BookingStatusReserved none), none⟩
      else if id = 11 then ⟨some (bookingOf 11 commons.BookingStatusConfirmed none), none⟩
      else if id = 12 then ⟨some (bookingOf 12 commons.BookingStatusCancelled none), none⟩
      else if id = 13 then ⟨some (bookingOf 13 commons.BookingStatusFinished none), none⟩
      else if id = 14 then
        ⟨some (bookingOf 14 commons.BookingStatusFinished (some "ok")), none⟩
      else if id = 15 then ⟨some (bookingOf 15 "pendiente" none), none⟩
      else ⟨none, none⟩
    CreateBooking := fun b => ⟨some b, none⟩
    UpdateBooking := fun b => ⟨some b, none⟩
    GetBookingsByUserID := fun _ => ⟨[], none⟩
    GetAdminBookings := ⟨[], none⟩ }

end Fixture

/-! ## handlers/requests: users -/

namespace requests

structure RegisterUserRequest where
  Email : String
  Name : String
  Password : String
  DNI : String
  deriving DecidableEq, Repr

structure LoginUserRequest where
  Email : String
  Password : String
  deriving DecidableEq, Repr

end requests

/-! ## services: `UsersService`

The `echo.Context` argument of both methods is never used and is left out. -/

/-- The interface `services.UsersDatabase`. -/
structure UsersDatabase where
  GetUserByEmail : String → Ret User
  CreateUser : User → Ret User

/-- Exit of `RegisterUser`: a pair of its own, or the tail call
`Database.CreateUser(*user)`. -/
inductive UserOutcome where
  | returned (val : Option User) (err : Option Error)
  | callCreateUser (user : User)
  deriving DecidableEq, Repr

/-- Run the exit of `RegisterUser` against the store. -/
def UserOutcome.run (db : UsersDatabase) : UserOutcome → Ret User
  | .returned val err => ⟨val, err⟩
  | .callCreateUser user => db.CreateUser user

def mapRegisterUserRequestToUser (request : requests.RegisterUserRequest) : User :=
  { toModel := Model.zero
    Email := request.Email
    Name := request.Name
    Password := request.Password
    DNI := request.DNI
    Type_ := commons.UserTypeClient }

def RegisterUserCall (db : UsersDatabase) (request : requests.RegisterUserRequest) :
    UserOutcome :=
  match db.GetUserByEmail request.Email with
  | ⟨_, some err⟩ => .returned none (some err)
  | ⟨some _, none⟩ => .returned none (some .ErrUserAlreadyExists)
  | ⟨none, none⟩ =>
    let user := mapRegisterUserRequestToUser request
    .callCreateUser user

def RegisterUser (db : UsersDatabase) (request : requests.RegisterUserRequest) : Ret User :=
  (RegisterUserCall db request).run db

def LoginUser (db : UsersDatabase) (request : requests.LoginUserRequest) : Ret User :=
  match db.GetUserByEmail request.Email with
  | ⟨_, some err⟩ => ⟨none, some err⟩
  | ⟨none, none⟩ => ⟨none, some .ErrUserNotFound⟩
  | ⟨some user, none⟩ =>
    if user.Password ≠ request.Password then ⟨none, some .ErrInvalidCredentials⟩
    else ⟨some user, none⟩

/-! ## sql: the store behind `client`

`sql/client.go` builds its queries with gorm; the engine that evaluates them
is outside the sources. The tables are lists of rows, a booking row carrying
its message rows. Every model embeds `gorm.Model`, so gorm adds
`deleted_at IS NULL` to every query it builds, sub-queries and preloads
included: a query sees only the rows whose `DeletedAt` is nil. A query can also
fail in the engine, and each method of `client` relays that error. -/

/-- Go zero value of `domain.User`. -/
def User.zero : User :=
  { toModel := Model.zero, Email := "", Name := "", Password := "", DNI := "", Type_ := "" }

/-- Go zero value of `domain.Vehicle`. -/
def Vehicle.zero : Vehicle :=
  { toModel := Model.zero, Status := "", BrandModel := "", Brand := "",
    TransmissionType := "", Year := 0, Type_ := "", HourlyFare := ⟨0⟩ }

/-- Modelled from the spec: the failures of the database engine (gorm and the
database are not part of the sources). For each method of `client`, the
message of the error the engine reports to its query, or none when the query
is answered. `gorm.ErrRecordNotFound` is not among these errors: `First`
reports it exactly when no row matches, and `client` turns it into a nil
result with a nil error. An engine error is never one of the values of
`commons/errors.go`; it is relayed as `Error.other`. -/
structure Engine where
  GetUserById : Option String
  GetVehicleById : Option String
  GetUserByEmail : Option String
  GetBookingById : Option String
  GetAvailableVehicles : Option String
  GetBookingsByUserID : Option String
  GetAdminBookings : Option String
  CreateBooking : Option String
  UpdateBooking : Option String
  deriving DecidableEq, Repr

/-- The engine that answers every query. -/
def Engine.ok : Engine := ⟨none, none, none, none, none, none, none, none, none⟩

/-- Modelled from the spec: the state of the persistence gateway (gorm and the
database engine are not part of the sources): the rows of the users, vehicles
and bookings tables, a booking row carrying its message rows, soft-deleted rows
included, and the disposition of the engine. The association fields `User`
and `Vehicle` of a stored booking row are not columns and are never read. -/
structure Store where
  users : List User
  vehicles : List Vehicle
  bookings : List Booking
  engine : Engine
  deriving DecidableEq, Repr

namespace Store

/-- The vehicle rows a query sees: those not soft-deleted. -/
def liveVehicles (s : Store) : List Vehicle :=
  s.vehicles.filter fun v => v.DeletedAt = none

/-- The booking rows a query sees: those not soft-deleted. -/
def liveBookings (s : Store) : List Booking :=
  s.bookings.filter fun b => b.DeletedAt = none

/-- Method `client.GetUserById`: `First(&user, id)`, the visible row with that
primary key; a missing row is `(nil, nil)`, an engine error is relayed. -/
def GetUserById (s : Store) (id : Nat) : Ret User :=
  match s.engine.GetUserById with
  | some msg => ⟨none, some (.other msg)⟩
  | none => ⟨s.users.find? fun u => u.ID = id ∧ u.DeletedAt = none, none⟩

/-- Method `client.GetVehicleById`: `First(&vehicle, id)`. -/
def GetVehicleById (s : Store) (id : Nat) : Ret Vehicle :=
  match s.engine.GetVehicleById with
  | some msg => ⟨none, some (.other msg)⟩
  | none => ⟨s.vehicles.find? fun v => v.ID = id ∧ v.DeletedAt = none, none⟩

/-- Method `client.GetUserByEmail`: `Where("email = ?", email).First(&user)`. -/
def GetUserByEmail (s : Store) (email : String) : Ret User :=
  match s.engine.GetUserByEmail with
  | some msg => ⟨none, some (.other msg)⟩
  | none => ⟨s.users.find? fun u => u.Email = email ∧ u.DeletedAt = none, none⟩

/-- What `Preload("Vehicle").Preload("Messages")` makes of a booking row: the
visible vehicle with the row's `vehicle_id` (the zero vehicle when there is
none), the visible messages of the row, and the `User` field left at its zero
value, since it is not preloaded. -/
def preload (s : Store) (row : Booking) : Booking :=
  { row with
    User := User.zero
    Vehicle :=
      (s.vehicles.find? fun v => v.ID = row.VehicleID ∧ v.DeletedAt = none).getD Vehicle.zero
    Messages := row.Messages.filter fun m => m.DeletedAt = none }

/-- Method `client.GetBookingById`:
`Preload("Vehicle").Preload("Messages").First(&booking, id)`. -/
def GetBookingById (s : Store) (id : Nat) : Ret Booking :=
  match s.engine.GetBookingById with
  | some msg => ⟨none, some (.other msg)⟩
  | none =>
    ⟨(s.bookings.find? fun b => b.ID = id ∧ b.DeletedAt = none).map s.preload, none⟩

/-- Method `client.GetAvailableVehicles`: the sub-query selects `vehicle_id` from
the visible bookings with `start_date < to AND end_date > from AND status IN
(reserved, confirmed)`; the query returns the visible vehicles whose `id` is
`NOT IN` it, or the engine's error. -/
def GetAvailableVehicles (s : Store) (from_ to_ : Time) : RetList Vehicle :=
  match s.engine.GetAvailableVehicles with
  | some msg => ⟨[], some (.other msg)⟩
  | none =>
    let subQuery : List Nat :=
      (s.bookings.filter fun b =>
        decide (b.DeletedAt = none ∧
          b.StartDate.nanos < to_.nanos ∧ b.EndDate.nanos > from_.nanos ∧
          (b.Status = commons.BookingStatusReserved ∨
            b.Status = commons.BookingStatusConfirmed))).map fun b => b.VehicleID
    ⟨s.vehicles.filter fun v => decide (v.DeletedAt = none ∧ v.ID ∉ subQuery), none⟩

/-- Method `client.GetBookingsByUserID`:
`Where("user_id = ?", userID).Order("start_date asc")`, with both preloads. -/
def GetBookingsByUserID (s : Store) (userID : Nat) : RetList Booking :=
  match s.engine.GetBookingsByUserID with
  | some msg => ⟨[], some (.other msg)⟩
  | none =>
    ⟨((s.bookings.filter fun b => b.UserID = userID ∧ b.DeletedAt = none).map
        s.preload).insertionSort fun a b => a.StartDate.nanos ≤ b.StartDate.nanos, none⟩

/-- Method `client.GetAdminBookings`: every visible booking,
`Order("start_date asc")`, with both preloads. -/
def GetAdminBookings (s : Store) : RetList Booking :=
  match s.engine.GetAdminBookings with
  | some msg => ⟨[], some (.other msg)⟩
  | none =>
    ⟨(s.liveBookings.map s.preload).insertionSort
        fun a b => a.StartDate.nanos ≤ b.StartDate.nanos, none⟩

/-- The primary key the engine gives to the next inserted booking: one more
than the largest in the table. -/
def nextBookingID (s : Store) : Nat :=
  (s.bookings.map fun b => b.ID).foldr max 0 + 1

/-- Modelled from the spec: `client.CreateBooking` (`DB.Create(&booking)`, evaluated
by gorm, which is not part of the sources): "createBooking(Booking) → stored
Booking". The booking is stored under a fresh primary key and returned with it;
the timestamps gorm writes are left as given. When the engine fails, nothing
is stored and the error is returned with a nil booking. -/
def CreateBooking (s : Store) (booking : Booking) : Store × Ret Booking :=
  match s.engine.CreateBooking with
  | some msg => (s, ⟨none, some (.other msg)⟩)
  | none =>
    let stored : Booking := { booking with ID := s.nextBookingID }
    ({ s with bookings := s.bookings ++ [stored] }, ⟨some stored, none⟩)

/-- Modelled from the spec: `client.UpdateBooking` (`DB.Save(&booking)`, evaluated by
gorm, which is not part of the sources): "updateBooking(Booking) → stored
Booking". The row with the booking's primary key is replaced by the booking
(it is inserted when there is none), and the booking is returned; the
timestamps and message ids gorm writes are left as given. When the engine
fails, nothing is stored and the error is returned with a nil booking. -/
def UpdateBooking (s : Store) (booking : Booking) : Store × Ret Booking :=
  match s.engine.UpdateBooking with
  | some msg => (s, ⟨none, some (.other msg)⟩)
  | none =>
    if s.bookings.any fun b => b.ID = booking.ID then
      ({ s with
          bookings := s.bookings.map fun b => if b.ID = booking.ID then booking else b },
        ⟨some booking, none⟩)
    else ({ s with bookings := s.bookings ++ [booking] }, ⟨some booking, none⟩)

/-- The store seen through the interface `services.BookingsDatabase`: each
method gives the answer of the corresponding `client` method in state `s`. -/
def db (s : Store) : BookingsDatabase :=
  { GetAvailableVehicles := s.GetAvailableVehicles
    GetUserById := s.GetUserById
    GetVehicleById := s.GetVehicleById
    GetBookingById := s.GetBookingById
    CreateBooking := fun booking => (s.CreateBooking booking).2
    UpdateBooking := fun booking => (s.UpdateBooking booking).2
    GetBookingsByUserID := s.GetBookingsByUserID
    GetAdminBookings := s.GetAdminBookings }

/-- The state of the store after a service method has exited with `outcome`:
unchanged when the method returned by itself, written by `CreateBooking` or
`UpdateBooking` when it handed a booking to the store. -/
def apply (s : Store) : Outcome → Store
  | .returned _ _ => s
  | .callCreateBooking booking => (s.CreateBooking booking).1
  | .callUpdateBooking booking => (s.UpdateBooking booking).1

end Store

/-- A request to one of the seven mutating methods of `BookingsService`. -/
inductive ServiceRequest where
  | create (request : requests.CreateBookingRequest)
  | update (request : UpdateRequest)
  deriving DecidableEq, Repr

/-- Exit of the method named by the request. -/
def ServiceRequest.call (db : BookingsDatabase) : ServiceRequest → Outcome
  | .create r => CreateBookingCall db r
  | .update r => r.call db

/-- Result of the method named by the request. -/
def ServiceRequest.run (db : BookingsDatabase) : ServiceRequest → Ret Booking
  | .create r => CreateBooking db r
  | .update r => r.run db

/-- One service call on the store: the state afterwards and the result. -/
def Store.exec (s : Store) (q : ServiceRequest) : Store × Ret Booking :=
  (s.apply (q.call s.db), q.run s.db)

/-- The state after a sequence of service calls. -/
def Store.execAll (s : Store) (qs : List ServiceRequest) : Store :=
  qs.foldl (fun st q => (st.exec q).1) s

/-! ## services: `BookingsService` against the store

The seven mutating methods once more, in state-passing form: the session (the
store and the record of the writes invoked on it) goes into every call of a
`Database` method and comes out of it; `CreateBooking` and `UpdateBooking`
change the store and are recorded. In this form a write that precedes a
`return` would show in the session the method returns. -/

/-- A call of one of the two writing methods of the store. -/
inductive Write where
  | CreateBooking (booking : Booking)
  | UpdateBooking (booking : Booking)
  deriving DecidableEq, Repr

/-- The store together with the writes invoked on it so far. -/
structure Session where
  store : Store
  writes : List Write
  deriving DecidableEq, Repr

namespace Session

def GetUserById (w : Session) (id : Nat) : Ret User × Session :=
  (w.store.GetUserById id, w)

def GetVehicleById (w : Session) (id : Nat) : Ret Vehicle × Session :=
  (w.store.GetVehicleById id, w)

def GetBookingById (w : Session) (id : Nat) : Ret Booking × Session :=
  (w.store.GetBookingById id, w)

def CreateBooking (w : Session) (booking : Booking) : Ret Booking × Session :=
  ((w.store.CreateBooking booking).2,
    ⟨(w.store.CreateBooking booking).1, w.writes ++ [.CreateBooking booking]⟩)

def UpdateBooking (w : Session) (booking : Booking) : Ret Booking × Session :=
  ((w.store.UpdateBooking booking).2,
    ⟨(w.store.UpdateBooking booking).1, w.writes ++ [.UpdateBooking booking]⟩)

/-- The session after a service method has exited with `outcome`. -/
def after (w : Session) : Outcome → Session
  | .returned _ _ => w
  | .callCreateBooking booking => (w.CreateBooking booking).2
  | .callUpdateBooking booking => (w.UpdateBooking booking).2

end Session

namespace BookingsService

def CreateBooking (w : Session) (request : requests.CreateBookingRequest) :
    Ret Booking × Session :=
  match w.GetUserById request.UserID with
  | (⟨_, some err⟩, w) => (⟨none, some err⟩, w)
  | (⟨none, none⟩, w) => (⟨none, some .ErrUserNotFound⟩, w)
  | (⟨some user, none⟩, w) =>
    match w.GetVehicleById request.VehicleID with
    | (⟨_, some err⟩, w) => (⟨none, some err⟩, w)
    | (⟨none, none⟩, w) => (⟨none, some .ErrVehicleNotFound⟩, w)
    | (⟨some vehicle, none⟩, w) =>
      let booking : Booking :=
        { toModel := Model.zero
          Status := commons.BookingStatusReserved
          UserID := request.UserID
          User := user
          VehicleID := request.VehicleID
          Vehicle := vehicle
          Observations := none
          Rating := none
          Feedback := none
          StartDate := request.StartDate
          EndDate := request.EndDate
          PickUpLocation := request.PickUpLocation
          DropOffLocation := request.DropOffLocation
          HourlyFare := vehicle.HourlyFare
          Messages := [] }
      w.CreateBooking booking

def CancelBooking (w : Session) (request : requests.CancelBookingRequest) :
    Ret Booking × Session :=
  match w.GetUserById request.UserID with
  | (⟨_, some err⟩, w) => (⟨none, some err⟩, w)
  | (⟨none, none⟩, w) => (⟨none, some .ErrInvalidCredentials⟩, w)
  | (⟨some user, none⟩, w) =>
    match w.GetBookingById request.ID with
    | (⟨_, some err⟩, w) => (⟨none, some err⟩, w)
    | (⟨none, none⟩, w) => (⟨none, some .ErrBookingNotFound⟩, w)
    | (⟨some booking, none⟩, w) =>
      if booking.UserID ≠ request.UserID ∧ user.Type_ ≠ commons.UserTypeAdmin then
        (⟨none, some .ErrInvalidCredentials⟩, w)
      else if booking.Status = commons.BookingStatusCancelled then
        (⟨none, some .ErrBookingAlreadyCancelled⟩, w)
      else if booking.Status = commons.BookingStatusFinished then
        (⟨none, some .ErrBookingAlreadyFinished⟩, w)
      else if booking.Status = commons.BookingStatusConfirmed then
        (⟨none, some .ErrBookingAlreadyStarted⟩, w)
      else
        let booking : Booking :=
          if booking.Status = commons.BookingStatusReserved then
            { booking with Status := commons.BookingStatusCancelled }
          else booking
        let message : String :=
          if user.Type_ = commons.UserTypeAdmin then "Booking cancelled by admin"
          else "Booking cancelled by user"
        let booking : Booking := { booking with Observations := some message }
        w.UpdateBooking booking

def ConfirmBooking (w : Session) (request : requests.ConfirmBookingRequest) :
    Ret Booking × Session :=
  match w.GetUserById request.UserID with
  | (⟨_, some err⟩, w) => (⟨none, some err⟩, w)
  | (⟨none, none⟩, w) => (⟨none, some .ErrInvalidCredentials⟩, w)
  | (⟨some user, none⟩, w) =>
    match w.GetBookingById request.ID with
    | (⟨_, some err⟩, w) => (⟨none, some err⟩, w)
    | (⟨none, none⟩, w) => (⟨none, some .ErrBookingNotFound⟩, w)
    | (⟨some booking, none⟩, w) =>
      if booking.UserID ≠ request.UserID ∧ user.Type_ ≠ commons.UserTypeAdmin then
        (⟨none, some .ErrInvalidCredentials⟩, w)
      else if booking.Status = commons.BookingStatusCancelled then
        (⟨none, some .ErrBookingAlreadyCancelled⟩, w)
      else if booking.Status = commons.BookingStatusFinished then
        (⟨none, some .ErrBookingAlreadyFinished⟩, w)
      else if booking.Status = commons.BookingStatusConfirmed then
        (⟨none, some .ErrBookingAlreadyStarted⟩, w)
      else
        let booking : Booking :=
          if booking.Status = commons.BookingStatusReserved then
            { booking with Status := commons.BookingStatusConfirmed }
          else booking
        let message : String :=
          if user.Type_ = commons.UserTypeAdmin then "Booking confirmed by admin"
          else "Booking confirmed by user"
        let booking : Booking := { booking with Observations := some message }
        w.UpdateBooking booking

def FinishBooking (w : Session) (request : requests.FinishBookingRequest) :
    Ret Booking × Session :=
  match w.GetUserById request.UserID with
  | (⟨_, some err⟩, w) => (⟨none, some err⟩, w)
  | (⟨none, none⟩, w) => (⟨none, some .ErrInvalidCredentials⟩, w)
  | (⟨some user, none⟩, w) =>
    match w.GetBookingById request.ID with
    | (⟨_, some err⟩, w) => (⟨none, some err⟩, w)
    | (⟨none, none⟩, w) => (⟨none, some .ErrBookingNotFound⟩, w)
    | (⟨some booking, none⟩, w) =>
      if booking.UserID ≠ request.UserID ∧ user.Type_ ≠ commons.UserTypeAdmin then
        (⟨none, some .ErrInvalidCredentials⟩, w)
      else if booking.Status = commons.BookingStatusCancelled then
        (⟨none, some .ErrBookingAlreadyCancelled⟩, w)
      else if booking.Status = commons.BookingStatusFinished then
        (⟨none, some .ErrBookingAlreadyFinished⟩, w)
      else if booking.Status = commons.BookingStatusReserved then
        (⟨none, some .ErrBookingNotStarted⟩, w)
      else
        let booking : Booking :=
          if booking.Status = commons.BookingStatusConfirmed then
            { booking with Status := commons.BookingStatusFinished }
          else booking
        let message : String :=
          if user.Type_ = commons.UserTypeAdmin then "Booking finished by admin"
          else "Booking finished by user"
        let booking : Booking := { booking with Observations := some message }
        w.UpdateBooking booking

def AddFeedbackBooking (w : Session) (request : requests.AddFeedbackBookingRequest) :
    Ret Booking × Session :=
  match w.GetUserById request.UserID with
  | (⟨_, some err⟩, w) => (⟨none, some err⟩, w)
  | (⟨none, none⟩, w) => (⟨none, some .ErrInvalidCredentials⟩, w)
  | (⟨some user, none⟩, w) =>
    match w.GetBookingById request.ID with
    | (⟨_, some err⟩, w) => (⟨none, some err⟩, w)
    | (⟨none, none⟩, w) => (⟨none, some .ErrBookingNotFound⟩, w)
    | (⟨some booking, none⟩, w) =>
      if booking.UserID ≠ request.UserID ∨ user.Type_ ≠ commons.UserTypeClient then
        (⟨none, some .ErrInvalidCredentials⟩, w)
      else if booking.Status = commons.BookingStatusReserved then
        (⟨none, some .ErrBookingNotStarted⟩, w)
      else if booking.Status = commons.BookingStatusConfirmed then
        (⟨none, some .ErrBookingNotFinished⟩, w)
      else if booking.Status = commons.BookingStatusCancelled then
        (⟨none, some .ErrBookingAlreadyCancelled⟩, w)
      else if booking.Status ≠ commons.BookingStatusFinished then
        (⟨none, some .ErrBookingNotFinished⟩, w)
      -- booking.Feedback != nil && *booking.Feedback != ""
      else if booking.Feedback ≠ none ∧ booking.Feedback ≠ some "" then
        (⟨none, some .ErrBookingAlreadyHaveFeedback⟩, w)
      else
        let booking : Booking := { booking with Feedback := some request.Feedback }
        w.UpdateBooking booking

def RateBooking (w : Session) (request : requests.RateBookingRequest) :
    Ret Booking × Session :=
  match w.GetUserById request.UserID with
  | (⟨_, some err⟩, w) => (⟨none, some err⟩, w)
  | (⟨none, none⟩, w) => (⟨none, some .ErrInvalidCredentials⟩, w)
  | (⟨some user, none⟩, w) =>
    match w.GetBookingById request.ID with
    | (⟨_, some err⟩, w) => (⟨none, some err⟩, w)
    | (⟨none, none⟩, w) => (⟨none, some .ErrBookingNotFound⟩, w)
    | (⟨some booking, none⟩, w) =>
      if booking.UserID ≠ request.UserID ∨ user.Type_ ≠ commons.UserTypeClient then
        (⟨none, some .ErrInvalidCredentials⟩, w)
      else if booking.Status = commons.BookingStatusReserved then
        (⟨none, some .ErrBookingNotStarted⟩, w)
      else if booking.Status = commons.BookingStatusConfirmed then
        (⟨none, some .ErrBookingNotFinished⟩, w)
      else if booking.Status = commons.BookingStatusCancelled then
        (⟨none, some .ErrBookingAlreadyCancelled⟩, w)
      else if booking.Status ≠ commons.BookingStatusFinished then
        (⟨none, some .ErrBookingNotFinished⟩, w)
      else
        let booking : Booking := { booking with Rating := some request.Rating }
        w.UpdateBooking booking

def AddMessageToBooking (w : Session) (request : requests.AddMessageToBookingRequest) :
    Ret Booking × Session :=
  match w.GetUserById request.UserID with
  | (⟨_, some err⟩, w) => (⟨none, some err⟩, w)
  | (⟨none, none⟩, w) => (⟨none, some .ErrInvalidCredentials⟩, w)
  | (⟨some user, none⟩, w) =>
    match w.GetBookingById request.ID with
    | (⟨_, some err⟩, w) => (⟨none, some err⟩, w)
    | (⟨none, none⟩, w) => (⟨none, some .ErrBookingNotFound⟩, w)
    | (⟨some booking, none⟩, w) =>
      if booking.UserID ≠ request.UserID ∨ user.Type_ ≠ commons.UserTypeClient then
        (⟨none, some .ErrInvalidCredentials⟩, w)
      else
        let message : BookingMessage :=
          { toModel := Model.zero, BookingID := booking.ID, Message := request.Message }
        let booking : Booking := { booking with Messages := booking.Messages ++ [message] }
        w.UpdateBooking booking

end BookingsService

/-- The method of `BookingsService` named by the request, run on the session. -/
def ServiceRequest.exec (w : Session) : ServiceRequest → Ret Booking × Session
  | .create r => BookingsService.CreateBooking w r
  | .update (.cancel r) => BookingsService.CancelBooking w r
  | .update (.confirm r) => BookingsService.ConfirmBooking w r
  | .update (.finish r) => BookingsService.FinishBooking w r
  | .update (.addFeedback r) => BookingsService.AddFeedbackBooking w r
  | .update (.rate r) => BookingsService.RateBooking w r
  | .update (.addMessage r) => BookingsService.AddMessageToBooking w r

/-- The errors the service methods return by themselves: user, vehicle or
booking not found, invalid credentials, and the booking-state conflicts. -/
def Error.isGuard : Error → Bool
  | .ErrUserNotFound => true
  | .ErrVehicleNotFound => true
  | .ErrBookingNotFound => true
  | .ErrInvalidCredentials => true
  | .ErrBookingAlreadyCancelled => true
  | .ErrBookingAlreadyFinished => true
  | .ErrBookingAlreadyStarted => true
  | .ErrBookingNotStarted => true
  | .ErrBookingNotFinished => true
  | .ErrBookingAlreadyHaveFeedback => true
  | _ => false

/-! ## handlers

A handler is embedded from the point where `c.Bind` and `c.Validate` have
accepted the request (both belong to echo and the validator library). The
service behind the handler is the one `app.go` wires in, over the given
database. A JSON body built by `mapBookingToResponse` / `mapUserToResponse` is
represented by the domain value handed to the mapper (the mapper multiplies
floating-point numbers for `TotalAmount`). -/

namespace http

abbrev StatusOK : Nat := 200
abbrev StatusCreated : Nat := 201
abbrev StatusBadRequest : Nat := 400
abbrev StatusUnauthorized : Nat := 401
abbrev StatusNotFound : Nat := 404
abbrev StatusConflict : Nat := 409
abbrev StatusInternalServerError : Nat := 500

end http

/-- Go `t.Before(u)`: the instant `t` is strictly earlier than `u`. -/
def Time.Before (t u : Time) : Bool := decide (t.nanos < u.nanos)

/-- Go `t.After(u)`: the instant `t` is strictly later than `u`. -/
def Time.After (t u : Time) : Bool := decide (t.nanos > u.nanos)

/-- Go `strconv.ParseUint(s, 10, 32)`: a non-empty string of decimal digits whose
value fits 32 bits; anything else is an error (`none`). -/
def ParseUint32 (s : String) : Option Nat :=
  if s.toList = [] then none
  else
    let digits : Option Nat :=
      s.toList.foldl
        (fun acc c =>
          match acc with
          | none => none
          | some n => if c.isDigit then some (n * 10 + (c.toNat - 48)) else none)
        (some 0)
    match digits with
    | some n => if n < 2 ^ 32 then some n else none
    | none => none

/-- Body of a JSON response. -/
inductive Body where
  | message (text : String)
  | layered (layer : String) (error : String)
  | booking (booking : Booking)
  | bookings (bookings : List Booking)
  | user (user : User)
  deriving DecidableEq, Repr

/-- What a handler does with the request: answer `c.JSON(status, body)`, or
dereference a nil result (`*booking`, `*user`), which panics. -/
inductive Reply where
  | json (status : Nat) (body : Body)
  | nilDereference
  deriving DecidableEq, Repr

/-- Status of a reply, when it is a JSON response. -/
def Reply.status : Reply → Option Nat
  | .json status _ => some status
  | .nilDereference => none

namespace handlers

/-- The checks of `createBooking` that precede the call of the service: the
reply when one of them rejects the request, `none` when the service is called. -/
def createBookingGuard (now : Time) (r : requests.CreateBookingRequest) : Option Reply :=
  if r.StartDate.Before now then
    some (.json http.StatusBadRequest (.message "start date cannot be in the past"))
  else if r.StartDate.After r.EndDate then
    some (.json http.StatusBadRequest (.message "start date cannot be after end date"))
  else none

/-- The part of `createBooking` that follows `h.service.CreateBooking(*r)`. -/
def createBookingReply : Ret Booking → Reply
  | ⟨_, some err⟩ =>
    if err = .ErrVehicleNotAvailable then
      .json http.StatusBadRequest (.message err.message)
    else .json http.StatusInternalServerError (.message err.message)
  | ⟨some booking, none⟩ => .json http.StatusCreated (.booking booking)
  | ⟨none, none⟩ => .nilDereference

/-- The handler `createBooking` at time `now` (`time.Now()`). -/
def createBooking (now : Time) (db : BookingsDatabase) (r : requests.CreateBookingRequest) :
    Reply :=
  match createBookingGuard now r with
  | some reply => reply
  | none => createBookingReply (CreateBooking db r)

def cancelBooking (db : BookingsDatabase) (r : requests.CancelBookingRequest) : Reply :=
  match CancelBooking db r with
  | ⟨_, some err⟩ =>
    if err = .ErrInvalidCredentials then .json http.StatusUnauthorized (.message err.message)
    else if err = .ErrBookingNotFound then .json http.StatusNotFound (.message err.message)
    else if err = .ErrBookingAlreadyCancelled then
      .json http.StatusBadRequest (.message err.message)
    else if err = .ErrBookingAlreadyFinished then
      .json http.StatusBadRequest (.message err.message)
    else if err = .ErrBookingAlreadyStarted then
      .json http.StatusBadRequest (.message err.message)
    else .json http.StatusInternalServerError (.message err.message)
  | ⟨some booking, none⟩ => .json http.StatusOK (.booking booking)
  | ⟨none, none⟩ => .nilDereference

def confirmBooking (db : BookingsDatabase) (r : requests.ConfirmBookingRequest) : Reply :=
  match ConfirmBooking db r with
  | ⟨_, some err⟩ =>
    if err = .ErrInvalidCredentials then .json http.StatusUnauthorized (.message err.message)
    else if err = .ErrBookingNotFound then .json http.StatusNotFound (.message err.message)
    else if err = .ErrBookingAlreadyCancelled then
      .json http.StatusBadRequest (.message err.message)
    else if err = .ErrBookingAlreadyFinished then
      .json http.StatusBadRequest (.message err.message)
    else if err = .ErrBookingAlreadyStarted then
      .json http.StatusBadRequest (.message err.message)
    else .json http.StatusInternalServerError (.message err.message)
  | ⟨some booking, none⟩ => .json http.StatusOK (.booking booking)
  | ⟨none, none⟩ => .nilDereference

def finishBooking (db : BookingsDatabase) (r : requests.FinishBookingRequest) : Reply :=
  match FinishBooking db r with
  | ⟨_, some err⟩ =>
    if err = .ErrInvalidCredentials then .json http.StatusUnauthorized (.message err.message)
    else if err = .ErrBookingNotFound then .json http.StatusNotFound (.message err.message)
    else if err = .ErrBookingAlreadyCancelled then
      .json http.StatusBadRequest (.message err.message)
    else if err = .ErrBookingAlreadyFinished then
      .json http.StatusBadRequest (.message err.message)
    else if err = .ErrBookingNotStarted then
      .json http.StatusBadRequest (.message err.message)
    else .json http.StatusInternalServerError (.message err.message)
  | ⟨some booking, none⟩ => .json http.StatusOK (.booking booking)
  | ⟨none, none⟩ => .nilDereference

def addFeedbackBooking (db : BookingsDatabase) (r : requests.AddFeedbackBookingRequest) :
    Reply :=
  match AddFeedbackBooking db r with
  | ⟨_, some err⟩ =>
    if err = .ErrInvalidCredentials then .json http.StatusUnauthorized (.message err.message)
    else if err = .ErrBookingNotFound then .json http.StatusNotFound (.message err.message)
    else if err = .ErrBookingAlreadyCancelled then
      .json http.StatusBadRequest (.message err.message)
    else if err = .ErrBookingNotFinished then
      .json http.StatusBadRequest (.message err.message)
    else if err = .ErrBookingAlreadyHaveFeedback then
      .json http.StatusBadRequest (.message err.message)
    else .json http.StatusInternalServerError (.message err.message)
  | ⟨some booking, none⟩ => .json http.StatusOK (.booking booking)
  | ⟨none, none⟩ => .nilDereference

def rateBooking (db : BookingsDatabase) (r : requests.RateBookingRequest) : Reply :=
  match RateBooking db r with
  | ⟨_, some err⟩ =>
    if err = .ErrInvalidCredentials then .json http.StatusUnauthorized (.message err.message)
    else if err = .ErrBookingNotFound then .json http.StatusNotFound (.message err.message)
    else if err = .ErrBookingAlreadyCancelled then
      .json http.StatusBadRequest (.message err.message)
    else if err = .ErrBookingNotFinished then
      .json http.StatusBadRequest (.message err.message)
    else .json http.StatusInternalServerError (.message err.message)
  | ⟨some booking, none⟩ => .json http.StatusOK (.booking booking)
  | ⟨none, none⟩ => .nilDereference

def addMessageToBooking (db : BookingsDatabase) (r : requests.AddMessageToBookingRequest) :
    Reply :=
  match AddMessageToBooking db r with
  | ⟨_, some err⟩ =>
    if err = .ErrInvalidCredentials then .json http.StatusUnauthorized (.message err.message)
    else if err = .ErrBookingNotFound then .json http.StatusNotFound (.message err.message)
    else .json http.StatusInternalServerError (.message err.message)
  | ⟨some booking, none⟩ => .json http.StatusOK (.booking booking)
  | ⟨none, none⟩ => .nilDereference

/-- The handler `getBookings`, from the two query parameters `booking_id` and
`user_id` (an absent parameter is the empty string). -/
def getBookings (db : BookingsDatabase) (bookingIDStr userIDStr : String) : Reply :=
  if bookingIDStr = "" ∧ userIDStr = "" then
    .json http.StatusBadRequest
      (.message "invalid query params, required booking_id or user_id")
  else
    let byUser : Reply :=
      if userIDStr ≠ "" then
        match ParseUint32 userIDStr with
        | none => .json http.StatusBadRequest (.message "invalid user id")
        | some userID =>
          if userID ≠ 0 then
            match GetBookingsByUserID db userID with
            | ⟨_, some err⟩ => .json http.StatusInternalServerError (.message err.message)
            | ⟨bookings, none⟩ => .json http.StatusOK (.bookings bookings)
          else .json http.StatusBadRequest (.message "invalid query params")
      else .json http.StatusBadRequest (.message "invalid query params")
    if bookingIDStr ≠ "" then
      match ParseUint32 bookingIDStr with
      | none => .json http.StatusBadRequest (.message "invalid booking id")
      | some bookingID =>
        if bookingID ≠ 0 then
          match GetBookingByID db bookingID with
          | ⟨_, some err⟩ => .json http.StatusInternalServerError (.message err.message)
          | ⟨none, none⟩ => .json http.StatusNotFound (.message "booking not found")
          | ⟨some booking, none⟩ => .json http.StatusOK (.booking booking)
        else byUser
    else byUser

def RegisterUser (db : UsersDatabase) (r : requests.RegisterUserRequest) : Reply :=
  match Backend.RegisterUser db r with
  | ⟨_, some err⟩ =>
    if err = .ErrUserAlreadyExists then
      .json http.StatusConflict (.layered "RegisterUserError Handler" err.message)
    else .json http.StatusInternalServerError (.layered "RegisterUserError Handler" err.message)
  | ⟨some user, none⟩ => .json http.StatusCreated (.user user)
  | ⟨none, none⟩ => .nilDereference

def LoginUser (db : UsersDatabase) (r : requests.LoginUserRequest) : Reply :=
  match Backend.LoginUser db r with
  | ⟨_, some err⟩ =>
    if err = .ErrUserNotFound then
      .json http.StatusNotFound (.layered "LoginUserError Handler" err.message)
    else if err = .ErrInvalidCredentials then
      .json http.StatusUnauthorized (.layered "LoginUserError Handler" err.message)
    else .json http.StatusInternalServerError (.layered "LoginUserError Handler" err.message)
  | ⟨some user, none⟩ => .json http.StatusOK (.user user)
  | ⟨none, none⟩ => .nilDereference

end handlers

/-! ## More vocabulary for the statements -/

/-- The database `db` seen with the stored feedback of every booking cleared. -/
def BookingsDatabase.clearFeedback (db : BookingsDatabase) : BookingsDatabase :=
  { db with
    GetBookingById := fun id =>
      ⟨(db.GetBookingById id).val.map fun b => { b with Feedback := none },
        (db.GetBookingById id).err⟩ }

namespace Fixture

/-- The fixture database in which booking 13 already carries the rating 4. -/
def dbRated : BookingsDatabase :=
  { Fixture.db with
    GetBookingById := fun id =>
      if id = 13 then ⟨some rated13, none⟩ else Fixture.db.GetBookingById id }

/-- Booking 13, already rated 4, after its owner rated it 2. -/
def rerated13 : Booking :=
  { bookingOf 13 commons.BookingStatusFinished none with Rating := some 2 }

/-- Midnight UTC of the day that lies `days` days after 0001-01-01, Go's zero
time; 2024-01-10 is day 738894. -/
def utcMidnight (days : Int) : Time := ⟨days * 86400 * 1000000000⟩

/-- Vehicle with id 2. -/
def vehicleW : Vehicle :=
  { toModel := ⟨2, ⟨0⟩, ⟨0⟩, none⟩, Status := commons.VehicleStatusAvailable,
    BrandModel := "Clio", Brand := "Renault", TransmissionType := "manual", Year := 2019,
    Type_ := "hatchback", HourlyFare := ⟨0x4034000000000000⟩ }

/-- A booking by `clientA` over [2024-01-10T00:00Z, 2024-01-12T00:00Z). -/
def january (id : Nat) (status : String) (vehicle : Vehicle) : Booking :=
  { toModel := ⟨id, ⟨0⟩, ⟨0⟩, none⟩, Status := status, UserID := 1, User := clientA,
    VehicleID := vehicle.ID, Vehicle := vehicle, Observations := none, Rating := none,
    Feedback := none, StartDate := utcMidnight 738894, EndDate := utcMidnight 738896,
    PickUpLocation := "airport", DropOffLocation := "downtown",
    HourlyFare := vehicle.HourlyFare, Messages := [] }

/-- Vehicle with id 3, soft-deleted. -/
def vehicleX : Vehicle :=
  { toModel := ⟨3, ⟨0⟩, ⟨0⟩, some (utcMidnight 738000)⟩,
    Status := commons.VehicleStatusAvailable, BrandModel := "Panda", Brand := "Fiat",
    TransmissionType := "manual", Year := 2015, Type_ := "hatchback",
    HourlyFare := ⟨0x4034000000000000⟩ }

/-- A store with vehicles V and W and the soft-deleted vehicle X: V has a
confirmed booking over [2024-01-10, 2024-01-12); W has a cancelled and a
finished booking over it, and a soft-deleted reserved one. -/
def rentals : Store :=
  { users := [clientA, admin]
    vehicles := [vehicleV, vehicleW, vehicleX]
    bookings := [january 20 commons.BookingStatusConfirmed vehicleV,
      january 21 commons.BookingStatusCancelled vehicleW,
      january 22 commons.BookingStatusFinished vehicleW,
      { january 23 commons.BookingStatusReserved vehicleW with
        DeletedAt := some (utcMidnight 738890) }]
    engine := Engine.ok }

/-- The booking `bookingOf id status feedback` as the store reads it back: with
the `User` field at its zero value. -/
def rowOf (id : Nat) (status : String) (feedback : Option String) : Booking :=
  { bookingOf id status feedback with User := User.zero }

/-- A store with the three fixture users, vehicle V and the fixture bookings
10 (reserved), 11 (confirmed), 12 (cancelled), 13 (finished, no feedback) and
14 (finished, feedback "ok"), on a working engine. -/
def store : Store :=
  { users := [clientA, admin, clientB]
    vehicles := [vehicleV]
    bookings := [rowOf 10 commons.BookingStatusReserved none,
      rowOf 11 commons.BookingStatusConfirmed none,
      rowOf 12 commons.BookingStatusCancelled none,
      rowOf 13 commons.BookingStatusFinished none,
      rowOf 14 commons.BookingStatusFinished (some "ok")]
    engine := Engine.ok }

/-- Users database holding `clientA` and `admin`; a created user gets id 4. -/
def usersDb : UsersDatabase :=
  { GetUserByEmail := fun email =>
      if email = "a@example.com" then ⟨some clientA, none⟩
      else if email = "root@example.com" then ⟨some admin, none⟩
      else ⟨none, none⟩
    CreateUser := fun user => ⟨some { user with ID := 4 }, none⟩ }

/-- Booking 12 (cancelled) after its owner added the message "hello". -/
def messaged12 : Booking :=
  { bookingOf 12 commons.BookingStatusCancelled none with
    Messages := [{ toModel := Model.zero, BookingID := 12, Message := "hello" }] }

end Fixture

/-! ## Shape of every exit through `UpdateBooking` -/

theorem CancelBookingCall_update {db : BookingsDatabase}
    {request : requests.CancelBookingRequest} {b' : Booking}
    (h : CancelBookingCall db request = .callUpdateBooking b') :
    ∃ user booking status observations,
      db.GetUserById request.UserID = ⟨some user, none⟩ ∧
      db.GetBookingById request.ID = ⟨some booking, none⟩ ∧
      b' = { booking with Status := status, Observations := observations } ∧
      (status = booking.Status ∨
        (booking.Status = commons.BookingStatusReserved ∧
          status = commons.BookingStatusCancelled)) := by
  unfold CancelBookingCall at h
  rcases hu : db.GetUserById request.UserID with ⟨_ | user, _ | e⟩ <;> simp [hu] at h
  rcases hb : db.GetBookingById request.ID with ⟨_ | booking, _ | e⟩ <;> simp [hb] at h
  refine ⟨user, booking, b'.Status, b'.Observations, rfl, rfl, ?_⟩
  split_ifs at h <;> simp only [Outcome.callUpdateBooking.injEq, reduceCtorEq] at h <;>
    subst h <;> simp [*]

theorem ConfirmBookingCall_update {db : BookingsDatabase}
    {request : requests.ConfirmBookingRequest} {b' : Booking}
    (h : ConfirmBookingCall db request = .callUpdateBooking b') :
    ∃ user booking status observations,
      db.GetUserById request.UserID = ⟨some user, none⟩ ∧
      db.GetBookingById request.ID = ⟨some booking, none⟩ ∧
      b' = { booking with Status := status, Observations := observations } ∧
      (status = booking.Status ∨
        (booking.Status = commons.BookingStatusReserved ∧
          status = commons.BookingStatusConfirmed)) := by
  unfold ConfirmBookingCall at h
  rcases hu : db.GetUserById request.UserID with ⟨_ | user, _ | e⟩ <;> simp [hu] at h
  rcases hb : db.GetBookingById request.ID with ⟨_ | booking, _ | e⟩ <;> simp [hb] at h
  refine ⟨user, booking, b'.Status, b'.Observations, rfl, rfl, ?_⟩
  split_ifs at h <;> simp only [Outcome.callUpdateBooking.injEq, reduceCtorEq] at h <;>
    subst h <;> simp [*]

theorem FinishBookingCall_update {db : BookingsDatabase}
    {request : requests.FinishBookingRequest} {b' : Booking}
    (h : FinishBookingCall db request = .callUpdateBooking b') :
    ∃ user booking status observations,
      db.GetUserById request.UserID = ⟨some user, none⟩ ∧
      db.GetBookingById request.ID = ⟨some booking, none⟩ ∧
      b' = { booking with Status := status, Observations := observations } ∧
      (status = booking.Status ∨
        (booking.Status = commons.BookingStatusConfirmed ∧
          status = commons.BookingStatusFinished)) := by
  unfold FinishBookingCall at h
  rcases hu : db.GetUserById request.UserID with ⟨_ | user, _ | e⟩ <;> simp [hu] at h
  rcases hb : db.GetBookingById request.ID with ⟨_ | booking, _ | e⟩ <;> simp [hb] at h
  refine ⟨user, booking, b'.Status, b'.Observations, rfl, rfl, ?_⟩
  split_ifs at h <;> simp only [Outcome.callUpdateBooking.injEq, reduceCtorEq] at h <;>
    subst h <;> simp [*]

theorem AddFeedbackBookingCall_update {db : BookingsDatabase}
    {request : requests.AddFeedbackBookingRequest} {b' : Booking}
    (h : AddFeedbackBookingCall db request = .callUpdateBooking b') :
    ∃ user booking,
      db.GetUserById request.UserID = ⟨some user, none⟩ ∧
      db.GetBookingById request.ID = ⟨some booking, none⟩ ∧
      b' = { booking with Feedback := some request.Feedback } := by
  unfold AddFeedbackBookingCall at h
  rcases hu : db.GetUserById request.UserID with ⟨_ | user, _ | e⟩ <;> simp [hu] at h
  rcases hb : db.GetBookingById request.ID with ⟨_ | booking, _ | e⟩ <;> simp [hb] at h
  refine ⟨user, booking, rfl, rfl, ?_⟩
  split_ifs at h
  simp only [Outcome.callUpdateBooking.injEq] at h
  subst h
  rfl

theorem RateBookingCall_update {db : BookingsDatabase}
    {request : requests.RateBookingRequest} {b' : Booking}
    (h : RateBookingCall db request = .callUpdateBooking b') :
    ∃ user booking,
      db.GetUserById request.UserID = ⟨some user, none⟩ ∧
      db.GetBookingById request.ID = ⟨some booking, none⟩ ∧
      b' = { booking with Rating := some request.Rating } := by
  unfold RateBookingCall at h
  rcases hu : db.GetUserById request.UserID with ⟨_ | user, _ | e⟩ <;> simp [hu] at h
  rcases hb : db.GetBookingById request.ID with ⟨_ | booking, _ | e⟩ <;> simp [hb] at h
  refine ⟨user, booking, rfl, rfl, ?_⟩
  split_ifs at h
  simp only [Outcome.callUpdateBooking.injEq] at h
  subst h
  rfl

theorem AddMessageToBookingCall_update {db : BookingsDatabase}
    {request : requests.AddMessageToBookingRequest} {b' : Booking}
    (h : AddMessageToBookingCall db request = .callUpdateBooking b') :
    ∃ user booking,
      db.GetUserById request.UserID = ⟨some user, none⟩ ∧
      db.GetBookingById request.ID = ⟨some booking, none⟩ ∧
      b' = { booking with Messages := booking.Messages ++
        [{ toModel := Model.zero, BookingID := booking.ID, Message := request.Message }] } := by
  unfold AddMessageToBookingCall at h
  rcases hu : db.GetUserById request.UserID with ⟨_ | user, _ | e⟩ <;> simp [hu] at h
  rcases hb : db.GetBookingById request.ID with ⟨_ | booking, _ | e⟩ <;> simp [hb] at h
  refine ⟨user, booking, rfl, rfl, ?_⟩
  split_ifs at h
  simp only [Outcome.callUpdateBooking.injEq] at h
  subst h
  rfl

/-! ## The booking state machine -/

/-- C1: whenever one of CancelBooking, ConfirmBooking, FinishBooking,
AddFeedbackBooking, RateBooking, AddMessageToBooking hands a booking to
UpdateBooking, that booking's status equals the status of the booking read from
the store, or the pair is one of the three edges reserved→confirmed,
reserved→cancelled, confirmed→finished. In particular a cancelled or finished
booking keeps its status and a confirmed booking never becomes cancelled. -/
theorem C1_status_moves_only_along_edges (db : BookingsDatabase) (r : UpdateRequest)
    (b' : Booking) (h : r.call db = .callUpdateBooking b') :
    ∃ b, db.GetBookingById r.ID = ⟨some b, none⟩ ∧
      (b'.Status = b.Status ∨ LifecycleEdge b.Status b'.Status) ∧
      (b.Status = commons.BookingStatusCancelled →
        b'.Status = commons.BookingStatusCancelled) ∧
      (b.Status = commons.BookingStatusFinished →
        b'.Status = commons.BookingStatusFinished) ∧
      (b.Status = commons.BookingStatusConfirmed →
        b'.Status ≠ commons.BookingStatusCancelled) := by
  have key : ∃ b, db.GetBookingById r.ID = ⟨some b, none⟩ ∧
      (b'.Status = b.Status ∨ LifecycleEdge b.Status b'.Status) := by
    cases r with
    | cancel q =>
      obtain ⟨_, b, s, o, _, hb, rfl, hs⟩ := CancelBookingCall_update h
      exact ⟨b, hb, hs.imp id fun e => Or.inr (Or.inl e)⟩
    | confirm q =>
      obtain ⟨_, b, s, o, _, hb, rfl, hs⟩ := ConfirmBookingCall_update h
      exact ⟨b, hb, hs.imp id fun e => Or.inl e⟩
    | finish q =>
      obtain ⟨_, b, s, o, _, hb, rfl, hs⟩ := FinishBookingCall_update h
      exact ⟨b, hb, hs.imp id fun e => Or.inr (Or.inr e)⟩
    | addFeedback q =>
      obtain ⟨_, b, _, hb, rfl⟩ := AddFeedbackBookingCall_update h
      exact ⟨b, hb, Or.inl rfl⟩
    | rate q =>
      obtain ⟨_, b, _, hb, rfl⟩ := RateBookingCall_update h
      exact ⟨b, hb, Or.inl rfl⟩
    | addMessage q =>
      obtain ⟨_, b, _, hb, rfl⟩ := AddMessageToBookingCall_update h
      exact ⟨b, hb, Or.inl rfl⟩
  obtain ⟨b, hb, hs⟩ := key
  refine ⟨b, hb, hs, ?_, ?_, ?_⟩
  · intro hc
    rcases hs with hs | ⟨h1, _⟩ | ⟨h1, _⟩ | ⟨h1, _⟩
    · rw [hs, hc]
    all_goals rw [hc] at h1; exact absurd h1 (by decide)
  · intro hc
    rcases hs with hs | ⟨h1, _⟩ | ⟨h1, _⟩ | ⟨h1, _⟩
    · rw [hs, hc]
    all_goals rw [hc] at h1; exact absurd h1 (by decide)
  · intro hc
    rcases hs with hs | ⟨_, h2⟩ | ⟨h1, _⟩ | ⟨_, h2⟩
    · rw [hs, hc]; decide
    · rw [h2]; decide
    · rw [hc] at h1; exact absurd h1 (by decide)
    · rw [h2]; decide

/-- C1 at the fixture: cancelling reserved booking 10 as its owner hands
UpdateBooking the booking `cancelled10`, and the status read from the store is
related to the new one as the statement says. -/
theorem C1_status_moves_only_along_edges_witness :
    (UpdateRequest.cancel ⟨10, 1⟩).call Fixture.db = .callUpdateBooking Fixture.cancelled10 ∧
    ∃ b, Fixture.db.GetBookingById 10 = ⟨some b, none⟩ ∧
      (Fixture.cancelled10.Status = b.Status ∨
        LifecycleEdge b.Status Fixture.cancelled10.Status) :=
  ⟨by decide,
    (C1_status_moves_only_along_edges Fixture.db (.cancel ⟨10, 1⟩) Fixture.cancelled10
      (by decide)).imp fun _ hb => ⟨hb.1, hb.2.1⟩⟩

/-! ## Transition table -/

/-- C2: CancelBooking with an existing acting user and an existing booking that
the user owns or acts on as admin. A cancelled booking
yields ErrBookingAlreadyCancelled, a finished one ErrBookingAlreadyFinished, a
confirmed one ErrBookingAlreadyStarted; a reserved one is handed to UpdateBooking
with status cancelled and Observations "Booking cancelled by admin" when the
acting user's type is admin (owner or not), "Booking cancelled by user"
otherwise. -/
theorem C2_CancelBooking_by_status (db : BookingsDatabase)
    (request : requests.CancelBookingRequest) (user : User) (booking : Booking)
    (hu : db.GetUserById request.UserID = ⟨some user, none⟩)
    (hb : db.GetBookingById request.ID = ⟨some booking, none⟩)
    (hauth : booking.UserID = request.UserID ∨ user.Type_ = commons.UserTypeAdmin) :
    (booking.Status = commons.BookingStatusCancelled →
      CancelBooking db request = ⟨none, some .ErrBookingAlreadyCancelled⟩) ∧
    (booking.Status = commons.BookingStatusFinished →
      CancelBooking db request = ⟨none, some .ErrBookingAlreadyFinished⟩) ∧
    (booking.Status = commons.BookingStatusConfirmed →
      CancelBooking db request = ⟨none, some .ErrBookingAlreadyStarted⟩) ∧
    (booking.Status = commons.BookingStatusReserved →
      ∃ b', CancelBookingCall db request = .callUpdateBooking b' ∧
        CancelBooking db request = db.UpdateBooking b' ∧
        b'.Status = commons.BookingStatusCancelled ∧
        (user.Type_ = commons.UserTypeAdmin →
          b'.Observations = some "Booking cancelled by admin") ∧
        (user.Type_ ≠ commons.UserTypeAdmin →
          b'.Observations = some "Booking cancelled by user")) := by
  have hne : ¬(booking.UserID ≠ request.UserID ∧ user.Type_ ≠ commons.UserTypeAdmin) := by
    tauto
  refine ⟨?_, ?_, ?_, ?_⟩ <;> intro hs
  · simp [CancelBooking, CancelBookingCall, hu, hb, Outcome.run, hne, hs,
      commons.BookingStatusReserved, commons.BookingStatusConfirmed,
      commons.BookingStatusCancelled, commons.BookingStatusFinished]
  · simp [CancelBooking, CancelBookingCall, hu, hb, Outcome.run, hne, hs,
      commons.BookingStatusReserved, commons.BookingStatusConfirmed,
      commons.BookingStatusCancelled, commons.BookingStatusFinished]
  · simp [CancelBooking, CancelBookingCall, hu, hb, Outcome.run, hne, hs,
      commons.BookingStatusReserved, commons.BookingStatusConfirmed,
      commons.BookingStatusCancelled, commons.BookingStatusFinished]
  · refine ⟨{ booking with
        Status := commons.BookingStatusCancelled
        Observations := some (if user.Type_ = commons.UserTypeAdmin
          then "Booking cancelled by admin" else "Booking cancelled by user") },
      ?_, ?_, rfl, ?_, ?_⟩
    · simp [CancelBookingCall, hu, hb, hne, hs,
        commons.BookingStatusReserved, commons.BookingStatusConfirmed,
        commons.BookingStatusCancelled, commons.BookingStatusFinished]
    · simp [CancelBooking, CancelBookingCall, hu, hb, Outcome.run, hne, hs,
      commons.BookingStatusReserved, commons.BookingStatusConfirmed,
      commons.BookingStatusCancelled, commons.BookingStatusFinished]
    · intro ha; simp [ha]
    · intro ha; simp [ha]

/-- C2 at the fixture: the admin (id 2), who does not own booking 10, cancels
it while it is reserved; owner `clientA` is refused on confirmed booking 11. -/
theorem C2_CancelBooking_by_status_witness :
    (∃ b', CancelBookingCall Fixture.db ⟨10, 2⟩ = .callUpdateBooking b' ∧
      b'.Status = commons.BookingStatusCancelled ∧
      b'.Observations = some "Booking cancelled by admin") ∧
    CancelBooking Fixture.db ⟨11, 1⟩ = ⟨none, some .ErrBookingAlreadyStarted⟩ :=
  ⟨((C2_CancelBooking_by_status Fixture.db ⟨10, 2⟩ Fixture.admin
      (Fixture.bookingOf 10 commons.BookingStatusReserved none) rfl rfl
      (Or.inr rfl)).2.2.2 rfl).imp fun _ hb => ⟨hb.1, hb.2.2.1, hb.2.2.2.1 rfl⟩,
    (C2_CancelBooking_by_status Fixture.db ⟨11, 1⟩ Fixture.clientA
      (Fixture.bookingOf 11 commons.BookingStatusConfirmed none) rfl rfl
      (Or.inl rfl)).2.2.1 rfl⟩

/-- C3: ConfirmBooking with an existing acting user and an existing booking that
the user owns or acts on as admin. A cancelled booking
yields ErrBookingAlreadyCancelled, a finished one ErrBookingAlreadyFinished, a
confirmed one ErrBookingAlreadyStarted; a reserved one is handed to UpdateBooking
with status confirmed and Observations "Booking confirmed by admin" when the
acting user's type is admin, "Booking confirmed by user" otherwise. -/
theorem C3_ConfirmBooking_by_status (db : BookingsDatabase)
    (request : requests.ConfirmBookingRequest) (user : User) (booking : Booking)
    (hu : db.GetUserById request.UserID = ⟨some user, none⟩)
    (hb : db.GetBookingById request.ID = ⟨some booking, none⟩)
    (hauth : booking.UserID = request.UserID ∨ user.Type_ = commons.UserTypeAdmin) :
    (booking.Status = commons.BookingStatusCancelled →
      ConfirmBooking db request = ⟨none, some .ErrBookingAlreadyCancelled⟩) ∧
    (booking.Status = commons.BookingStatusFinished →
      ConfirmBooking db request = ⟨none, some .ErrBookingAlreadyFinished⟩) ∧
    (booking.Status = commons.BookingStatusConfirmed →
      ConfirmBooking db request = ⟨none, some .ErrBookingAlreadyStarted⟩) ∧
    (booking.Status = commons.BookingStatusReserved →
      ∃ b', ConfirmBookingCall db request = .callUpdateBooking b' ∧
        ConfirmBooking db request = db.UpdateBooking b' ∧
        b'.Status = commons.BookingStatusConfirmed ∧
        (user.Type_ = commons.UserTypeAdmin →
          b'.Observations = some "Booking confirmed by admin") ∧
        (user.Type_ ≠ commons.UserTypeAdmin →
          b'.Observations = some "Booking confirmed by user")) := by
  have hne : ¬(booking.UserID ≠ request.UserID ∧ user.Type_ ≠ commons.UserTypeAdmin) := by
    tauto
  refine ⟨?_, ?_, ?_, ?_⟩ <;> intro hs
  · simp [ConfirmBooking, ConfirmBookingCall, hu, hb, Outcome.run, hne, hs,
      commons.BookingStatusReserved, commons.BookingStatusConfirmed,
      commons.BookingStatusCancelled, commons.BookingStatusFinished]
  · simp [ConfirmBooking, ConfirmBookingCall, hu, hb, Outcome.run, hne, hs,
      commons.BookingStatusReserved, commons.BookingStatusConfirmed,
      commons.BookingStatusCancelled, commons.BookingStatusFinished]
  · simp [ConfirmBooking, ConfirmBookingCall, hu, hb, Outcome.run, hne, hs,
      commons.BookingStatusReserved, commons.BookingStatusConfirmed,
      commons.BookingStatusCancelled, commons.BookingStatusFinished]
  · refine ⟨{ booking with
        Status := commons.BookingStatusConfirmed
        Observations := some (if user.Type_ = commons.UserTypeAdmin
          then "Booking confirmed by admin" else "Booking confirmed by user") },
      ?_, ?_, rfl, ?_, ?_⟩
    · simp [ConfirmBookingCall, hu, hb, hne, hs,
        commons.BookingStatusReserved, commons.BookingStatusConfirmed,
        commons.BookingStatusCancelled, commons.BookingStatusFinished]
    · simp [ConfirmBooking, ConfirmBookingCall, hu, hb, Outcome.run, hne, hs,
      commons.BookingStatusReserved, commons.BookingStatusConfirmed,
      commons.BookingStatusCancelled, commons.BookingStatusFinished]
    · intro ha; simp [ha]
    · intro ha; simp [ha]

/-- C3 at the fixture: owner `clientA` confirms reserved booking 10; the admin
is refused on finished booking 13. -/
theorem C3_ConfirmBooking_by_status_witness :
    (∃ b', ConfirmBookingCall Fixture.db ⟨10, 1⟩ = .callUpdateBooking b' ∧
      b'.Status = commons.BookingStatusConfirmed ∧
      b'.Observations = some "Booking confirmed by user") ∧
    ConfirmBooking Fixture.db ⟨13, 2⟩ = ⟨none, some .ErrBookingAlreadyFinished⟩ :=
  ⟨((C3_ConfirmBooking_by_status Fixture.db ⟨10, 1⟩ Fixture.clientA
      (Fixture.bookingOf 10 commons.BookingStatusReserved none) rfl rfl
      (Or.inl rfl)).2.2.2 rfl).imp
        fun _ hb => ⟨hb.1, hb.2.2.1, hb.2.2.2.2 (by decide)⟩,
    (C3_ConfirmBooking_by_status Fixture.db ⟨13, 2⟩ Fixture.admin
      (Fixture.bookingOf 13 commons.BookingStatusFinished none) rfl rfl
      (Or.inr rfl)).2.1 rfl⟩

/-- C4: FinishBooking with an existing acting user and an existing booking that
the user owns or acts on as admin. A cancelled booking
yields ErrBookingAlreadyCancelled, a finished one ErrBookingAlreadyFinished, a
reserved one ErrBookingNotStarted; a confirmed one is handed to UpdateBooking
with status finished and Observations "Booking finished by admin" when the
acting user's type is admin, "Booking finished by user" otherwise. -/
theorem C4_FinishBooking_by_status (db : BookingsDatabase)
    (request : requests.FinishBookingRequest) (user : User) (booking : Booking)
    (hu : db.GetUserById request.UserID = ⟨some user, none⟩)
    (hb : db.GetBookingById request.ID = ⟨some booking, none⟩)
    (hauth : booking.UserID = request.UserID ∨ user.Type_ = commons.UserTypeAdmin) :
    (booking.Status = commons.BookingStatusCancelled →
      FinishBooking db request = ⟨none, some .ErrBookingAlreadyCancelled⟩) ∧
    (booking.Status = commons.BookingStatusFinished →
      FinishBooking db request = ⟨none, some .ErrBookingAlreadyFinished⟩) ∧
    (booking.Status = commons.BookingStatusReserved →
      FinishBooking db request = ⟨none, some .ErrBookingNotStarted⟩) ∧
    (booking.Status = commons.BookingStatusConfirmed →
      ∃ b', FinishBookingCall db request = .callUpdateBooking b' ∧
        FinishBooking db request = db.UpdateBooking b' ∧
        b'.Status = commons.BookingStatusFinished ∧
        (user.Type_ = commons.UserTypeAdmin →
          b'.Observations = some "Booking finished by admin") ∧
        (user.Type_ ≠ commons.UserTypeAdmin →
          b'.Observations = some "Booking finished by user")) := by
  have hne : ¬(booking.UserID ≠ request.UserID ∧ user.Type_ ≠ commons.UserTypeAdmin) := by
    tauto
  refine ⟨?_, ?_, ?_, ?_⟩ <;> intro hs
  · simp [FinishBooking, FinishBookingCall, hu, hb, Outcome.run, hne, hs,
      commons.BookingStatusReserved, commons.BookingStatusConfirmed,
      commons.BookingStatusCancelled, commons.BookingStatusFinished]
  · simp [FinishBooking, FinishBookingCall, hu, hb, Outcome.run, hne, hs,
      commons.BookingStatusReserved, commons.BookingStatusConfirmed,
      commons.BookingStatusCancelled, commons.BookingStatusFinished]
  · simp [FinishBooking, FinishBookingCall, hu, hb, Outcome.run, hne, hs,
      commons.BookingStatusReserved, commons.BookingStatusConfirmed,
      commons.BookingStatusCancelled, commons.BookingStatusFinished]
  · refine ⟨{ booking with
        Status := commons.BookingStatusFinished
        Observations := some (if user.Type_ = commons.UserTypeAdmin
          then "Booking finished by admin" else "Booking finished by user") },
      ?_, ?_, rfl, ?_, ?_⟩
    · simp [FinishBookingCall, hu, hb, hne, hs,
        commons.BookingStatusReserved, commons.BookingStatusConfirmed,
        commons.BookingStatusCancelled, commons.BookingStatusFinished]
    · simp [FinishBooking, FinishBookingCall, hu, hb, Outcome.run, hne, hs,
      commons.BookingStatusReserved, commons.BookingStatusConfirmed,
      commons.BookingStatusCancelled, commons.BookingStatusFinished]
    · intro ha; simp [ha]
    · intro ha; simp [ha]

/-- C4 at the fixture: the admin finishes confirmed booking 11; owner `clientA`
is refused on reserved booking 10. -/
theorem C4_FinishBooking_by_status_witness :
    (∃ b', FinishBookingCall Fixture.db ⟨11, 2⟩ = .callUpdateBooking b' ∧
      b'.Status = commons.BookingStatusFinished ∧
      b'.Observations = some "Booking finished by admin") ∧
    FinishBooking Fixture.db ⟨10, 1⟩ = ⟨none, some .ErrBookingNotStarted⟩ :=
  ⟨((C4_FinishBooking_by_status Fixture.db ⟨11, 2⟩ Fixture.admin
      (Fixture.bookingOf 11 commons.BookingStatusConfirmed none) rfl rfl
      (Or.inr rfl)).2.2.2 rfl).imp fun _ hb => ⟨hb.1, hb.2.2.1, hb.2.2.2.1 rfl⟩,
    (C4_FinishBooking_by_status Fixture.db ⟨10, 1⟩ Fixture.clientA
      (Fixture.bookingOf 10 commons.BookingStatusReserved none) rfl rfl
      (Or.inl rfl)).2.2.1 rfl⟩

/-! ## Authorization of cancel / confirm / finish -/

theorem CancelBookingCall_denied_iff (db : BookingsDatabase)
    (request : requests.CancelBookingRequest)
    {user : User} {booking : Booking}
    (hu : db.GetUserById request.UserID = ⟨some user, none⟩)
    (hb : db.GetBookingById request.ID = ⟨some booking, none⟩) :
    CancelBookingCall db request = .returned none (some .ErrInvalidCredentials) ↔
      (booking.UserID ≠ request.UserID ∧ user.Type_ ≠ commons.UserTypeAdmin) := by
  by_cases hd : booking.UserID ≠ request.UserID ∧ user.Type_ ≠ commons.UserTypeAdmin
  · simp [CancelBookingCall, hu, hb, hd]
  · simp only [CancelBookingCall, hu, hb, hd, if_false, iff_false]
    split_ifs <;> simp

theorem CancelBooking_err_denied_iff (db : BookingsDatabase)
    (request : requests.CancelBookingRequest)
    {user : User} {booking : Booking}
    (hu : db.GetUserById request.UserID = ⟨some user, none⟩)
    (hb : db.GetBookingById request.ID = ⟨some booking, none⟩)
    (hstore : ∀ b, (db.UpdateBooking b).err ≠ some .ErrInvalidCredentials) :
    (CancelBooking db request).err = some .ErrInvalidCredentials ↔
      (booking.UserID ≠ request.UserID ∧ user.Type_ ≠ commons.UserTypeAdmin) := by
  by_cases hd : booking.UserID ≠ request.UserID ∧ user.Type_ ≠ commons.UserTypeAdmin
  · simp [CancelBooking, CancelBookingCall, hu, hb, hd, Outcome.run]
  · simp only [CancelBooking, CancelBookingCall, hu, hb, hd, if_false, iff_false]
    split_ifs <;> simp [Outcome.run, hstore]

theorem CancelBooking_booking_absent (db : BookingsDatabase)
    (request : requests.CancelBookingRequest)
    {user : User}
    (hu : db.GetUserById request.UserID = ⟨some user, none⟩)
    (hb : db.GetBookingById request.ID = ⟨none, none⟩) :
    CancelBooking db request = ⟨none, some .ErrBookingNotFound⟩ := by
  simp [CancelBooking, CancelBookingCall, hu, hb, Outcome.run]

theorem ConfirmBookingCall_denied_iff (db : BookingsDatabase)
    (request : requests.ConfirmBookingRequest)
    {user : User} {booking : Booking}
    (hu : db.GetUserById request.UserID = ⟨some user, none⟩)
    (hb : db.GetBookingById request.ID = ⟨some booking, none⟩) :
    ConfirmBookingCall db request = .returned none (some .ErrInvalidCredentials) ↔
      (booking.UserID ≠ request.UserID ∧ user.Type_ ≠ commons.UserTypeAdmin) := by
  by_cases hd : booking.UserID ≠ request.UserID ∧ user.Type_ ≠ commons.UserTypeAdmin
  · simp [ConfirmBookingCall, hu, hb, hd]
  · simp only [ConfirmBookingCall, hu, hb, hd, if_false, iff_false]
    split_ifs <;> simp

theorem ConfirmBooking_err_denied_iff (db : BookingsDatabase)
    (request : requests.ConfirmBookingRequest)
    {user : User} {booking : Booking}
    (hu : db.GetUserById request.UserID = ⟨some user, none⟩)
    (hb : db.GetBookingById request.ID = ⟨some booking, none⟩)
    (hstore : ∀ b, (db.UpdateBooking b).err ≠ some .ErrInvalidCredentials) :
    (ConfirmBooking db request).err = some .ErrInvalidCredentials ↔
      (booking.UserID ≠ request.UserID ∧ user.Type_ ≠ commons.UserTypeAdmin) := by
  by_cases hd : booking.UserID ≠ request.UserID ∧ user.Type_ ≠ commons.UserTypeAdmin
  · simp [ConfirmBooking, ConfirmBookingCall, hu, hb, hd, Outcome.run]
  · simp only [ConfirmBooking, ConfirmBookingCall, hu, hb, hd, if_false, iff_false]
    split_ifs <;> simp [Outcome.run, hstore]

theorem ConfirmBooking_booking_absent (db : BookingsDatabase)
    (request : requests.ConfirmBookingRequest)
    {user : User}
    (hu : db.GetUserById request.UserID = ⟨some user, none⟩)
    (hb : db.GetBookingById request.ID = ⟨none, none⟩) :
    ConfirmBooking db request = ⟨none, some .ErrBookingNotFound⟩ := by
  simp [ConfirmBooking, ConfirmBookingCall, hu, hb, Outcome.run]

theorem FinishBookingCall_denied_iff (db : BookingsDatabase)
    (request : requests.FinishBookingRequest)
    {user : User} {booking : Booking}
    (hu : db.GetUserById request.UserID = ⟨some user, none⟩)
    (hb : db.GetBookingById request.ID = ⟨some booking, none⟩) :
    FinishBookingCall db request = .returned none (some .ErrInvalidCredentials) ↔
      (booking.UserID ≠ request.UserID ∧ user.Type_ ≠ commons.UserTypeAdmin) := by
  by_cases hd : booking.UserID ≠ request.UserID ∧ user.Type_ ≠ commons.UserTypeAdmin
  · simp [FinishBookingCall, hu, hb, hd]
  · simp only [FinishBookingCall, hu, hb, hd, if_false, iff_false]
    split_ifs <;> simp

theorem FinishBooking_err_denied_iff (db : BookingsDatabase)
    (request : requests.FinishBookingRequest)
    {user : User} {booking : Booking}
    (hu : db.GetUserById request.UserID = ⟨some user, none⟩)
    (hb : db.GetBookingById request.ID = ⟨some booking, none⟩)
    (hstore : ∀ b, (db.UpdateBooking b).err ≠ some .ErrInvalidCredentials) :
    (FinishBooking db request).err = some .ErrInvalidCredentials ↔
      (booking.UserID ≠ request.UserID ∧ user.Type_ ≠ commons.UserTypeAdmin) := by
  by_cases hd : booking.UserID ≠ request.UserID ∧ user.Type_ ≠ commons.UserTypeAdmin
  · simp [FinishBooking, FinishBookingCall, hu, hb, hd, Outcome.run]
  · simp only [FinishBooking, FinishBookingCall, hu, hb, hd, if_false, iff_false]
    split_ifs <;> simp [Outcome.run, hstore]

theorem FinishBooking_booking_absent (db : BookingsDatabase)
    (request : requests.FinishBookingRequest)
    {user : User}
    (hu : db.GetUserById request.UserID = ⟨some user, none⟩)
    (hb : db.GetBookingById request.ID = ⟨none, none⟩) :
    FinishBooking db request = ⟨none, some .ErrBookingNotFound⟩ := by
  simp [FinishBooking, FinishBookingCall, hu, hb, Outcome.run]

/-- C5: for CancelBooking, ConfirmBooking and FinishBooking, when the acting
user exists. If the booking exists too, the method returns ErrInvalidCredentials
from its own guard exactly when the user neither owns the booking nor has type
admin, whatever the booking status; and, for a store whose UpdateBooking never
answers with ErrInvalidCredentials itself, the error of the final result is
ErrInvalidCredentials exactly in that case. If the booking does not exist the
result is ErrBookingNotFound. -/
theorem C5_invalid_credentials_iff_not_owner_nor_admin (db : BookingsDatabase)
    (id uid : Nat) (user : User) (hu : db.GetUserById uid = ⟨some user, none⟩) :
    (∀ booking, db.GetBookingById id = ⟨some booking, none⟩ →
      ((CancelBookingCall db ⟨id, uid⟩ = .returned none (some .ErrInvalidCredentials) ↔
          (booking.UserID ≠ uid ∧ user.Type_ ≠ commons.UserTypeAdmin)) ∧
        (ConfirmBookingCall db ⟨id, uid⟩ = .returned none (some .ErrInvalidCredentials) ↔
          (booking.UserID ≠ uid ∧ user.Type_ ≠ commons.UserTypeAdmin)) ∧
        (FinishBookingCall db ⟨id, uid⟩ = .returned none (some .ErrInvalidCredentials) ↔
          (booking.UserID ≠ uid ∧ user.Type_ ≠ commons.UserTypeAdmin))) ∧
      ((∀ b, (db.UpdateBooking b).err ≠ some .ErrInvalidCredentials) →
        (((CancelBooking db ⟨id, uid⟩).err = some .ErrInvalidCredentials ↔
            (booking.UserID ≠ uid ∧ user.Type_ ≠ commons.UserTypeAdmin)) ∧
          ((ConfirmBooking db ⟨id, uid⟩).err = some .ErrInvalidCredentials ↔
            (booking.UserID ≠ uid ∧ user.Type_ ≠ commons.UserTypeAdmin)) ∧
          ((FinishBooking db ⟨id, uid⟩).err = some .ErrInvalidCredentials ↔
            (booking.UserID ≠ uid ∧ user.Type_ ≠ commons.UserTypeAdmin))))) ∧
    (db.GetBookingById id = ⟨none, none⟩ →
      CancelBooking db ⟨id, uid⟩ = ⟨none, some .ErrBookingNotFound⟩ ∧
      ConfirmBooking db ⟨id, uid⟩ = ⟨none, some .ErrBookingNotFound⟩ ∧
      FinishBooking db ⟨id, uid⟩ = ⟨none, some .ErrBookingNotFound⟩) := by
  refine ⟨fun booking hb => ⟨⟨?_, ?_, ?_⟩, fun hstore => ⟨?_, ?_, ?_⟩⟩, fun hb => ⟨?_, ?_, ?_⟩⟩
  · exact CancelBookingCall_denied_iff db ⟨id, uid⟩ hu hb
  · exact ConfirmBookingCall_denied_iff db ⟨id, uid⟩ hu hb
  · exact FinishBookingCall_denied_iff db ⟨id, uid⟩ hu hb
  · exact CancelBooking_err_denied_iff db ⟨id, uid⟩ hu hb hstore
  · exact ConfirmBooking_err_denied_iff db ⟨id, uid⟩ hu hb hstore
  · exact FinishBooking_err_denied_iff db ⟨id, uid⟩ hu hb hstore
  · exact CancelBooking_booking_absent db ⟨id, uid⟩ hu hb
  · exact ConfirmBooking_booking_absent db ⟨id, uid⟩ hu hb
  · exact FinishBooking_booking_absent db ⟨id, uid⟩ hu hb

/-- C5 at the fixture: `clientB` (id 3, a client owning nothing) is refused with
ErrInvalidCredentials on confirmed booking 11, ahead of the status error; the
admin (id 2) confirming reserved booking 10 does not get ErrInvalidCredentials
(the fixture store's UpdateBooking never errors); on the unknown booking 99 the
result is ErrBookingNotFound. -/
theorem C5_invalid_credentials_iff_not_owner_nor_admin_witness :
    CancelBookingCall Fixture.db ⟨11, 3⟩ = .returned none (some .ErrInvalidCredentials) ∧
    (ConfirmBooking Fixture.db ⟨10, 2⟩).err ≠ some .ErrInvalidCredentials ∧
    FinishBooking Fixture.db ⟨99, 3⟩ = ⟨none, some .ErrBookingNotFound⟩ :=
  ⟨((C5_invalid_credentials_iff_not_owner_nor_admin Fixture.db 11 3 Fixture.clientB rfl).1
      (Fixture.bookingOf 11 commons.BookingStatusConfirmed none) rfl).1.1.2
        ⟨by decide, by decide⟩,
    fun herr =>
      ((((C5_invalid_credentials_iff_not_owner_nor_admin Fixture.db 10 2 Fixture.admin rfl).1
        (Fixture.bookingOf 10 commons.BookingStatusReserved none) rfl).2
          (fun _ h => Option.noConfusion h)).2.1.1 herr).2 rfl,
    ((C5_invalid_credentials_iff_not_owner_nor_admin Fixture.db 99 3 Fixture.clientB rfl).2
      rfl).2.2⟩

/-! ## Unknown acting user -/

/-- C6, counterexample to the claim as stated: with the unknown user id 99,
CreateBooking fails with ErrUserNotFound, which is a not-found error and is not
ErrInvalidCredentials. -/
theorem C6_create_unknown_user_counterexample :
    Fixture.db.GetUserById 99 = ⟨none, none⟩ ∧
    CreateBooking Fixture.db ⟨99, 1, ⟨3000⟩, ⟨4000⟩, "airport", "downtown"⟩ =
      ⟨none, some .ErrUserNotFound⟩ ∧
    (CreateBooking Fixture.db ⟨99, 1, ⟨3000⟩, ⟨4000⟩, "airport", "downtown"⟩).err ≠
      some .ErrInvalidCredentials :=
  ⟨rfl, rfl, by decide⟩

/-- C6, amended: when no user has the request's user id, each of CancelBooking,
ConfirmBooking, FinishBooking, AddFeedbackBooking, RateBooking and
AddMessageToBooking returns ErrInvalidCredentials from its own guard (so neither
ErrUserNotFound nor ErrBookingNotFound), whatever the store answers for the
booking id; CreateBooking returns ErrUserNotFound, whatever the store answers
for the vehicle id. -/
theorem C6_unknown_user (db : BookingsDatabase) (uid : Nat)
    (hu : db.GetUserById uid = ⟨none, none⟩) :
    (∀ r : UpdateRequest, r.UserID = uid →
      r.call db = .returned none (some .ErrInvalidCredentials) ∧
      r.run db = ⟨none, some .ErrInvalidCredentials⟩) ∧
    (∀ request : requests.CreateBookingRequest, request.UserID = uid →
      CreateBookingCall db request = .returned none (some .ErrUserNotFound) ∧
      CreateBooking db request = ⟨none, some .ErrUserNotFound⟩) := by
  constructor
  · intro r hr
    cases r <;> simp only [UpdateRequest.UserID] at hr <;> subst hr <;>
      simp [UpdateRequest.call, UpdateRequest.run, CancelBooking, CancelBookingCall,
        ConfirmBooking, ConfirmBookingCall, FinishBooking, FinishBookingCall,
        AddFeedbackBooking, AddFeedbackBookingCall, RateBooking, RateBookingCall,
        AddMessageToBooking, AddMessageToBookingCall, Outcome.run, hu]
  · intro request hr
    subst hr
    simp [CreateBooking, CreateBookingCall, Outcome.run, hu]

/-- C6 at the fixture: user id 99 is unknown; rating the known booking 13 and
cancelling the unknown booking 99 both give ErrInvalidCredentials. -/
theorem C6_unknown_user_witness :
    Fixture.db.GetUserById 99 = ⟨none, none⟩ ∧
    RateBooking Fixture.db ⟨13, 99, 5⟩ = ⟨none, some .ErrInvalidCredentials⟩ ∧
    CancelBooking Fixture.db ⟨99, 99⟩ = ⟨none, some .ErrInvalidCredentials⟩ :=
  ⟨rfl, ((C6_unknown_user Fixture.db 99 rfl).1 (.rate ⟨13, 99, 5⟩) rfl).2,
    ((C6_unknown_user Fixture.db 99 rfl).1 (.cancel ⟨99, 99⟩) rfl).2⟩

/-! ## Creation -/

/-- C7: CreateBooking, when the two store lookups do not error. An unknown user
id gives ErrUserNotFound (whatever the vehicle lookup says); a known user with
an unknown vehicle id gives ErrVehicleNotFound; otherwise the store's
CreateBooking receives a fresh booking with status reserved, the request's user
id, vehicle id, start, end, pick-up and drop-off, the looked-up user and
vehicle, the vehicle's HourlyFare, and nothing else set. The outcome is a
function of these two lookups only: two stores that agree on them (and differ
in bookings or availability in any way) give the same outcome. -/
theorem C7_create_booking (db : BookingsDatabase) (request : requests.CreateBookingRequest) :
    (db.GetUserById request.UserID = ⟨none, none⟩ →
      CreateBooking db request = ⟨none, some .ErrUserNotFound⟩) ∧
    (∀ user, db.GetUserById request.UserID = ⟨some user, none⟩ →
      db.GetVehicleById request.VehicleID = ⟨none, none⟩ →
      CreateBooking db request = ⟨none, some .ErrVehicleNotFound⟩) ∧
    (∀ user vehicle, db.GetUserById request.UserID = ⟨some user, none⟩ →
      db.GetVehicleById request.VehicleID = ⟨some vehicle, none⟩ →
      ∃ b, CreateBookingCall db request = .callCreateBooking b ∧
        CreateBooking db request = db.CreateBooking b ∧
        b.Status = commons.BookingStatusReserved ∧
        b.UserID = request.UserID ∧ b.VehicleID = request.VehicleID ∧
        b.StartDate = request.StartDate ∧ b.EndDate = request.EndDate ∧
        b.PickUpLocation = request.PickUpLocation ∧
        b.DropOffLocation = request.DropOffLocation ∧
        b.HourlyFare = vehicle.HourlyFare ∧
        b.User = user ∧ b.Vehicle = vehicle ∧ b.toModel = Model.zero ∧
        b.Observations = none ∧ b.Rating = none ∧ b.Feedback = none ∧ b.Messages = []) ∧
    (∀ db2 : BookingsDatabase,
      db2.GetUserById request.UserID = db.GetUserById request.UserID →
      db2.GetVehicleById request.VehicleID = db.GetVehicleById request.VehicleID →
      CreateBookingCall db2 request = CreateBookingCall db request) := by
  refine ⟨fun hu => ?_, fun user hu hv => ?_, fun user vehicle hu hv => ?_,
    fun db2 h1 h2 => ?_⟩
  · simp [CreateBooking, CreateBookingCall, Outcome.run, hu]
  · simp [CreateBooking, CreateBookingCall, Outcome.run, hu, hv]
  · simp only [CreateBooking, CreateBookingCall, hu, hv, Outcome.run]
    exact ⟨_, rfl, rfl, rfl, rfl, rfl, rfl, rfl, rfl, rfl, rfl, rfl, rfl, rfl, rfl, rfl, rfl,
      rfl⟩
  · simp only [CreateBookingCall, h1, h2]

/-- C7 at the fixture: vehicle 1 already has the confirmed booking 11 over
[1000, 2000) and is not reported available for [1500, 2500), yet `clientA`
creating a booking on it for that window reaches the store's CreateBooking with
a reserved booking carrying the vehicle's fare. -/
theorem C7_create_booking_witness :
    Fixture.db.GetAvailableVehicles ⟨1500⟩ ⟨2500⟩ = ⟨[], none⟩ ∧
    ∃ b, CreateBookingCall Fixture.db ⟨1, 1, ⟨1500⟩, ⟨2500⟩, "airport", "downtown"⟩ =
        .callCreateBooking b ∧
      b.Status = commons.BookingStatusReserved ∧
      b.HourlyFare = Fixture.vehicleV.HourlyFare :=
  ⟨by decide,
    ((C7_create_booking Fixture.db ⟨1, 1, ⟨1500⟩, ⟨2500⟩, "airport", "downtown"⟩).2.2.1
      Fixture.clientA Fixture.vehicleV rfl rfl).imp
        fun _ hb => ⟨hb.1, hb.2.2.1, hb.2.2.2.2.2.2.2.2.2.1⟩⟩

/-! ## Frame of the updating methods -/

theorem UpdateRequest.run_eq (db : BookingsDatabase) (r : UpdateRequest) :
    r.run db = (r.call db).run db := by
  cases r <;> rfl

/-- C8: whenever CancelBooking, ConfirmBooking, FinishBooking,
AddFeedbackBooking, RateBooking or AddMessageToBooking reaches UpdateBooking,
the booking handed over has the HourlyFare of the booking read from the store
(not the attached vehicle's current fare, which may differ), and the same id,
owning user id, vehicle id, start, end, pick-up and drop-off locations; the
result of the method is the store's answer for that booking. -/
theorem C8_update_keeps_fare_and_identity (db : BookingsDatabase) (r : UpdateRequest)
    (b' : Booking) (h : r.call db = .callUpdateBooking b') :
    r.run db = db.UpdateBooking b' ∧
    ∃ b, db.GetBookingById r.ID = ⟨some b, none⟩ ∧
      b'.HourlyFare = b.HourlyFare ∧ b'.ID = b.ID ∧ b'.UserID = b.UserID ∧
      b'.VehicleID = b.VehicleID ∧ b'.StartDate = b.StartDate ∧ b'.EndDate = b.EndDate ∧
      b'.PickUpLocation = b.PickUpLocation ∧ b'.DropOffLocation = b.DropOffLocation ∧
      b'.Vehicle = b.Vehicle := by
  refine ⟨by rw [UpdateRequest.run_eq, h]; rfl, ?_⟩
  cases r with
  | cancel q =>
    obtain ⟨_, b, s, o, _, hb, rfl, _⟩ := CancelBookingCall_update h
    exact ⟨b, hb, rfl, rfl, rfl, rfl, rfl, rfl, rfl, rfl, rfl⟩
  | confirm q =>
    obtain ⟨_, b, s, o, _, hb, rfl, _⟩ := ConfirmBookingCall_update h
    exact ⟨b, hb, rfl, rfl, rfl, rfl, rfl, rfl, rfl, rfl, rfl⟩
  | finish q =>
    obtain ⟨_, b, s, o, _, hb, rfl, _⟩ := FinishBookingCall_update h
    exact ⟨b, hb, rfl, rfl, rfl, rfl, rfl, rfl, rfl, rfl, rfl⟩
  | addFeedback q =>
    obtain ⟨_, b, _, hb, rfl⟩ := AddFeedbackBookingCall_update h
    exact ⟨b, hb, rfl, rfl, rfl, rfl, rfl, rfl, rfl, rfl, rfl⟩
  | rate q =>
    obtain ⟨_, b, _, hb, rfl⟩ := RateBookingCall_update h
    exact ⟨b, hb, rfl, rfl, rfl, rfl, rfl, rfl, rfl, rfl, rfl⟩
  | addMessage q =>
    obtain ⟨_, b, _, hb, rfl⟩ := AddMessageToBookingCall_update h
    exact ⟨b, hb, rfl, rfl, rfl, rfl, rfl, rfl, rfl, rfl, rfl⟩

/-- C8 at the fixture: booking 13 was made at fare 25.0 and its vehicle now
costs 30.0; rating it as its owner hands UpdateBooking a booking that still
carries the booking's own fare. -/
theorem C8_update_keeps_fare_and_identity_witness :
    (Fixture.bookingOf 13 commons.BookingStatusFinished none).Vehicle.HourlyFare ≠
      (Fixture.bookingOf 13 commons.BookingStatusFinished none).HourlyFare ∧
    ∃ b, Fixture.db.GetBookingById 13 = ⟨some b, none⟩ ∧
      (Fixture.rated13).HourlyFare = b.HourlyFare :=
  ⟨by decide,
    (C8_update_keeps_fare_and_identity Fixture.db (.rate ⟨13, 1, 4⟩) Fixture.rated13
      (by decide)).2.imp fun _ hb => ⟨hb.1, hb.2.1⟩⟩

/-! ## Feedback -/

/-- C9: AddFeedbackBooking with an existing acting user and an existing
booking is decided by the first rule that applies, in this order:
ErrInvalidCredentials if the user does not own the booking or is not of type
client; ErrBookingNotStarted if the status is reserved; ErrBookingNotFinished if
confirmed; ErrBookingAlreadyCancelled if cancelled; ErrBookingNotFinished for
any other status than finished; ErrBookingAlreadyHaveFeedback if the stored
feedback is present and non-empty; otherwise the booking is handed to
UpdateBooking and the store's answer is returned. -/
theorem C9_add_feedback_guards (db : BookingsDatabase)
    (request : requests.AddFeedbackBookingRequest) (user : User) (booking : Booking)
    (hu : db.GetUserById request.UserID = ⟨some user, none⟩)
    (hb : db.GetBookingById request.ID = ⟨some booking, none⟩) :
    ((booking.UserID ≠ request.UserID ∨ user.Type_ ≠ commons.UserTypeClient) →
      AddFeedbackBooking db request = ⟨none, some .ErrInvalidCredentials⟩) ∧
    (booking.UserID = request.UserID → user.Type_ = commons.UserTypeClient →
      (booking.Status = commons.BookingStatusReserved →
        AddFeedbackBooking db request = ⟨none, some .ErrBookingNotStarted⟩) ∧
      (booking.Status = commons.BookingStatusConfirmed →
        AddFeedbackBooking db request = ⟨none, some .ErrBookingNotFinished⟩) ∧
      (booking.Status = commons.BookingStatusCancelled →
        AddFeedbackBooking db request = ⟨none, some .ErrBookingAlreadyCancelled⟩) ∧
      (booking.Status ≠ commons.BookingStatusReserved →
        booking.Status ≠ commons.BookingStatusConfirmed →
        booking.Status ≠ commons.BookingStatusCancelled →
        booking.Status ≠ commons.BookingStatusFinished →
        AddFeedbackBooking db request = ⟨none, some .ErrBookingNotFinished⟩) ∧
      (booking.Status = commons.BookingStatusFinished →
        (∃ text, booking.Feedback = some text ∧ text ≠ "") →
        AddFeedbackBooking db request = ⟨none, some .ErrBookingAlreadyHaveFeedback⟩) ∧
      (booking.Status = commons.BookingStatusFinished →
        (booking.Feedback = none ∨ booking.Feedback = some "") →
        ∃ b', AddFeedbackBookingCall db request = .callUpdateBooking b' ∧
          AddFeedbackBooking db request = db.UpdateBooking b')) := by
  refine ⟨fun hd => ?_, fun ho hc => ⟨fun hs => ?_, fun hs => ?_, fun hs => ?_,
    fun h1 h2 h3 h4 => ?_, fun hs hf => ?_, fun hs hf => ?_⟩⟩
  · simp [AddFeedbackBooking, AddFeedbackBookingCall, hu, hb, Outcome.run, hd]
  · simp [AddFeedbackBooking, AddFeedbackBookingCall, hu, hb, Outcome.run, ho, hc, hs]
  · simp [AddFeedbackBooking, AddFeedbackBookingCall, hu, hb, Outcome.run, ho, hc, hs,
      commons.BookingStatusReserved, commons.BookingStatusConfirmed]
  · simp [AddFeedbackBooking, AddFeedbackBookingCall, hu, hb, Outcome.run, ho, hc, hs,
      commons.BookingStatusReserved, commons.BookingStatusConfirmed,
      commons.BookingStatusCancelled]
  · simp [AddFeedbackBooking, AddFeedbackBookingCall, hu, hb, Outcome.run, ho, hc, h1, h2,
      h3, h4]
  · obtain ⟨text, hf, ht⟩ := hf
    simp [AddFeedbackBooking, AddFeedbackBookingCall, hu, hb, Outcome.run, ho, hc, hs, hf, ht,
      commons.BookingStatusReserved, commons.BookingStatusConfirmed,
      commons.BookingStatusCancelled, commons.BookingStatusFinished]
  · refine ⟨{ booking with Feedback := some request.Feedback }, ?_, ?_⟩ <;>
      rcases hf with hf | hf <;>
      simp [AddFeedbackBooking, AddFeedbackBookingCall, hu, hb, Outcome.run, ho, hc, hs, hf,
        commons.BookingStatusReserved, commons.BookingStatusConfirmed,
        commons.BookingStatusCancelled, commons.BookingStatusFinished]

/-- C9 at the fixture: the admin is refused on finished booking 13; the owner
`clientA` is refused on booking 14, which already has feedback "ok", and on
booking 15, whose status is none of the four known ones. -/
theorem C9_add_feedback_guards_witness :
    AddFeedbackBooking Fixture.db ⟨13, 2, "great"⟩ = ⟨none, some .ErrInvalidCredentials⟩ ∧
    AddFeedbackBooking Fixture.db ⟨14, 1, "great"⟩ =
      ⟨none, some .ErrBookingAlreadyHaveFeedback⟩ ∧
    AddFeedbackBooking Fixture.db ⟨15, 1, "great"⟩ = ⟨none, some .ErrBookingNotFinished⟩ :=
  ⟨(C9_add_feedback_guards Fixture.db ⟨13, 2, "great"⟩ Fixture.admin
      (Fixture.bookingOf 13 commons.BookingStatusFinished none) rfl rfl).1
        (Or.inr (by decide)),
    (C9_add_feedback_guards Fixture.db ⟨14, 1, "great"⟩ Fixture.clientA
      (Fixture.bookingOf 14 commons.BookingStatusFinished (some "ok")) rfl rfl).2 rfl
        rfl |>.2.2.2.2.1 rfl ⟨"ok", rfl, by decide⟩,
    (C9_add_feedback_guards Fixture.db ⟨15, 1, "great"⟩ Fixture.clientA
      (Fixture.bookingOf 15 "pendiente" none) rfl rfl).2 rfl rfl |>.2.2.2.1
        (by decide) (by decide) (by decide) (by decide)⟩

/-- C10: when AddFeedbackBooking reaches UpdateBooking, the booking handed over
is the booking read from the store with Feedback replaced by the request's
text: status, observations, rating, messages, fare, window, locations, owner,
vehicle and record header are those read. -/
theorem C10_add_feedback_frame (db : BookingsDatabase)
    (request : requests.AddFeedbackBookingRequest) (b' : Booking)
    (h : AddFeedbackBookingCall db request = .callUpdateBooking b') :
    ∃ b, db.GetBookingById request.ID = ⟨some b, none⟩ ∧
      b' = { b with Feedback := some request.Feedback } ∧
      b'.Feedback = some request.Feedback ∧
      b'.Status = b.Status ∧ b'.Observations = b.Observations ∧ b'.Rating = b.Rating ∧
      b'.Messages = b.Messages ∧ b'.HourlyFare = b.HourlyFare ∧
      b'.StartDate = b.StartDate ∧ b'.EndDate = b.EndDate ∧
      b'.PickUpLocation = b.PickUpLocation ∧ b'.DropOffLocation = b.DropOffLocation ∧
      b'.UserID = b.UserID ∧ b'.User = b.User ∧
      b'.VehicleID = b.VehicleID ∧ b'.Vehicle = b.Vehicle ∧ b'.toModel = b.toModel := by
  obtain ⟨_, b, _, hb, rfl⟩ := AddFeedbackBookingCall_update h
  exact ⟨b, hb, rfl, rfl, rfl, rfl, rfl, rfl, rfl, rfl, rfl, rfl, rfl, rfl, rfl, rfl, rfl, rfl⟩

/-- C10 at the fixture: `clientA` leaves "great" on finished booking 13, and
UpdateBooking receives booking 13 with only Feedback changed. -/
theorem C10_add_feedback_frame_witness :
    AddFeedbackBookingCall Fixture.db ⟨13, 1, "great"⟩ =
      .callUpdateBooking Fixture.feedback13 ∧
    ∃ b, Fixture.db.GetBookingById 13 = ⟨some b, none⟩ ∧
      Fixture.feedback13 = { b with Feedback := some "great" } :=
  ⟨by decide,
    (C10_add_feedback_frame Fixture.db ⟨13, 1, "great"⟩ Fixture.feedback13
      (by decide)).imp fun _ hb => ⟨hb.1, hb.2.1⟩⟩

/-! ## Rating -/

/-- C12: for a RateBooking request and an AddFeedbackBooking request with the
same booking id and user id, RateBooking returns by itself exactly when
AddFeedbackBooking does on the same store with the stored feedback cleared, and
with the same pair (same guards, same order, same error); in every other case
both reach UpdateBooking, and the booking RateBooking hands over is the stored
one with Rating replaced by the request's rating, whether or not a rating was
already stored. -/
theorem C12_rate_guards_equal_feedback_guards (db : BookingsDatabase)
    (rate : requests.RateBookingRequest) (fb : requests.AddFeedbackBookingRequest)
    (hid : fb.ID = rate.ID) (huid : fb.UserID = rate.UserID) :
    (∀ val err, RateBookingCall db rate = .returned val err ↔
      AddFeedbackBookingCall db.clearFeedback fb = .returned val err) ∧
    ((∃ b', RateBookingCall db rate = .callUpdateBooking b') ↔
      ∃ b'', AddFeedbackBookingCall db.clearFeedback fb = .callUpdateBooking b'') ∧
    (∀ b', RateBookingCall db rate = .callUpdateBooking b' →
      RateBooking db rate = db.UpdateBooking b' ∧
      ∃ b, db.GetBookingById rate.ID = ⟨some b, none⟩ ∧
        b' = { b with Rating := some rate.Rating } ∧ b'.Rating = some rate.Rating) := by
  refine ⟨?_, ?_, ?_⟩
  · intro val err
    simp only [RateBookingCall, AddFeedbackBookingCall, BookingsDatabase.clearFeedback, hid,
      huid]
    rcases hu : db.GetUserById rate.UserID with ⟨_ | u, _ | e⟩ <;>
      rcases hb : db.GetBookingById rate.ID with ⟨_ | b, _ | e'⟩ <;> simp
    split_ifs <;> simp
  · simp only [RateBookingCall, AddFeedbackBookingCall, BookingsDatabase.clearFeedback, hid,
      huid]
    rcases hu : db.GetUserById rate.UserID with ⟨_ | u, _ | e⟩ <;>
      rcases hb : db.GetBookingById rate.ID with ⟨_ | b, _ | e'⟩ <;> simp
    split_ifs <;> simp
  · intro b' h
    refine ⟨by simp only [RateBooking, h, Outcome.run], ?_⟩
    obtain ⟨_, b, _, hb, rfl⟩ := RateBookingCall_update h
    exact ⟨b, hb, rfl, rfl⟩

/-- C12 at the fixture: booking 13 is already rated 4; its owner rates it 2 and
UpdateBooking receives it with rating 2, while the admin is refused by both
methods with the same error. -/
theorem C12_rate_guards_equal_feedback_guards_witness :
    RateBookingCall Fixture.dbRated ⟨13, 1, 2⟩ = .callUpdateBooking Fixture.rerated13 ∧
    (∃ b, Fixture.dbRated.GetBookingById 13 = ⟨some b, none⟩ ∧
      Fixture.rerated13.Rating = some 2) ∧
    (RateBookingCall Fixture.dbRated ⟨13, 2, 2⟩ =
        .returned none (some .ErrInvalidCredentials) ↔
      AddFeedbackBookingCall Fixture.dbRated.clearFeedback ⟨13, 2, "great"⟩ =
        .returned none (some .ErrInvalidCredentials)) :=
  ⟨by decide,
    ((C12_rate_guards_equal_feedback_guards Fixture.dbRated ⟨13, 1, 2⟩ ⟨13, 1, "great"⟩
      rfl rfl).2.2 Fixture.rerated13 (by decide)).2.imp fun _ h => ⟨h.1, h.2.2⟩,
    (C12_rate_guards_equal_feedback_guards Fixture.dbRated ⟨13, 2, 2⟩ ⟨13, 2, "great"⟩
      rfl rfl).1 none (some .ErrInvalidCredentials)⟩

/-! ## Messages -/

theorem AddMessageToBookingCall_denied_iff (db : BookingsDatabase)
    (request : requests.AddMessageToBookingRequest) {user : User} {booking : Booking}
    (hu : db.GetUserById request.UserID = ⟨some user, none⟩)
    (hb : db.GetBookingById request.ID = ⟨some booking, none⟩) :
    AddMessageToBookingCall db request = .returned none (some .ErrInvalidCredentials) ↔
      (booking.UserID ≠ request.UserID ∨ user.Type_ ≠ commons.UserTypeClient) := by
  by_cases hd : booking.UserID ≠ request.UserID ∨ user.Type_ ≠ commons.UserTypeClient
  · simp [AddMessageToBookingCall, hu, hb, hd]
  · simp [AddMessageToBookingCall, hu, hb, hd]

/-- C13: AddMessageToBooking with an existing acting user and an existing
booking. It returns ErrInvalidCredentials from its own guard exactly when the
user does not own the booking or is not of type client; otherwise, whatever the
booking status, UpdateBooking receives the stored booking with one message
appended after the stored ones, carrying the booking's id and the request's
text, and nothing else changed. -/
theorem C13_add_message (db : BookingsDatabase)
    (request : requests.AddMessageToBookingRequest) (user : User) (booking : Booking)
    (hu : db.GetUserById request.UserID = ⟨some user, none⟩)
    (hb : db.GetBookingById request.ID = ⟨some booking, none⟩) :
    (AddMessageToBookingCall db request = .returned none (some .ErrInvalidCredentials) ↔
      (booking.UserID ≠ request.UserID ∨ user.Type_ ≠ commons.UserTypeClient)) ∧
    ((booking.UserID ≠ request.UserID ∨ user.Type_ ≠ commons.UserTypeClient) →
      AddMessageToBooking db request = ⟨none, some .ErrInvalidCredentials⟩) ∧
    (booking.UserID = request.UserID → user.Type_ = commons.UserTypeClient →
      ∃ message b',
        AddMessageToBookingCall db request = .callUpdateBooking b' ∧
        AddMessageToBooking db request = db.UpdateBooking b' ∧
        b'.Messages = booking.Messages ++ [message] ∧
        message.BookingID = booking.ID ∧ message.Message = request.Message ∧
        b' = { booking with Messages := b'.Messages } ∧
        b'.Status = booking.Status) := by
  refine ⟨AddMessageToBookingCall_denied_iff db request hu hb, fun hd => ?_,
    fun ho hc => ?_⟩
  · simp [AddMessageToBooking, AddMessageToBookingCall, hu, hb, hd, Outcome.run]
  · refine ⟨{ toModel := Model.zero, BookingID := booking.ID, Message := request.Message },
      { booking with Messages := booking.Messages ++
          [{ toModel := Model.zero, BookingID := booking.ID, Message := request.Message }] },
      ?_, ?_, rfl, rfl, rfl, rfl, rfl⟩
    · simp [AddMessageToBookingCall, hu, hb, ho, hc]
    · simp [AddMessageToBooking, AddMessageToBookingCall, hu, hb, ho, hc, Outcome.run]

/-- C13 at the fixture: the owner adds "hello" to cancelled booking 12, which
had no message; the admin is refused. -/
theorem C13_add_message_witness :
    AddMessageToBookingCall Fixture.db ⟨12, 1, "hello"⟩ =
      .callUpdateBooking Fixture.messaged12 ∧
    (∃ message b', AddMessageToBookingCall Fixture.db ⟨12, 1, "hello"⟩ =
        .callUpdateBooking b' ∧
      b'.Messages = [] ++ [message] ∧ message.BookingID = 12 ∧ message.Message = "hello" ∧
      b'.Status = commons.BookingStatusCancelled) ∧
    AddMessageToBooking Fixture.db ⟨12, 2, "hello"⟩ = ⟨none, some .ErrInvalidCredentials⟩ :=
  ⟨by decide,
    by
      obtain ⟨m, b', h1, _, h3, h4, h5, _, h7⟩ :=
        (C13_add_message Fixture.db ⟨12, 1, "hello"⟩ Fixture.clientA
          (Fixture.bookingOf 12 commons.BookingStatusCancelled none) rfl rfl).2.2 rfl rfl
      exact ⟨m, b', h1, h3, h4, h5, h7⟩,
    (C13_add_message Fixture.db ⟨12, 2, "hello"⟩ Fixture.admin
      (Fixture.bookingOf 12 commons.BookingStatusCancelled none) rfl rfl).2.1
        (Or.inr (by decide))⟩

/-! ## Users -/

/-- C16: RegisterUser, when the email lookup does not error. It returns
ErrUserAlreadyExists from its own guard exactly when the lookup finds a stored
user with the request's email, and then CreateUser is not called; otherwise
CreateUser receives a user with the request's email, name, password and DNI and
type client, and the store's answer is returned. No request makes RegisterUser
hand CreateUser a user of another type. For a store whose CreateUser never
answers ErrUserAlreadyExists itself, the error of the final result is
ErrUserAlreadyExists exactly when the email is already stored. -/
theorem C16_register_user (db : UsersDatabase) (request : requests.RegisterUserRequest)
    (hlook : (db.GetUserByEmail request.Email).err = none) :
    (RegisterUserCall db request = .returned none (some .ErrUserAlreadyExists) ↔
      (db.GetUserByEmail request.Email).val ≠ none) ∧
    ((db.GetUserByEmail request.Email).val ≠ none →
      RegisterUser db request = ⟨none, some .ErrUserAlreadyExists⟩ ∧
      ∀ user, RegisterUserCall db request ≠ .callCreateUser user) ∧
    ((db.GetUserByEmail request.Email).val = none →
      ∃ user, RegisterUserCall db request = .callCreateUser user ∧
        RegisterUser db request = db.CreateUser user ∧
        user.Email = request.Email ∧ user.Name = request.Name ∧
        user.Password = request.Password ∧ user.DNI = request.DNI ∧
        user.Type_ = commons.UserTypeClient ∧ user.toModel = Model.zero) ∧
    (∀ user, RegisterUserCall db request = .callCreateUser user →
      user.Type_ = commons.UserTypeClient ∧ user.Type_ ≠ commons.UserTypeAdmin) ∧
    ((∀ user, (db.CreateUser user).err ≠ some .ErrUserAlreadyExists) →
      ((RegisterUser db request).err = some .ErrUserAlreadyExists ↔
        (db.GetUserByEmail request.Email).val ≠ none)) := by
  rcases hg : db.GetUserByEmail request.Email with ⟨_ | stored, _ | e⟩
  · refine ⟨?_, ?_, ?_, ?_, ?_⟩
    · simp [RegisterUserCall, hg]
    · simp
    · intro _
      exact ⟨mapRegisterUserRequestToUser request, by simp [RegisterUserCall, hg],
        by simp [RegisterUser, RegisterUserCall, hg, UserOutcome.run], rfl, rfl, rfl, rfl, rfl,
        rfl⟩
    · intro user h
      simp only [RegisterUserCall, hg, UserOutcome.callCreateUser.injEq] at h
      subst h
      exact ⟨rfl, show commons.UserTypeClient ≠ commons.UserTypeAdmin by decide⟩
    · intro hstore
      simp [RegisterUser, RegisterUserCall, hg, UserOutcome.run, hstore]
  · simp [hg] at hlook
  · refine ⟨?_, ?_, ?_, ?_, ?_⟩
    · simp [RegisterUserCall, hg]
    · intro _
      simp [RegisterUser, RegisterUserCall, hg, UserOutcome.run]
    · simp
    · intro user h
      simp [RegisterUserCall, hg] at h
    · intro _
      simp [RegisterUser, RegisterUserCall, hg, UserOutcome.run]
  · simp [hg] at hlook

/-- C16 at the fixture: "a@example.com" is taken, so registering it again is
refused; "new@example.com" is free, and CreateUser receives a client. -/
theorem C16_register_user_witness :
    RegisterUser Fixture.usersDb ⟨"a@example.com", "Eve", "pw", "999"⟩ =
      ⟨none, some .ErrUserAlreadyExists⟩ ∧
    ∃ user, RegisterUserCall Fixture.usersDb ⟨"new@example.com", "Neo", "pw", "400"⟩ =
        .callCreateUser user ∧
      user.Email = "new@example.com" ∧ user.Type_ = commons.UserTypeClient :=
  ⟨((C16_register_user Fixture.usersDb ⟨"a@example.com", "Eve", "pw", "999"⟩ rfl).2.1
      (by decide)).1,
    ((C16_register_user Fixture.usersDb ⟨"new@example.com", "Neo", "pw", "400"⟩ rfl).2.2.1
      rfl).imp fun _ h => ⟨h.1, h.2.2.1, h.2.2.2.2.2.2.1⟩⟩

/-- C17: LoginUser, when the email lookup does not error. An email that no
stored user has gives ErrUserNotFound, never ErrInvalidCredentials, whatever
the password; for a stored user the result is ErrInvalidCredentials exactly
when the stored password differs from the supplied one, and otherwise the
stored user, unchanged. -/
theorem C17_login_user (db : UsersDatabase) (request : requests.LoginUserRequest)
    (hlook : (db.GetUserByEmail request.Email).err = none) :
    ((db.GetUserByEmail request.Email).val = none →
      LoginUser db request = ⟨none, some .ErrUserNotFound⟩ ∧
      (LoginUser db request).err ≠ some .ErrInvalidCredentials) ∧
    (∀ user, (db.GetUserByEmail request.Email).val = some user →
      (LoginUser db request = ⟨none, some .ErrInvalidCredentials⟩ ↔
        user.Password ≠ request.Password) ∧
      (user.Password = request.Password → LoginUser db request = ⟨some user, none⟩)) := by
  rcases hg : db.GetUserByEmail request.Email with ⟨_ | stored, _ | e⟩
  · simp [LoginUser, hg]
  · simp [hg] at hlook
  · refine ⟨by simp, ?_⟩
    intro user hus
    simp only [Option.some.injEq] at hus
    subst hus
    by_cases hp : stored.Password = request.Password <;> simp [LoginUser, hg, hp]
  · simp [hg] at hlook

/-- C17 at the fixture: an unknown email gives ErrUserNotFound; `clientA` with
a wrong password gives ErrInvalidCredentials, with the stored password the
stored user. -/
theorem C17_login_user_witness :
    LoginUser Fixture.usersDb ⟨"nobody@example.com", "secret"⟩ =
      ⟨none, some .ErrUserNotFound⟩ ∧
    LoginUser Fixture.usersDb ⟨"a@example.com", "Secret"⟩ =
      ⟨none, some .ErrInvalidCredentials⟩ ∧
    LoginUser Fixture.usersDb ⟨"a@example.com", "secret"⟩ = ⟨some Fixture.clientA, none⟩ :=
  ⟨((C17_login_user Fixture.usersDb ⟨"nobody@example.com", "secret"⟩ rfl).1 rfl).1,
    ((C17_login_user Fixture.usersDb ⟨"a@example.com", "Secret"⟩ rfl).2 Fixture.clientA
      rfl).1.2 (by decide),
    ((C17_login_user Fixture.usersDb ⟨"a@example.com", "secret"⟩ rfl).2 Fixture.clientA
      rfl).2 rfl⟩

/-! ## Availability -/

/-- C14: GetAvailableVehicles on a store answers without error exactly when the
engine answers the query, and then returns, in table order, exactly the
vehicles of the store (the rows not soft-deleted) for which no booking of the
store (a row not soft-deleted) of that vehicle has status reserved or confirmed
together with start < to and end > from; bookings of any other status never
exclude a vehicle. When the engine fails, its error is returned with no
vehicle. In the store `rentals`, vehicle V, with a confirmed booking over
[2024-01-10T00:00Z, 2024-01-12T00:00Z), is excluded for
[2024-01-11T00:00Z, 2024-01-13T00:00Z) and included for
[2024-01-12T00:00Z, 2024-01-13T00:00Z); vehicle W, whose bookings over that
window are cancelled, finished, and a soft-deleted reserved one, is included
for both; the soft-deleted vehicle X is in neither answer. -/
theorem C14_available_vehicles :
    (∀ (s : Store) (from_ to_ : Time),
      ((GetAvailableVehicles s.db from_ to_).err = none ↔
        s.engine.GetAvailableVehicles = none) ∧
      (s.engine.GetAvailableVehicles = none →
        (GetAvailableVehicles s.db from_ to_).val.Sublist s.liveVehicles ∧
        ∀ v : Vehicle, v ∈ (GetAvailableVehicles s.db from_ to_).val ↔
          v ∈ s.liveVehicles ∧
          ¬ ∃ b ∈ s.liveBookings, b.VehicleID = v.ID ∧
            (b.Status = commons.BookingStatusReserved ∨
              b.Status = commons.BookingStatusConfirmed) ∧
            b.StartDate.nanos < to_.nanos ∧ b.EndDate.nanos > from_.nanos) ∧
      ∀ msg, s.engine.GetAvailableVehicles = some msg →
        GetAvailableVehicles s.db from_ to_ = ⟨[], some (.other msg)⟩) ∧
    GetAvailableVehicles Fixture.rentals.db (Fixture.utcMidnight 738895)
      (Fixture.utcMidnight 738897) = ⟨[Fixture.vehicleW], none⟩ ∧
    GetAvailableVehicles Fixture.rentals.db (Fixture.utcMidnight 738896)
      (Fixture.utcMidnight 738897) = ⟨[Fixture.vehicleV, Fixture.vehicleW], none⟩ := by
  refine ⟨fun s from_ to_ => ⟨?_, fun hok => ⟨?_, fun v => ?_⟩, fun msg hmsg => ?_⟩,
    by decide, by decide⟩
  · simp only [GetAvailableVehicles, Store.db, Store.GetAvailableVehicles]
    rcases s.engine.GetAvailableVehicles with _ | msg <;> simp
  · simp only [GetAvailableVehicles, Store.db, Store.GetAvailableVehicles, hok,
      Store.liveVehicles]
    apply List.monotone_filter_right
    intro v hv
    simp only [decide_eq_true_eq] at hv ⊢
    exact hv.1
  · simp only [GetAvailableVehicles, Store.db, Store.GetAvailableVehicles, hok,
      Store.liveVehicles, Store.liveBookings, List.mem_filter, List.mem_map,
      decide_eq_true_eq, not_exists, not_and]
    constructor
    · rintro ⟨hv, hlive, hno⟩
      exact ⟨⟨hv, hlive⟩, fun b hb hid hst hlt hgt => hno b ⟨hb.1, hb.2, hlt, hgt, hst⟩ hid⟩
    · rintro ⟨⟨hv, hlive⟩, hno⟩
      exact ⟨hv, hlive, fun b hb hid =>
        hno b ⟨hb.1, hb.2.1⟩ hid hb.2.2.2.2 hb.2.2.1 hb.2.2.2.1⟩
  · simp only [GetAvailableVehicles, Store.db, Store.GetAvailableVehicles, hmsg]

/-- C14 at the fixture: by the general statement, on the working engine of
`rentals`, vehicle V is not among the vehicles available for
[2024-01-11T00:00Z, 2024-01-13T00:00Z), because of its confirmed booking 20. -/
theorem C14_available_vehicles_witness :
    Fixture.rentals.engine.GetAvailableVehicles = none ∧
    Fixture.vehicleV ∉ (GetAvailableVehicles Fixture.rentals.db (Fixture.utcMidnight 738895)
      (Fixture.utcMidnight 738897)).val :=
  ⟨rfl, fun hmem =>
    ((((C14_available_vehicles.1 Fixture.rentals (Fixture.utcMidnight 738895)
      (Fixture.utcMidnight 738897)).2.1 rfl).2 Fixture.vehicleV).1 hmem).2
        ⟨Fixture.january 20 commons.BookingStatusConfirmed Fixture.vehicleV,
          by decide, rfl, Or.inr rfl, by decide, by decide⟩⟩

/-! ## Handlers -/

/-- C18, the handlers evaluated where they leave the stated mapping: on the
fixture database, createBooking answers 500 for ErrUserNotFound and for
ErrVehicleNotFound, addFeedbackBooking and rateBooking answer 500 for
ErrBookingNotStarted (which finishBooking answers with 400), and getBookings
answers 500 for ErrBookingNotFound (which cancelBooking answers with 404); each
time the body is the error's message. -/
theorem C18_handlers_answer_500_for_classified_errors :
    handlers.createBooking ⟨0⟩ Fixture.db ⟨99, 1, ⟨3000⟩, ⟨4000⟩, "airport", "downtown"⟩ =
      .json 500 (.message "user not found") ∧
    handlers.createBooking ⟨0⟩ Fixture.db ⟨1, 99, ⟨3000⟩, ⟨4000⟩, "airport", "downtown"⟩ =
      .json 500 (.message "vehicle not found") ∧
    handlers.addFeedbackBooking Fixture.db ⟨10, 1, "great"⟩ =
      .json 500 (.message "booking not started") ∧
    handlers.rateBooking Fixture.db ⟨10, 1, 5⟩ =
      .json 500 (.message "booking not started") ∧
    handlers.finishBooking Fixture.db ⟨10, 1⟩ =
      .json 400 (.message "booking not started") ∧
    handlers.getBookings Fixture.db "99" "" = .json 500 (.message "booking not found") ∧
    handlers.cancelBooking Fixture.db ⟨99, 1⟩ = .json 404 (.message "booking not found") := by
  refine ⟨?_, ?_, ?_, ?_, ?_, ?_, ?_⟩ <;> decide

/-- C19, counterexample to the claim as stated: at time 1000 a request with
start = end = 2000 passes both checks of createBooking, the service is called,
and the answer is 201 with the created booking, not 400. -/
theorem C19_equal_start_end_reaches_service_counterexample :
    handlers.createBookingGuard ⟨1000⟩ ⟨1, 1, ⟨2000⟩, ⟨2000⟩, "airport", "downtown"⟩ = none ∧
    (handlers.createBooking ⟨1000⟩ Fixture.db
      ⟨1, 1, ⟨2000⟩, ⟨2000⟩, "airport", "downtown"⟩).status = some 201 := by
  constructor <;> decide

/-- C19, amended: the createBooking handler at time `now` calls the service
exactly when start is not before now and start is not after end (start ≤ end,
so start = end is let through); a request with start before now or start after
end is answered with status 400 whatever the service and the store are, that
is, without calling the service; otherwise the answer is the one built from the
service's result. -/
theorem C19_create_booking_guard (now : Time) (r : requests.CreateBookingRequest) :
    (handlers.createBookingGuard now r = none ↔
      ¬ r.StartDate.nanos < now.nanos ∧ r.StartDate.nanos ≤ r.EndDate.nanos) ∧
    ((r.StartDate.nanos < now.nanos ∨ r.EndDate.nanos < r.StartDate.nanos) →
      ∃ body, handlers.createBookingGuard now r = some (.json 400 body) ∧
        ∀ db, handlers.createBooking now db r = .json 400 body) ∧
    (handlers.createBookingGuard now r = none →
      ∀ db, handlers.createBooking now db r =
        handlers.createBookingReply (CreateBooking db r)) := by
  refine ⟨?_, ?_, ?_⟩
  · simp only [handlers.createBookingGuard, Time.Before, Time.After]
    split_ifs with h1 h2 <;> simp_all
  · intro h
    simp only [handlers.createBooking, handlers.createBookingGuard, Time.Before, Time.After]
    split_ifs with h1 h2
    · exact ⟨_, rfl, fun _ => rfl⟩
    · exact ⟨_, rfl, fun _ => rfl⟩
    · simp only [decide_eq_true_eq, gt_iff_lt] at h1 h2
      omega
  · intro h db
    simp only [handlers.createBooking, h]

/-- C19 at the fixture: at time 1000, a request starting at 500 and one with
start 3000 after end 2000 are answered 400; one over [2000, 3000) reaches the
service. -/
theorem C19_create_booking_guard_witness :
    (∃ body, handlers.createBooking ⟨1000⟩ Fixture.db
      ⟨1, 1, ⟨500⟩, ⟨2000⟩, "airport", "downtown"⟩ = .json 400 body) ∧
    (∃ body, handlers.createBooking ⟨1000⟩ Fixture.db
      ⟨1, 1, ⟨3000⟩, ⟨2000⟩, "airport", "downtown"⟩ = .json 400 body) ∧
    handlers.createBookingGuard ⟨1000⟩ ⟨1, 1, ⟨2000⟩, ⟨3000⟩, "airport", "downtown"⟩ = none :=
  ⟨((C19_create_booking_guard ⟨1000⟩ ⟨1, 1, ⟨500⟩, ⟨2000⟩, "airport", "downtown"⟩).2.1
      (Or.inl (by decide))).imp fun _ h => h.2 Fixture.db,
    ((C19_create_booking_guard ⟨1000⟩ ⟨1, 1, ⟨3000⟩, ⟨2000⟩, "airport", "downtown"⟩).2.1
      (Or.inr (by decide))).imp fun _ h => h.2 Fixture.db,
    (C19_create_booking_guard ⟨1000⟩ ⟨1, 1, ⟨2000⟩, ⟨3000⟩, "airport", "downtown"⟩).1.2
      ⟨by decide, by decide⟩⟩

/-! ## The store under service calls -/

theorem ServiceRequest.run_eq_call (db : BookingsDatabase) (q : ServiceRequest) :
    q.run db = (q.call db).run db := by
  cases q with
  | create r => rfl
  | update r => exact UpdateRequest.run_eq db r

/-- A service method that returns by itself returns a nil booking and an error. -/
theorem ServiceRequest.call_returned {db : BookingsDatabase} {q : ServiceRequest}
    {val : Option Booking} {err : Option Error} (h : q.call db = .returned val err) :
    val = none ∧ err ≠ none := by
  rcases q with r | r | r | r | r | r | r <;>
    simp only [ServiceRequest.call, UpdateRequest.call, CreateBookingCall, CancelBookingCall,
      ConfirmBookingCall, FinishBookingCall, AddFeedbackBookingCall, RateBookingCall,
      AddMessageToBookingCall] at h <;>
    split at h <;> try split at h
  all_goals first
    | (cases h <;> simp)
    | (split_ifs at h <;> cases h <;> simp)

/-- The store answers a write with the booking, or with an engine error, a nil
booking and an unchanged state. -/
theorem Store.UpdateBooking_cases (s : Store) (b : Booking) :
    (s.engine.UpdateBooking = none ∧ (s.UpdateBooking b).2 = ⟨some b, none⟩) ∨
    ∃ msg, s.UpdateBooking b = (s, ⟨none, some (.other msg)⟩) := by
  simp only [Store.UpdateBooking]
  rcases s.engine.UpdateBooking with _ | msg
  · left
    refine ⟨rfl, ?_⟩
    simp only []
    split_ifs <;> rfl
  · exact Or.inr ⟨msg, rfl⟩

theorem Store.CreateBooking_cases (s : Store) (b : Booking) :
    (s.engine.CreateBooking = none ∧
      s.CreateBooking b = ({ s with bookings := s.bookings ++ [{ b with ID := s.nextBookingID }] },
        ⟨some { b with ID := s.nextBookingID }, none⟩)) ∨
    ∃ msg, s.CreateBooking b = (s, ⟨none, some (.other msg)⟩) := by
  simp only [Store.CreateBooking]
  rcases s.engine.CreateBooking with _ | msg
  · exact Or.inl ⟨rfl, rfl⟩
  · exact Or.inr ⟨msg, rfl⟩

theorem Store.apply_users (s : Store) (o : Outcome) :
    (s.apply o).users = s.users ∧ (s.apply o).vehicles = s.vehicles ∧
      (s.apply o).engine = s.engine := by
  cases o with
  | returned v e => exact ⟨rfl, rfl, rfl⟩
  | callCreateBooking b =>
    simp only [Store.apply, Store.CreateBooking]
    split <;> exact ⟨rfl, rfl, rfl⟩
  | callUpdateBooking b =>
    simp only [Store.apply, Store.UpdateBooking]
    split
    · exact ⟨rfl, rfl, rfl⟩
    · split_ifs <;> exact ⟨rfl, rfl, rfl⟩

/-- On the store, a service call whose result carries an error leaves the state
as it was. -/
theorem Store.exec_of_err (s : Store) (q : ServiceRequest) {e : Error}
    (h : (q.run s.db).err = some e) : (s.exec q).1 = s := by
  rw [ServiceRequest.run_eq_call] at h
  simp only [Store.exec]
  rcases hc : q.call s.db with ⟨val, err⟩ | b | b
  · rfl
  · rw [hc] at h
    rcases Store.CreateBooking_cases s b with ⟨-, h1⟩ | ⟨msg, h1⟩
    · simp [Outcome.run, Store.db, h1] at h
    · simp only [Store.apply, h1]
  · rw [hc] at h
    rcases Store.UpdateBooking_cases s b with ⟨-, h1⟩ | ⟨msg, h1⟩
    · simp [Outcome.run, Store.db, h1] at h
    · simp only [Store.apply, h1]

/-! ## The state-passing methods agree with the factored ones -/

theorem BookingsService.CreateBooking_eq (w : Session) (request : requests.CreateBookingRequest) :
    BookingsService.CreateBooking w request =
      (Backend.CreateBooking w.store.db request, w.after (CreateBookingCall w.store.db request)) := by
  have hu : w.store.db.GetUserById request.UserID = w.store.GetUserById request.UserID := rfl
  have hb : w.store.db.GetVehicleById request.VehicleID = w.store.GetVehicleById request.VehicleID := rfl
  simp only [BookingsService.CreateBooking, Backend.CreateBooking, CreateBookingCall,
    Session.GetUserById, Session.GetVehicleById, hu, hb]
  rcases hgu : w.store.GetUserById request.UserID with ⟨_ | user, _ | e⟩ <;>
    simp only [] <;> try rfl
  rcases hgb : w.store.GetVehicleById request.VehicleID with ⟨_ | booking, _ | e⟩ <;>
    simp only [] <;> try rfl

theorem BookingsService.CancelBooking_eq (w : Session) (request : requests.CancelBookingRequest) :
    BookingsService.CancelBooking w request =
      (Backend.CancelBooking w.store.db request, w.after (CancelBookingCall w.store.db request)) := by
  have hu : w.store.db.GetUserById request.UserID = w.store.GetUserById request.UserID := rfl
  have hb : w.store.db.GetBookingById request.ID = w.store.GetBookingById request.ID := rfl
  simp only [BookingsService.CancelBooking, Backend.CancelBooking, CancelBookingCall,
    Session.GetUserById, Session.GetBookingById, hu, hb]
  rcases hgu : w.store.GetUserById request.UserID with ⟨_ | user, _ | e⟩ <;>
    simp only [] <;> try rfl
  rcases hgb : w.store.GetBookingById request.ID with ⟨_ | booking, _ | e⟩ <;>
    simp only [] <;> try rfl
  all_goals (split_ifs <;> rfl)

theorem BookingsService.ConfirmBooking_eq (w : Session) (request : requests.ConfirmBookingRequest) :
    BookingsService.ConfirmBooking w request =
      (Backend.ConfirmBooking w.store.db request, w.after (ConfirmBookingCall w.store.db request)) := by
  have hu : w.store.db.GetUserById request.UserID = w.store.GetUserById request.UserID := rfl
  have hb : w.store.db.GetBookingById request.ID = w.store.GetBookingById request.ID := rfl
  simp only [BookingsService.ConfirmBooking, Backend.ConfirmBooking, ConfirmBookingCall,
    Session.GetUserById, Session.GetBookingById, hu, hb]
  rcases hgu : w.store.GetUserById request.UserID with ⟨_ | user, _ | e⟩ <;>
    simp only [] <;> try rfl
  rcases hgb : w.store.GetBookingById request.ID with ⟨_ | booking, _ | e⟩ <;>
    simp only [] <;> try rfl
  all_goals (split_ifs <;> rfl)

theorem BookingsService.FinishBooking_eq (w : Session) (request : requests.FinishBookingRequest) :
    BookingsService.FinishBooking w request =
      (Backend.FinishBooking w.store.db request, w.after (FinishBookingCall w.store.db request)) := by
  have hu : w.store.db.GetUserById request.UserID = w.store.GetUserById request.UserID := rfl
  have hb : w.store.db.GetBookingById request.ID = w.store.GetBookingById request.ID := rfl
  simp only [BookingsService.FinishBooking, Backend.FinishBooking, FinishBookingCall,
    Session.GetUserById, Session.GetBookingById, hu, hb]
  rcases hgu : w.store.GetUserById request.UserID with ⟨_ | user, _ | e⟩ <;>
    simp only [] <;> try rfl
  rcases hgb : w.store.GetBookingById request.ID with ⟨_ | booking, _ | e⟩ <;>
    simp only [] <;> try rfl
  all_goals (split_ifs <;> rfl)

theorem BookingsService.AddFeedbackBooking_eq (w : Session) (request : requests.AddFeedbackBookingRequest) :
    BookingsService.AddFeedbackBooking w request =
      (Backend.AddFeedbackBooking w.store.db request, w.after (AddFeedbackBookingCall w.store.db request)) := by
  have hu : w.store.db.GetUserById request.UserID = w.store.GetUserById request.UserID := rfl
  have hb : w.store.db.GetBookingById request.ID = w.store.GetBookingById request.ID := rfl
  simp only [BookingsService.AddFeedbackBooking, Backend.AddFeedbackBooking, AddFeedbackBookingCall,
    Session.GetUserById, Session.GetBookingById, hu, hb]
  rcases hgu : w.store.GetUserById request.UserID with ⟨_ | user, _ | e⟩ <;>
    simp only [] <;> try rfl
  rcases hgb : w.store.GetBookingById request.ID with ⟨_ | booking, _ | e⟩ <;>
    simp only [] <;> try rfl
  all_goals (split_ifs <;> rfl)

theorem BookingsService.RateBooking_eq (w : Session) (request : requests.RateBookingRequest) :
    BookingsService.RateBooking w request =
      (Backend.RateBooking w.store.db request, w.after (RateBookingCall w.store.db request)) := by
  have hu : w.store.db.GetUserById request.UserID = w.store.GetUserById request.UserID := rfl
  have hb : w.store.db.GetBookingById request.ID = w.store.GetBookingById request.ID := rfl
  simp only [BookingsService.RateBooking, Backend.RateBooking, RateBookingCall,
    Session.GetUserById, Session.GetBookingById, hu, hb]
  rcases hgu : w.store.GetUserById request.UserID with ⟨_ | user, _ | e⟩ <;>
    simp only [] <;> try rfl
  rcases hgb : w.store.GetBookingById request.ID with ⟨_ | booking, _ | e⟩ <;>
    simp only [] <;> try rfl
  all_goals (split_ifs <;> rfl)

theorem BookingsService.AddMessageToBooking_eq (w : Session) (request : requests.AddMessageToBookingRequest) :
    BookingsService.AddMessageToBooking w request =
      (Backend.AddMessageToBooking w.store.db request, w.after (AddMessageToBookingCall w.store.db request)) := by
  have hu : w.store.db.GetUserById request.UserID = w.store.GetUserById request.UserID := rfl
  have hb : w.store.db.GetBookingById request.ID = w.store.GetBookingById request.ID := rfl
  simp only [BookingsService.AddMessageToBooking, Backend.AddMessageToBooking, AddMessageToBookingCall,
    Session.GetUserById, Session.GetBookingById, hu, hb]
  rcases hgu : w.store.GetUserById request.UserID with ⟨_ | user, _ | e⟩ <;>
    simp only [] <;> try rfl
  rcases hgb : w.store.GetBookingById request.ID with ⟨_ | booking, _ | e⟩ <;>
    simp only [] <;> try rfl
  all_goals (split_ifs <;> rfl)

theorem ServiceRequest.exec_eq (w : Session) (q : ServiceRequest) :
    q.exec w = (q.run w.store.db, w.after (q.call w.store.db)) := by
  rcases q with r | r | r | r | r | r | r
  · exact BookingsService.CreateBooking_eq w r
  · exact BookingsService.CancelBooking_eq w r
  · exact BookingsService.ConfirmBooking_eq w r
  · exact BookingsService.FinishBooking_eq w r
  · exact BookingsService.AddFeedbackBooking_eq w r
  · exact BookingsService.RateBooking_eq w r
  · exact BookingsService.AddMessageToBooking_eq w r

/-- The store a state-passing method leaves behind is the one of `Store.exec`. -/
theorem ServiceRequest.exec_store (w : Session) (q : ServiceRequest) :
    (q.exec w).1 = (w.store.exec q).2 ∧ (q.exec w).2.store = (w.store.exec q).1 := by
  rw [ServiceRequest.exec_eq]
  refine ⟨rfl, ?_⟩
  simp only [Store.exec]
  cases q.call w.store.db <;> rfl

/-! ## Errors and the store -/

/-- C20: each of the seven mutating booking methods, run in state-passing form
on any store state (any rows, any disposition of the engine). When the result
carries an error, the store is the one before the call; and when that error is
one the method returns by itself (user, vehicle or booking not found, invalid
credentials, or a booking-state conflict), no call of the store's
CreateBooking or UpdateBooking has been made: the session, store and record of
writes, is exactly the one before the call. -/
theorem C20_errors_leave_store_unchanged (w : Session) (q : ServiceRequest) (e : Error)
    (h : (q.exec w).1.err = some e) :
    (q.exec w).2.store = w.store ∧
    (e.isGuard = true →
      (q.exec w).2 = w ∧ (q.exec w).2.writes = w.writes ∧
      (q.exec w).2.store.users = w.store.users ∧
      (q.exec w).2.store.vehicles = w.store.vehicles ∧
      (q.exec w).2.store.bookings = w.store.bookings) := by
  have hst : (q.exec w).2.store = w.store := by
    rw [(ServiceRequest.exec_store w q).2]
    rw [(ServiceRequest.exec_store w q).1] at h
    exact Store.exec_of_err w.store q h
  refine ⟨hst, fun hg => ?_⟩
  have hw : (q.exec w).2 = w := by
    rw [ServiceRequest.exec_eq] at h ⊢
    rw [ServiceRequest.run_eq_call] at h
    rcases hc : q.call w.store.db with ⟨val, err⟩ | b | b
    · rfl
    · rw [hc] at h
      rcases Store.CreateBooking_cases w.store b with ⟨-, h1⟩ | ⟨msg, h1⟩
      · simp [Outcome.run, Store.db, h1] at h
      · simp only [Outcome.run, Store.db, h1, Option.some.injEq] at h
        subst h
        cases hg
    · rw [hc] at h
      rcases Store.UpdateBooking_cases w.store b with ⟨-, h1⟩ | ⟨msg, h1⟩
      · simp [Outcome.run, Store.db, h1] at h
      · simp only [Outcome.run, Store.db, h1, Option.some.injEq] at h
        subst h
        cases hg
  exact ⟨hw, by rw [hw], by rw [hw], by rw [hw], by rw [hw]⟩

/-- C20 at the fixture store, with no write recorded yet: cancelling confirmed
booking 11 as its owner fails with ErrBookingAlreadyStarted, and creating a
booking for the unknown vehicle 99 fails with ErrVehicleNotFound; both leave
the session as it was. -/
theorem C20_errors_leave_store_unchanged_witness :
    (ServiceRequest.update (.cancel ⟨11, 1⟩)).exec ⟨Fixture.store, []⟩ =
      (⟨none, some .ErrBookingAlreadyStarted⟩, ⟨Fixture.store, []⟩) ∧
    ((ServiceRequest.create ⟨1, 99, ⟨3000⟩, ⟨4000⟩, "airport", "downtown"⟩).exec
      ⟨Fixture.store, []⟩).2 = ⟨Fixture.store, []⟩ :=
  ⟨Prod.ext (by decide)
      ((C20_errors_leave_store_unchanged ⟨Fixture.store, []⟩ (.update (.cancel ⟨11, 1⟩))
        .ErrBookingAlreadyStarted (by decide)).2 rfl).1,
    ((C20_errors_leave_store_unchanged ⟨Fixture.store, []⟩
      (.create ⟨1, 99, ⟨3000⟩, ⟨4000⟩, "airport", "downtown"⟩)
      .ErrVehicleNotFound (by decide)).2 rfl).1⟩

/-- The statement above is not a matter of form: a method that called
UpdateBooking and then returned a guard error would leave a session with one
more recorded write. -/
theorem write_before_guard_error_is_recorded (w : Session) (b : Booking) :
    ((⟨none, some .ErrInvalidCredentials⟩, (w.UpdateBooking b).2) :
      Ret Booking × Session).2 ≠ w := by
  intro h
  have hlen := congrArg (fun x => x.writes.length) h
  simp [Session.UpdateBooking] at hlen

/-! ## Lookups after a write -/

theorem Store.preload_toModel (s : Store) (b : Booking) :
    (s.preload b).toModel = b.toModel := rfl

theorem Store.preload_fields (s : Store) (b : Booking) :
    (s.preload b).Status = b.Status ∧ (s.preload b).UserID = b.UserID ∧
    (s.preload b).Feedback = b.Feedback ∧ (s.preload b).Rating = b.Rating ∧
    (s.preload b).Observations = b.Observations ∧ (s.preload b).VehicleID = b.VehicleID :=
  ⟨rfl, rfl, rfl, rfl, rfl, rfl⟩

theorem find_replace_same (l : List Booking) (b' : Booking) (hlive : b'.DeletedAt = none)
    (hany : (l.any fun b => b.ID = b'.ID) = true) :
    (l.map fun b => if b.ID = b'.ID then b' else b).find?
      (fun b => b.ID = b'.ID ∧ b.DeletedAt = none) = some b' := by
  induction l with
  | nil => simp at hany
  | cons a l ih =>
    simp only [List.map_cons, List.find?_cons]
    by_cases ha : a.ID = b'.ID
    · simp [ha, hlive]
    · have hany' : (l.any fun b => b.ID = b'.ID) = true := by simpa [ha] using hany
      rw [if_neg ha]
      simp only [ha, false_and, decide_False]
      exact ih hany'

theorem find_replace_other (l : List Booking) (b' : Booking) (id : Nat) (hid : b'.ID ≠ id) :
    (l.map fun b => if b.ID = b'.ID then b' else b).find?
      (fun b => b.ID = id ∧ b.DeletedAt = none) =
      l.find? (fun b => b.ID = id ∧ b.DeletedAt = none) := by
  induction l with
  | nil => rfl
  | cons a l ih =>
    simp only [List.map_cons, List.find?_cons, ih]
    by_cases ha : a.ID = b'.ID
    · have hne : a.ID ≠ id := ha ▸ hid
      simp [ha, hid, hne]
    · simp [ha]

theorem find_none_of_not_any (l : List Booking) (id : Nat)
    (hany : ¬ (l.any fun b => b.ID = id) = true) :
    l.find? (fun b => b.ID = id ∧ b.DeletedAt = none) = none := by
  induction l with
  | nil => rfl
  | cons a l ih =>
    simp only [List.any_cons, Bool.or_eq_true, decide_eq_true_eq, not_or] at hany
    simp only [List.find?_cons, hany.1, false_and, decide_False, ih hany.2]

/-- A booking read from the store has the id asked for, is not soft-deleted,
and was read on an engine that answers `GetBookingById`. -/
theorem Store.GetBookingById_some {s : Store} {id : Nat} {bk : Booking}
    (h : s.GetBookingById id = ⟨some bk, none⟩) :
    bk.ID = id ∧ bk.DeletedAt = none ∧ s.engine.GetBookingById = none := by
  simp only [Store.GetBookingById] at h
  rcases he : s.engine.GetBookingById with _ | msg
  · simp only [he, Ret.mk.injEq, and_true, Option.map_eq_some'] at h
    obtain ⟨row, hrow, rfl⟩ := h
    have := List.find?_some hrow
    simp only [decide_eq_true_eq] at this
    exact ⟨this.1, this.2, rfl⟩
  · simp [he] at h

theorem Store.GetBookingById_UpdateBooking (s : Store) (b' : Booking) (id : Nat)
    (hread : s.engine.GetBookingById = none) (hwrite : s.engine.UpdateBooking = none)
    (hlive : b'.DeletedAt = none) :
    (s.UpdateBooking b').1.GetBookingById id =
      if b'.ID = id then ⟨some (s.preload b'), none⟩ else s.GetBookingById id := by
  simp only [Store.UpdateBooking, hwrite]
  by_cases hany : (s.bookings.any fun b => b.ID = b'.ID) = true
  · rw [if_pos hany]
    simp only [Store.GetBookingById, hread]
    by_cases hid : b'.ID = id
    · subst hid
      simp only [if_true, find_replace_same _ _ hlive hany]
      rfl
    · simp only [if_neg hid, find_replace_other _ _ _ hid]
      rfl
  · rw [if_neg hany]
    simp only [Store.GetBookingById, hread]
    by_cases hid : b'.ID = id
    · subst hid
      simp only [if_true, List.find?_append, find_none_of_not_any _ _ hany, List.find?_cons,
        hlive, and_self, decide_True, Option.none_or]
      rfl
    · have hnone : [b'].find? (fun b => b.ID = id ∧ b.DeletedAt = none) = none := by
        simp only [List.find?_cons, hid, false_and, decide_False, List.find?_nil]
      simp only [if_neg hid, List.find?_append, hnone, Option.or_none]
      rfl

theorem Store.GetBookingById_CreateBooking_of_found {s : Store} {id : Nat} {bk : Booking}
    (b : Booking) (h : s.GetBookingById id = ⟨some bk, none⟩) :
    (s.CreateBooking b).1.GetBookingById id = ⟨some bk, none⟩ := by
  rcases Store.CreateBooking_cases s b with ⟨-, h1⟩ | ⟨msg, h1⟩
  · rw [h1]
    simp only [Store.GetBookingById] at h ⊢
    rcases he : s.engine.GetBookingById with _ | msg
    · simp only [he, Ret.mk.injEq, and_true, Option.map_eq_some'] at h ⊢
      obtain ⟨row, hrow, rfl⟩ := h
      exact ⟨row, by rw [List.find?_append, hrow]; rfl, rfl⟩
    · simp [he] at h
  · rw [h1]
    exact h

theorem le_foldr_max (l : List Nat) (n : Nat) (h : n ∈ l) : n ≤ l.foldr max 0 := by
  induction l with
  | nil => simp at h
  | cons a l ih =>
    rcases List.mem_cons.1 h with rfl | h'
    · exact Nat.le_max_left _ _
    · exact Nat.le_trans (ih h') (Nat.le_max_right _ _)

theorem Store.GetBookingById_CreateBooking_next (s : Store) (b : Booking)
    (hread : s.engine.GetBookingById = none) (hwrite : s.engine.CreateBooking = none)
    (hlive : b.DeletedAt = none) :
    (s.CreateBooking b).1.GetBookingById s.nextBookingID =
      ⟨some (s.preload { b with ID := s.nextBookingID }), none⟩ := by
  have hnone : s.bookings.find? (fun x => x.ID = s.nextBookingID ∧ x.DeletedAt = none) =
      none := by
    apply find_none_of_not_any
    simp only [List.any_eq_true, decide_eq_true_eq, not_exists, not_and]
    intro x hx hxid
    have hle : x.ID ≤ (s.bookings.map fun b => b.ID).foldr max 0 :=
      le_foldr_max _ _ (List.mem_map_of_mem _ hx)
    simp only [Store.nextBookingID] at hxid
    omega
  simp only [Store.CreateBooking, hwrite]
  simp only [Store.GetBookingById, hread, List.find?_append, hnone, List.find?_cons, hlive,
    and_self, decide_True, Option.none_or]
  rfl

/-! ## Feedback and rating over sequences of calls -/

theorem AddFeedbackBookingCall_update_guards {db : BookingsDatabase}
    {request : requests.AddFeedbackBookingRequest} {b' : Booking}
    (h : AddFeedbackBookingCall db request = .callUpdateBooking b') :
    ∃ user booking,
      db.GetUserById request.UserID = ⟨some user, none⟩ ∧
      db.GetBookingById request.ID = ⟨some booking, none⟩ ∧
      booking.UserID = request.UserID ∧ user.Type_ = commons.UserTypeClient ∧
      booking.Status = commons.BookingStatusFinished ∧
      (booking.Feedback = none ∨ booking.Feedback = some "") ∧
      b' = { booking with Feedback := some request.Feedback } := by
  unfold AddFeedbackBookingCall at h
  rcases hu : db.GetUserById request.UserID with ⟨_ | user, _ | e⟩ <;> simp [hu] at h
  rcases hb : db.GetBookingById request.ID with ⟨_ | booking, _ | e⟩ <;> simp [hb] at h
  refine ⟨user, booking, rfl, rfl, ?_⟩
  split_ifs at h with h1 h2 h3 h4 h5 h6
  simp only [Outcome.callUpdateBooking.injEq] at h
  subst h
  refine ⟨?_, ?_, ?_, ?_, rfl⟩
  · tauto
  · tauto
  · tauto
  · by_cases hn : booking.Feedback = none
    · exact Or.inl hn
    · exact Or.inr (by tauto)

theorem RateBookingCall_update_guards {db : BookingsDatabase}
    {request : requests.RateBookingRequest} {b' : Booking}
    (h : RateBookingCall db request = .callUpdateBooking b') :
    ∃ user booking,
      db.GetUserById request.UserID = ⟨some user, none⟩ ∧
      db.GetBookingById request.ID = ⟨some booking, none⟩ ∧
      booking.UserID = request.UserID ∧ user.Type_ = commons.UserTypeClient ∧
      booking.Status = commons.BookingStatusFinished ∧
      b' = { booking with Rating := some request.Rating } := by
  unfold RateBookingCall at h
  rcases hu : db.GetUserById request.UserID with ⟨_ | user, _ | e⟩ <;> simp [hu] at h
  rcases hb : db.GetBookingById request.ID with ⟨_ | booking, _ | e⟩ <;> simp [hb] at h
  refine ⟨user, booking, rfl, rfl, ?_⟩
  split_ifs at h with h1 h2 h3 h4 h5
  simp only [Outcome.callUpdateBooking.injEq] at h
  subst h
  refine ⟨?_, ?_, ?_, rfl⟩ <;> tauto

/-- Every booking handed to UpdateBooking has the record header (id,
timestamps) of the booking read, and its feedback too unless the stored
feedback was absent or empty. -/
theorem UpdateRequest.call_update_feedback {db : BookingsDatabase} {r : UpdateRequest}
    {b' : Booking} (h : r.call db = .callUpdateBooking b') :
    ∃ booking, db.GetBookingById r.ID = ⟨some booking, none⟩ ∧
      b'.toModel = booking.toModel ∧
      (b'.Feedback = booking.Feedback ∨ booking.Feedback = none ∨
        booking.Feedback = some "") := by
  cases r with
  | cancel q =>
    obtain ⟨_, b, s, o, _, hb, rfl, _⟩ := CancelBookingCall_update h
    exact ⟨b, hb, rfl, Or.inl rfl⟩
  | confirm q =>
    obtain ⟨_, b, s, o, _, hb, rfl, _⟩ := ConfirmBookingCall_update h
    exact ⟨b, hb, rfl, Or.inl rfl⟩
  | finish q =>
    obtain ⟨_, b, s, o, _, hb, rfl, _⟩ := FinishBookingCall_update h
    exact ⟨b, hb, rfl, Or.inl rfl⟩
  | addFeedback q =>
    obtain ⟨_, b, _, hb, _, _, _, hf, rfl⟩ := AddFeedbackBookingCall_update_guards h
    exact ⟨b, hb, rfl, Or.inr hf⟩
  | rate q =>
    obtain ⟨_, b, _, hb, rfl⟩ := RateBookingCall_update h
    exact ⟨b, hb, rfl, Or.inl rfl⟩
  | addMessage q =>
    obtain ⟨_, b, _, hb, rfl⟩ := AddMessageToBookingCall_update h
    exact ⟨b, hb, rfl, Or.inl rfl⟩

theorem CreateBookingCall_ne_update (db : BookingsDatabase)
    (r : requests.CreateBookingRequest) (b : Booking) :
    CreateBookingCall db r ≠ .callUpdateBooking b := by
  unfold CreateBookingCall
  split <;> try split
  all_goals simp

theorem UpdateRequest.call_ne_create (db : BookingsDatabase) (r : UpdateRequest)
    (b : Booking) : r.call db ≠ .callCreateBooking b := by
  intro h
  rcases r with q | q | q | q | q | q <;>
    simp only [UpdateRequest.call, CancelBookingCall, ConfirmBookingCall, FinishBookingCall,
      AddFeedbackBookingCall, RateBookingCall, AddMessageToBookingCall] at h <;>
    split at h <;> try split at h
  all_goals first
    | (cases h)
    | (split_ifs at h)

/-- A stored non-empty feedback survives every service call. -/
theorem Store.exec_keeps_feedback {s : Store} (q : ServiceRequest) {id : Nat} {bk : Booking}
    {t : String} (hb : s.GetBookingById id = ⟨some bk, none⟩) (hf : bk.Feedback = some t)
    (ht : t ≠ "") :
    ∃ bk', (s.exec q).1.GetBookingById id = ⟨some bk', none⟩ ∧ bk'.Feedback = some t := by
  simp only [Store.exec]
  rcases hc : q.call s.db with ⟨val, err⟩ | b | b'
  · exact ⟨bk, hb, hf⟩
  · exact ⟨bk, Store.GetBookingById_CreateBooking_of_found b hb, hf⟩
  · simp only [Store.apply]
    obtain ⟨-, -, hread⟩ := Store.GetBookingById_some hb
    rcases Store.UpdateBooking_cases s b' with ⟨hwrite, -⟩ | ⟨msg, h1⟩
    · cases q with
      | create r => exact absurd hc (CreateBookingCall_ne_update _ _ _)
      | update r =>
        obtain ⟨booking, hbk, hmodel, hfb⟩ := UpdateRequest.call_update_feedback hc
        obtain ⟨hrid, hlive, -⟩ := Store.GetBookingById_some hbk
        have hbid : b'.ID = booking.ID := congrArg Model.ID hmodel
        have hlive' : b'.DeletedAt = none :=
          (congrArg Model.DeletedAt hmodel).trans hlive
        rw [Store.GetBookingById_UpdateBooking s b' id hread hwrite hlive']
        by_cases hid : b'.ID = id
        · rw [if_pos hid]
          refine ⟨s.preload b', rfl, ?_⟩
          show b'.Feedback = some t
          have hsame : s.GetBookingById r.ID = s.GetBookingById id := by
            rw [← hrid, ← hbid, hid]
          have hbb : booking = bk := by
            have h1 : s.GetBookingById r.ID = ⟨some booking, none⟩ := hbk
            rw [hsame, hb] at h1
            simpa using h1.symm
          subst hbb
          rcases hfb with h1 | h1 | h1
          · rw [h1, hf]
          · rw [hf] at h1; cases h1
          · rw [hf] at h1
            exact absurd (Option.some.inj h1) ht
        · rw [if_neg hid]
          exact ⟨bk, hb, hf⟩
    · rw [h1]
      exact ⟨bk, hb, hf⟩

theorem Store.execAll_keeps_feedback (qs : List ServiceRequest) {s : Store} {id : Nat}
    {bk : Booking} {t : String} (hb : s.GetBookingById id = ⟨some bk, none⟩)
    (hf : bk.Feedback = some t) (ht : t ≠ "") :
    ∃ bk', (s.execAll qs).GetBookingById id = ⟨some bk', none⟩ ∧ bk'.Feedback = some t := by
  induction qs generalizing s bk with
  | nil => exact ⟨bk, hb, hf⟩
  | cons q qs ih =>
    obtain ⟨bk1, hb1, hf1⟩ := Store.exec_keeps_feedback q hb hf ht
    exact ih hb1 hf1

theorem AddFeedbackBooking_fails_of_feedback {db : BookingsDatabase}
    {request : requests.AddFeedbackBookingRequest} {bk : Booking} {t : String}
    (hb : db.GetBookingById request.ID = ⟨some bk, none⟩) (hf : bk.Feedback = some t)
    (ht : t ≠ "") :
    ∃ e, AddFeedbackBooking db request = ⟨none, some e⟩ := by
  simp only [AddFeedbackBooking, AddFeedbackBookingCall, hb]
  rcases hu : db.GetUserById request.UserID with ⟨_ | user, _ | e⟩ <;>
    simp only [Outcome.run]
  · exact ⟨_, rfl⟩
  · exact ⟨_, rfl⟩
  · split_ifs with h1 h2 h3 h4 h5 h6
    all_goals first
      | exact ⟨_, rfl⟩
      | (exfalso; simp [hf, ht] at h6)
  · exact ⟨_, rfl⟩

/-- C11, counterexample to the claim as stated, on the fixture store: the owner
rates finished booking 13 with 4 and then with 2, and both calls succeed, the
stored rating ending as 2; and after the owner's AddFeedbackBooking with the
empty text has succeeded on booking 13, a second AddFeedbackBooking on it
succeeds too. -/
theorem C11_rating_set_twice_counterexample :
    (Fixture.store.exec (.update (.rate ⟨13, 1, 4⟩))).2.err = none ∧
    ((Fixture.store.exec (.update (.rate ⟨13, 1, 4⟩))).1.exec
      (.update (.rate ⟨13, 1, 2⟩))).2 =
        ⟨some { Fixture.rowOf 13 commons.BookingStatusFinished none with Rating := some 2 },
          none⟩ ∧
    (Fixture.store.exec (.update (.addFeedback ⟨13, 1, ""⟩))).2.err = none ∧
    ((Fixture.store.exec (.update (.addFeedback ⟨13, 1, ""⟩))).1.exec
      (.update (.addFeedback ⟨13, 1, "great"⟩))).2 =
        ⟨some { Fixture.rowOf 13 commons.BookingStatusFinished none with
          Feedback := some "great" }, none⟩ := by
  refine ⟨?_, ?_, ?_, ?_⟩ <;> decide

/-- C11, amended: on any store, a successful AddFeedbackBooking or RateBooking
happens only when the stored booking's status is finished and the acting user
is its owning user, of type client; and once an AddFeedbackBooking with a
non-empty text has succeeded, after any sequence of service calls every later
AddFeedbackBooking on that booking fails and leaves the store unchanged, so
the feedback is set at most once. (RateBooking has no such guard: a rating can
be set again.) -/
theorem C11_feedback_set_once (s : Store) :
    (∀ r : requests.AddFeedbackBookingRequest,
      (s.exec (.update (.addFeedback r))).2.err = none →
      (∃ user booking, s.GetUserById r.UserID = ⟨some user, none⟩ ∧
        s.GetBookingById r.ID = ⟨some booking, none⟩ ∧
        booking.Status = commons.BookingStatusFinished ∧
        booking.UserID = r.UserID ∧ user.Type_ = commons.UserTypeClient) ∧
      (r.Feedback ≠ "" →
        ∀ (qs : List ServiceRequest) (r2 : requests.AddFeedbackBookingRequest),
          r2.ID = r.ID →
          ∃ e, (((s.exec (.update (.addFeedback r))).1.execAll qs).exec
              (.update (.addFeedback r2))).2 = ⟨none, some e⟩ ∧
            (((s.exec (.update (.addFeedback r))).1.execAll qs).exec
              (.update (.addFeedback r2))).1 =
              (s.exec (.update (.addFeedback r))).1.execAll qs)) ∧
    (∀ r : requests.RateBookingRequest,
      (s.exec (.update (.rate r))).2.err = none →
      ∃ user booking, s.GetUserById r.UserID = ⟨some user, none⟩ ∧
        s.GetBookingById r.ID = ⟨some booking, none⟩ ∧
        booking.Status = commons.BookingStatusFinished ∧
        booking.UserID = r.UserID ∧ user.Type_ = commons.UserTypeClient) := by
  constructor
  · intro r hok
    have hcall : ∃ b', AddFeedbackBookingCall s.db r = .callUpdateBooking b' := by
      rcases hc : AddFeedbackBookingCall s.db r with ⟨val, err⟩ | b | b'
      · have hq : (ServiceRequest.update (.addFeedback r)).call s.db = .returned val err := hc
        obtain ⟨-, hne⟩ := ServiceRequest.call_returned hq
        simp only [Store.exec, ServiceRequest.run, UpdateRequest.run, AddFeedbackBooking, hc,
          Outcome.run] at hok
        exact absurd hok hne
      · exact absurd hc (UpdateRequest.call_ne_create s.db (.addFeedback r) b)
      · exact ⟨b', rfl⟩
    obtain ⟨b', hc⟩ := hcall
    obtain ⟨user, booking, hu, hb, ho, hty, hst, -, hb'⟩ :=
      AddFeedbackBookingCall_update_guards hc
    refine ⟨⟨user, booking, hu, hb, hst, ho, hty⟩, ?_⟩
    intro hne qs r2 hid
    obtain ⟨hbid0, hlive0, hread⟩ := Store.GetBookingById_some hb
    have hwrite : s.engine.UpdateBooking = none := by
      rcases Store.UpdateBooking_cases s b' with ⟨hw, -⟩ | ⟨msg, h1⟩
      · exact hw
      · simp only [Store.exec, ServiceRequest.run, UpdateRequest.run, AddFeedbackBooking, hc,
          Outcome.run] at hok
        have hok2 : (s.UpdateBooking b').2.err = none := hok
        rw [h1] at hok2
        cases hok2
    have hs1 : (s.exec (.update (.addFeedback r))).1 = (s.UpdateBooking b').1 := by
      simp only [Store.exec, ServiceRequest.call, UpdateRequest.call, hc, Store.apply]
    have hbid : b'.ID = r.ID := by
      rw [hb']
      exact hbid0
    have hlive : b'.DeletedAt = none := by
      rw [hb']
      exact hlive0
    have hget : (s.exec (.update (.addFeedback r))).1.GetBookingById r.ID =
        ⟨some (s.preload b'), none⟩ := by
      rw [hs1, Store.GetBookingById_UpdateBooking s b' r.ID hread hwrite hlive, if_pos hbid]
    have hfb : (s.preload b').Feedback = some r.Feedback := by
      rw [hb']
      rfl
    obtain ⟨bk, hbk, hfk⟩ := Store.execAll_keeps_feedback qs hget hfb hne
    have hbk2 : ((s.exec (.update (.addFeedback r))).1.execAll qs).db.GetBookingById r2.ID =
        ⟨some bk, none⟩ := by
      rw [hid]
      exact hbk
    obtain ⟨e, he⟩ := AddFeedbackBooking_fails_of_feedback hbk2 hfk hne
    refine ⟨e, he, ?_⟩
    exact Store.exec_of_err _ (.update (.addFeedback r2))
      (by rw [show (ServiceRequest.update (.addFeedback r2)).run _ = _ from he])
  · intro r hok
    have hcall : ∃ b', RateBookingCall s.db r = .callUpdateBooking b' := by
      rcases hc : RateBookingCall s.db r with ⟨val, err⟩ | b | b'
      · have hq : (ServiceRequest.update (.rate r)).call s.db = .returned val err := hc
        obtain ⟨-, hne⟩ := ServiceRequest.call_returned hq
        simp only [Store.exec, ServiceRequest.run, UpdateRequest.run, RateBooking, hc,
          Outcome.run] at hok
        exact absurd hok hne
      · exact absurd hc (UpdateRequest.call_ne_create s.db (.rate r) b)
      · exact ⟨b', rfl⟩
    obtain ⟨b', hc⟩ := hcall
    obtain ⟨user, booking, hu, hb, ho, hty, hst, -⟩ := RateBookingCall_update_guards hc
    exact ⟨user, booking, hu, hb, hst, ho, hty⟩

/-- C11 at the fixture: the owner leaves "great" on finished booking 13; after
a rating and a message on that booking, a further AddFeedbackBooking fails. -/
theorem C11_feedback_set_once_witness :
    (Fixture.store.exec (.update (.addFeedback ⟨13, 1, "great"⟩))).2.err = none ∧
    ∃ e, (((Fixture.store.exec (.update (.addFeedback ⟨13, 1, "great"⟩))).1.execAll
        [.update (.rate ⟨13, 1, 5⟩), .update (.addMessage ⟨13, 1, "thanks"⟩)]).exec
          (.update (.addFeedback ⟨13, 1, "again"⟩))).2 = ⟨none, some e⟩ :=
  ⟨by decide,
    ((((C11_feedback_set_once Fixture.store).1 ⟨13, 1, "great"⟩ (by decide)).2 (by decide)
      [.update (.rate ⟨13, 1, 5⟩), .update (.addMessage ⟨13, 1, "thanks"⟩)]
      ⟨13, 1, "again"⟩ rfl)).imp fun _ h => h.1⟩

/-! ## A full lifecycle -/

theorem Store.writes_keep_tables (s : Store) (b : Booking) :
    ((s.CreateBooking b).1.users = s.users ∧ (s.CreateBooking b).1.vehicles = s.vehicles ∧
      (s.CreateBooking b).1.engine = s.engine) ∧
    ((s.UpdateBooking b).1.users = s.users ∧ (s.UpdateBooking b).1.vehicles = s.vehicles ∧
      (s.UpdateBooking b).1.engine = s.engine) :=
  ⟨Store.apply_users s (.callCreateBooking b), Store.apply_users s (.callUpdateBooking b)⟩

theorem Store.GetUserById_congr {s t : Store} (hu : t.users = s.users)
    (he : t.engine = s.engine) (id : Nat) : t.GetUserById id = s.GetUserById id := by
  simp only [Store.GetUserById, hu, he]

theorem Store.preload_congr {s t : Store} (hv : t.vehicles = s.vehicles) (b : Booking) :
    t.preload b = s.preload b := by
  simp only [Store.preload, hv]

/-- A booking that has the shape of a read (zero `User`, the visible vehicle of
its `VehicleID`, no soft-deleted message) is read back as it is. -/
theorem Store.preload_of_loaded (s : Store) (b : Booking) (hU : b.User = User.zero)
    (hV : b.Vehicle =
      (s.vehicles.find? fun v => v.ID = b.VehicleID ∧ v.DeletedAt = none).getD Vehicle.zero)
    (hM : (b.Messages.filter fun m => m.DeletedAt = none) = b.Messages) :
    s.preload b = b := by
  cases b
  simp only [Store.preload] at hU hV hM ⊢
  simp only [← hU, ← hV, hM]

/-- What `preload` returns has the shape of a read. -/
theorem Store.preload_loaded (s : Store) (x : Booking) :
    (s.preload x).User = User.zero ∧
    (s.preload x).Vehicle =
      (s.vehicles.find? fun v => v.ID = (s.preload x).VehicleID ∧ v.DeletedAt = none).getD
        Vehicle.zero ∧
    ((s.preload x).Messages.filter fun m => m.DeletedAt = none) = (s.preload x).Messages :=
  ⟨rfl, rfl, by simp only [Store.preload, List.filter_filter, Bool.and_self]⟩

theorem Store.exec_create {s : Store} {r : requests.CreateBookingRequest} {b : Booking}
    (h : CreateBookingCall s.db r = .callCreateBooking b)
    (hwrite : s.engine.CreateBooking = none) :
    s.exec (.create r) =
      ((s.CreateBooking b).1, ⟨some { b with ID := s.nextBookingID }, none⟩) := by
  have h2 : (s.CreateBooking b).2 = ⟨some { b with ID := s.nextBookingID }, none⟩ := by
    simp only [Store.CreateBooking, hwrite]
  simp only [Store.exec, ServiceRequest.call, ServiceRequest.run, Backend.CreateBooking, h,
    Store.apply, Outcome.run]
  exact Prod.ext rfl h2

theorem Store.exec_update {s : Store} {r : UpdateRequest} {b' : Booking}
    (h : r.call s.db = .callUpdateBooking b') (hwrite : s.engine.UpdateBooking = none) :
    s.exec (.update r) = ((s.UpdateBooking b').1, ⟨some b', none⟩) := by
  have h2 : (s.UpdateBooking b').2 = ⟨some b', none⟩ := by
    simp only [Store.UpdateBooking, hwrite]
    split_ifs <;> rfl
  simp only [Store.exec, ServiceRequest.call, ServiceRequest.run, UpdateRequest.run_eq, h,
    Store.apply, Outcome.run]
  exact Prod.ext rfl h2

theorem Store.exec_returned {s : Store} {q : ServiceRequest} {val : Option Booking}
    {err : Option Error} (h : q.call s.db = .returned val err) :
    s.exec q = (s, ⟨val, err⟩) := by
  simp only [Store.exec, ServiceRequest.run_eq_call, h, Store.apply, Outcome.run]

theorem Store.exec_create_ok (s : Store) (r : requests.CreateBookingRequest) {user : User}
    {vehicle : Vehicle} (hu : s.GetUserById r.UserID = ⟨some user, none⟩)
    (hv : s.GetVehicleById r.VehicleID = ⟨some vehicle, none⟩)
    (hread : s.engine.GetBookingById = none) (hwrite : s.engine.CreateBooking = none) :
    ∃ B s1, s.exec (.create r) = (s1, ⟨some B, none⟩) ∧
      B.Status = commons.BookingStatusReserved ∧ B.UserID = r.UserID ∧
      B.VehicleID = r.VehicleID ∧ B.HourlyFare = vehicle.HourlyFare ∧ B.Feedback = none ∧
      B.DeletedAt = none ∧
      s1.GetBookingById B.ID = ⟨some (s1.preload B), none⟩ ∧
      (∀ id, s1.GetUserById id = s.GetUserById id) ∧
      s1.vehicles = s.vehicles ∧ s1.engine = s.engine := by
  have hu' : s.db.GetUserById r.UserID = ⟨some user, none⟩ := hu
  have hv' : s.db.GetVehicleById r.VehicleID = ⟨some vehicle, none⟩ := hv
  have hc : ∃ b, CreateBookingCall s.db r = .callCreateBooking b ∧
      b.Status = commons.BookingStatusReserved ∧ b.UserID = r.UserID ∧
      b.VehicleID = r.VehicleID ∧ b.HourlyFare = vehicle.HourlyFare ∧ b.Feedback = none ∧
      b.DeletedAt = none := by
    simp only [CreateBookingCall, hu', hv']
    exact ⟨_, rfl, rfl, rfl, rfl, rfl, rfl, rfl⟩
  obtain ⟨b, hb, h1, h2, h3, h4, h5, h6⟩ := hc
  obtain ⟨hku, hkv, hke⟩ := (Store.writes_keep_tables s b).1
  refine ⟨{ b with ID := s.nextBookingID }, (s.CreateBooking b).1, Store.exec_create hb hwrite,
    h1, h2, h3, h4, h5, h6, ?_, fun id => Store.GetUserById_congr hku hke id, hkv, hke⟩
  rw [Store.GetBookingById_CreateBooking_next s b hread hwrite h6,
    Store.preload_congr hkv]

theorem Store.exec_update_ok (s : Store) (r : UpdateRequest) {b' : Booking}
    (hc : r.call s.db = .callUpdateBooking b') (hid : b'.ID = r.ID)
    (hlive : b'.DeletedAt = none) (hread : s.engine.GetBookingById = none)
    (hwrite : s.engine.UpdateBooking = none) :
    ∃ s1, s.exec (.update r) = (s1, ⟨some b', none⟩) ∧
      s1.GetBookingById r.ID = ⟨some (s.preload b'), none⟩ ∧
      (∀ id, s1.GetUserById id = s.GetUserById id) ∧
      s1.vehicles = s.vehicles ∧ s1.engine = s.engine := by
  obtain ⟨hku, hkv, hke⟩ := (Store.writes_keep_tables s b').2
  refine ⟨(s.UpdateBooking b').1, Store.exec_update hc hwrite, ?_,
    fun id => Store.GetUserById_congr hku hke id, hkv, hke⟩
  rw [Store.GetBookingById_UpdateBooking s b' r.ID hread hwrite hlive, if_pos hid]

/-- A user row that is soft-deleted is not found: on a store whose only rows
with the request's user id are soft-deleted, CreateBooking answers
ErrUserNotFound (when the engine answers the query). -/
theorem CreateBooking_of_soft_deleted_user (s : Store) (r : requests.CreateBookingRequest)
    (hengine : s.engine.GetUserById = none)
    (hdel : ∀ u ∈ s.users, u.ID = r.UserID → u.DeletedAt ≠ none) :
    s.exec (.create r) = (s, ⟨none, some .ErrUserNotFound⟩) := by
  have hfind : s.users.find? (fun u => u.ID = r.UserID ∧ u.DeletedAt = none) = none := by
    rw [List.find?_eq_none]
    intro u hu
    simp only [decide_eq_true_eq, not_and]
    exact hdel u hu
  have hu : s.db.GetUserById r.UserID = ⟨none, none⟩ := by
    show s.GetUserById r.UserID = ⟨none, none⟩
    simp only [Store.GetUserById, hengine, hfind]
  apply Store.exec_returned
  simp only [ServiceRequest.call, CreateBookingCall, hu]

/-- C15: on any store whose engine answers every query and which holds a
client A (id `a`), an admin (id `adm`) and a vehicle V (id `v`), none of them
soft-deleted, the calls below give, in this order: CreateBooking by A on V, a
booking B with status reserved; ConfirmBooking of B by the admin, status
confirmed with Observations "Booking confirmed by admin"; CancelBooking of B by
A, ErrBookingAlreadyStarted with the store unchanged and B still confirmed;
FinishBooking of B by the admin, status finished; AddFeedbackBooking of B by A
with "great", success with that feedback stored; any further
AddFeedbackBooking of B by A, ErrBookingAlreadyHaveFeedback. -/
theorem C15_lifecycle_scenario (s : Store) (a adm v : Nat) (A Adm : User) (V : Vehicle)
    (hengine : s.engine = Engine.ok)
    (hA : s.GetUserById a = ⟨some A, none⟩) (hAc : A.Type_ = commons.UserTypeClient)
    (hAdm : s.GetUserById adm = ⟨some Adm, none⟩)
    (hAdmT : Adm.Type_ = commons.UserTypeAdmin)
    (hV : s.GetVehicleById v = ⟨some V, none⟩)
    (start end_ : Time) (pickUp dropOff : String) :
    ∃ B s1, s.exec (.create ⟨a, v, start, end_, pickUp, dropOff⟩) = (s1, ⟨some B, none⟩) ∧
      B.Status = commons.BookingStatusReserved ∧ B.UserID = a ∧ B.VehicleID = v ∧
    ∃ B2 s2, s1.exec (.update (.confirm ⟨B.ID, adm⟩)) = (s2, ⟨some B2, none⟩) ∧
      B2.Status = commons.BookingStatusConfirmed ∧
      B2.Observations = some "Booking confirmed by admin" ∧
    s2.exec (.update (.cancel ⟨B.ID, a⟩)) = (s2, ⟨none, some .ErrBookingAlreadyStarted⟩) ∧
      s2.GetBookingById B.ID = ⟨some B2, none⟩ ∧
    ∃ B3 s3, s2.exec (.update (.finish ⟨B.ID, adm⟩)) = (s3, ⟨some B3, none⟩) ∧
      B3.Status = commons.BookingStatusFinished ∧
    ∃ B4 s4, s3.exec (.update (.addFeedback ⟨B.ID, a, "great"⟩)) = (s4, ⟨some B4, none⟩) ∧
      B4.Feedback = some "great" ∧ B4.Status = commons.BookingStatusFinished ∧
      s4.GetBookingById B.ID = ⟨some B4, none⟩ ∧
    ∀ text, s4.exec (.update (.addFeedback ⟨B.ID, a, text⟩)) =
      (s4, ⟨none, some .ErrBookingAlreadyHaveFeedback⟩) := by
  have hr0 : s.engine.GetBookingById = none := by rw [hengine]; rfl
  have hc0 : s.engine.CreateBooking = none := by rw [hengine]; rfl
  have hw0 : s.engine.UpdateBooking = none := by rw [hengine]; rfl
  obtain ⟨B, s1, h1, hB1, hB2, hB3, -, hBf, hBd, hg1, hu1, hv1, he1⟩ :=
    Store.exec_create_ok s ⟨a, v, start, end_, pickUp, dropOff⟩ hA hV hr0 hc0
  refine ⟨B, s1, h1, hB1, hB2, hB3, ?_⟩
  obtain ⟨hlU, hlV, hlM⟩ := Store.preload_loaded s1 B
  -- confirm by the admin
  have hAdm1 : s1.db.GetUserById adm = ⟨some Adm, none⟩ := (hu1 adm).trans hAdm
  have hg1' : s1.db.GetBookingById B.ID = ⟨some (s1.preload B), none⟩ := hg1
  have hP1 : (s1.preload B).Status = commons.BookingStatusReserved := hB1
  have hP2 : (s1.preload B).UserID = a := hB2
  have hPf : (s1.preload B).Feedback = none := hBf
  have hc2 : (UpdateRequest.confirm ⟨B.ID, adm⟩).call s1.db = .callUpdateBooking
      { s1.preload B with Status := commons.BookingStatusConfirmed
                          Observations := some "Booking confirmed by admin" } := by
    simp [UpdateRequest.call, ConfirmBookingCall, hAdm1, hg1', hAdmT, hP1,
      commons.BookingStatusReserved, commons.BookingStatusCancelled,
      commons.BookingStatusFinished, commons.BookingStatusConfirmed]
  obtain ⟨s2, h2, hg2, hu2, hv2, he2⟩ := Store.exec_update_ok s1 _ hc2 rfl hBd
    (he1 ▸ hr0) (he1 ▸ hw0)
  rw [Store.preload_of_loaded s1
    { s1.preload B with Status := commons.BookingStatusConfirmed
                        Observations := some "Booking confirmed by admin" } hlU hlV hlM] at hg2
  refine ⟨_, s2, h2, rfl, rfl, ?_⟩
  -- cancel by A
  have hA2 : s2.db.GetUserById a = ⟨some A, none⟩ := ((hu2 a).trans (hu1 a)).trans hA
  have hAdm2 : s2.db.GetUserById adm = ⟨some Adm, none⟩ := (hu2 adm).trans hAdm1
  have hg2' : s2.db.GetBookingById B.ID = ⟨some
      { s1.preload B with Status := commons.BookingStatusConfirmed
                          Observations := some "Booking confirmed by admin" }, none⟩ := hg2
  have hc3 : (ServiceRequest.update (.cancel ⟨B.ID, a⟩)).call s2.db =
      .returned none (some .ErrBookingAlreadyStarted) := by
    simp [ServiceRequest.call, UpdateRequest.call, CancelBookingCall, hA2, hg2', hP2,
      commons.BookingStatusCancelled, commons.BookingStatusFinished,
      commons.BookingStatusConfirmed]
  refine ⟨Store.exec_returned hc3, hg2, ?_⟩
  -- finish by the admin
  have hc4 : (UpdateRequest.finish ⟨B.ID, adm⟩).call s2.db = .callUpdateBooking
      { s1.preload B with Status := commons.BookingStatusFinished
                          Observations := some "Booking finished by admin" } := by
    simp [UpdateRequest.call, FinishBookingCall, hAdm2, hg2', hAdmT,
      commons.BookingStatusReserved, commons.BookingStatusCancelled,
      commons.BookingStatusFinished, commons.BookingStatusConfirmed]
  obtain ⟨s3, h3, hg3, hu3, hv3, he3⟩ := Store.exec_update_ok s2 _ hc4 rfl hBd
    (he2 ▸ he1 ▸ hr0) (he2 ▸ he1 ▸ hw0)
  rw [Store.preload_congr hv2, Store.preload_of_loaded s1
    { s1.preload B with Status := commons.BookingStatusFinished
                        Observations := some "Booking finished by admin" } hlU hlV hlM] at hg3
  refine ⟨_, s3, h3, rfl, ?_⟩
  -- feedback by A
  have hA3 : s3.db.GetUserById a = ⟨some A, none⟩ := (hu3 a).trans hA2
  have hg3' : s3.db.GetBookingById B.ID = ⟨some
      { s1.preload B with Status := commons.BookingStatusFinished
                          Observations := some "Booking finished by admin" }, none⟩ := hg3
  have hc5 : (UpdateRequest.addFeedback ⟨B.ID, a, "great"⟩).call s3.db = .callUpdateBooking
      { s1.preload B with Status := commons.BookingStatusFinished
                          Observations := some "Booking finished by admin"
                          Feedback := some "great" } := by
    simp [UpdateRequest.call, AddFeedbackBookingCall, hA3, hg3', hAc, hP2, hPf,
      commons.BookingStatusReserved, commons.BookingStatusCancelled,
      commons.BookingStatusFinished, commons.BookingStatusConfirmed]
  obtain ⟨s4, h4, hg4, hu4, -, -⟩ := Store.exec_update_ok s3 _ hc5 rfl hBd
    (he3 ▸ he2 ▸ he1 ▸ hr0) (he3 ▸ he2 ▸ he1 ▸ hw0)
  rw [Store.preload_congr (hv3.trans hv2), Store.preload_of_loaded s1
    { s1.preload B with Status := commons.BookingStatusFinished
                        Observations := some "Booking finished by admin"
                        Feedback := some "great" } hlU hlV hlM] at hg4
  refine ⟨_, s4, h4, rfl, rfl, hg4, ?_⟩
  -- feedback again
  intro text
  have hA4 : s4.db.GetUserById a = ⟨some A, none⟩ := (hu4 a).trans hA3
  have hg4' : s4.db.GetBookingById B.ID = ⟨some
      { s1.preload B with Status := commons.BookingStatusFinished
                          Observations := some "Booking finished by admin"
                          Feedback := some "great" }, none⟩ := hg4
  have hc6 : (ServiceRequest.update (.addFeedback ⟨B.ID, a, text⟩)).call s4.db =
      .returned none (some .ErrBookingAlreadyHaveFeedback) := by
    simp [ServiceRequest.call, UpdateRequest.call, AddFeedbackBookingCall, hA4, hg4', hAc, hP2,
      commons.BookingStatusReserved, commons.BookingStatusCancelled,
      commons.BookingStatusFinished, commons.BookingStatusConfirmed]
  exact Store.exec_returned hc6

/-- C15 at the fixture store, with `clientA` (id 1), the admin (id 2) and
vehicle V (id 1): the created booking is reserved and gets the fresh id 15, and
the admin's confirmation of it succeeds. -/
theorem C15_lifecycle_scenario_witness :
    (Fixture.store.exec (.create ⟨1, 1, ⟨3000⟩, ⟨4000⟩, "airport", "downtown"⟩)).2.val.map
      (fun b => (b.ID, b.Status)) = some (15, commons.BookingStatusReserved) ∧
    ∃ B s1, Fixture.store.exec (.create ⟨1, 1, ⟨3000⟩, ⟨4000⟩, "airport", "downtown"⟩) =
        (s1, ⟨some B, none⟩) ∧
      ∃ B2 s2, s1.exec (.update (.confirm ⟨B.ID, 2⟩)) = (s2, ⟨some B2, none⟩) ∧
        B2.Status = commons.BookingStatusConfirmed :=
  ⟨by decide,
    (C15_lifecycle_scenario Fixture.store 1 2 1 Fixture.clientA Fixture.admin Fixture.vehicleV
      rfl rfl rfl rfl rfl rfl ⟨3000⟩ ⟨4000⟩ "airport" "downtown").imp fun _ h =>
        h.imp fun _ h1 =>
          ⟨h1.1, h1.2.2.2.2.imp fun _ h2 => h2.imp fun _ h3 => ⟨h3.1, h3.2.1⟩⟩⟩

/-! ## Statuses outside the state machine -/

/-- C21, counterexample to the claim as stated, on the fixture database: booking
15 has the status "pendiente", none of the four known values, and user 2 is of
type admin, so the acting user is one the claim covers; AddFeedbackBooking and
RateBooking of booking 15 by user 2 return ErrInvalidCredentials, not
ErrBookingNotFinished. -/
theorem C21_admin_feedback_on_unknown_status_counterexample :
    Fixture.db.GetUserById 2 = ⟨some Fixture.admin, none⟩ ∧
    Fixture.admin.Type_ = commons.UserTypeAdmin ∧
    Fixture.db.GetBookingById 15 = ⟨some (Fixture.bookingOf 15 "pendiente" none), none⟩ ∧
    (Fixture.bookingOf 15 "pendiente" none).Status ∉
      [commons.BookingStatusReserved, commons.BookingStatusConfirmed,
        commons.BookingStatusCancelled, commons.BookingStatusFinished] ∧
    AddFeedbackBooking Fixture.db ⟨15, 2, "great"⟩ = ⟨none, some .ErrInvalidCredentials⟩ ∧
    RateBooking Fixture.db ⟨15, 2, 5⟩ = ⟨none, some .ErrInvalidCredentials⟩ ∧
    AddFeedbackBooking Fixture.db ⟨15, 2, "great"⟩ ≠ ⟨none, some .ErrBookingNotFinished⟩ ∧
    RateBooking Fixture.db ⟨15, 2, 5⟩ ≠ ⟨none, some .ErrBookingNotFinished⟩ := by
  refine ⟨rfl, rfl, rfl, by decide, by decide, by decide, by decide, by decide⟩

/-- C21, amended: for a stored booking whose status is none of reserved,
confirmed, cancelled, finished, and an existing acting user who owns it or is
of type admin, each of CancelBooking, ConfirmBooking and FinishBooking returns
no guard error: it hands UpdateBooking the stored booking with the status
unchanged and only Observations overwritten, by "Booking cancelled / confirmed
/ finished by admin" for an admin and "... by user" otherwise.
AddFeedbackBooking and RateBooking never hand such a booking to UpdateBooking:
they reject it with ErrBookingNotFinished when the acting user is its owner and
of type client, and with ErrInvalidCredentials otherwise (an admin, or an owner
of any other type). -/
theorem C21_unknown_status_passes_transitions (db : BookingsDatabase) (id uid : Nat)
    (user : User) (booking : Booking)
    (hu : db.GetUserById uid = ⟨some user, none⟩)
    (hb : db.GetBookingById id = ⟨some booking, none⟩)
    (hauth : booking.UserID = uid ∨ user.Type_ = commons.UserTypeAdmin)
    (h1 : booking.Status ≠ commons.BookingStatusReserved)
    (h2 : booking.Status ≠ commons.BookingStatusConfirmed)
    (h3 : booking.Status ≠ commons.BookingStatusCancelled)
    (h4 : booking.Status ≠ commons.BookingStatusFinished) :
    (∃ b', CancelBookingCall db ⟨id, uid⟩ = .callUpdateBooking b' ∧
      CancelBooking db ⟨id, uid⟩ = db.UpdateBooking b' ∧
      b'.Status = booking.Status ∧
      b' = { booking with Observations := b'.Observations } ∧
      (user.Type_ = commons.UserTypeAdmin →
        b'.Observations = some "Booking cancelled by admin") ∧
      (user.Type_ ≠ commons.UserTypeAdmin →
        b'.Observations = some "Booking cancelled by user")) ∧
    (∃ b', ConfirmBookingCall db ⟨id, uid⟩ = .callUpdateBooking b' ∧
      ConfirmBooking db ⟨id, uid⟩ = db.UpdateBooking b' ∧
      b'.Status = booking.Status ∧
      b' = { booking with Observations := b'.Observations } ∧
      (user.Type_ = commons.UserTypeAdmin →
        b'.Observations = some "Booking confirmed by admin") ∧
      (user.Type_ ≠ commons.UserTypeAdmin →
        b'.Observations = some "Booking confirmed by user")) ∧
    (∃ b', FinishBookingCall db ⟨id, uid⟩ = .callUpdateBooking b' ∧
      FinishBooking db ⟨id, uid⟩ = db.UpdateBooking b' ∧
      b'.Status = booking.Status ∧
      b' = { booking with Observations := b'.Observations } ∧
      (user.Type_ = commons.UserTypeAdmin →
        b'.Observations = some "Booking finished by admin") ∧
      (user.Type_ ≠ commons.UserTypeAdmin →
        b'.Observations = some "Booking finished by user")) ∧
    (∀ text, AddFeedbackBooking db ⟨id, uid, text⟩ =
      ⟨none, some (if booking.UserID = uid ∧ user.Type_ = commons.UserTypeClient
        then .ErrBookingNotFinished else .ErrInvalidCredentials)⟩) ∧
    (∀ rating, RateBooking db ⟨id, uid, rating⟩ =
      ⟨none, some (if booking.UserID = uid ∧ user.Type_ = commons.UserTypeClient
        then .ErrBookingNotFinished else .ErrInvalidCredentials)⟩) := by
  have hne : ¬(booking.UserID ≠ uid ∧ user.Type_ ≠ commons.UserTypeAdmin) := by
    tauto
  refine ⟨?_, ?_, ?_, ?_, ?_⟩
  · refine ⟨{ booking with
        Observations := some (if user.Type_ = commons.UserTypeAdmin
          then "Booking cancelled by admin" else "Booking cancelled by user") },
      ?_, ?_, rfl, rfl, ?_, ?_⟩
    · simp [CancelBookingCall, hu, hb, hne, h1, h2, h3, h4]
    · simp [CancelBooking, CancelBookingCall, hu, hb, hne, h1, h2, h3, h4, Outcome.run]
    · intro ha; simp [ha]
    · intro ha; simp [ha]
  · refine ⟨{ booking with
        Observations := some (if user.Type_ = commons.UserTypeAdmin
          then "Booking confirmed by admin" else "Booking confirmed by user") },
      ?_, ?_, rfl, rfl, ?_, ?_⟩
    · simp [ConfirmBookingCall, hu, hb, hne, h1, h2, h3, h4]
    · simp [ConfirmBooking, ConfirmBookingCall, hu, hb, hne, h1, h2, h3, h4, Outcome.run]
    · intro ha; simp [ha]
    · intro ha; simp [ha]
  · refine ⟨{ booking with
        Observations := some (if user.Type_ = commons.UserTypeAdmin
          then "Booking finished by admin" else "Booking finished by user") },
      ?_, ?_, rfl, rfl, ?_, ?_⟩
    · simp [FinishBookingCall, hu, hb, hne, h1, h2, h3, h4]
    · simp [FinishBooking, FinishBookingCall, hu, hb, hne, h1, h2, h3, h4, Outcome.run]
    · intro ha; simp [ha]
    · intro ha; simp [ha]
  · intro text
    by_cases hc : booking.UserID = uid ∧ user.Type_ = commons.UserTypeClient
    · simp [AddFeedbackBooking, AddFeedbackBookingCall, hu, hb, hc.1, hc.2, h1, h2, h3, h4,
        Outcome.run]
    · have hd : booking.UserID ≠ uid ∨ user.Type_ ≠ commons.UserTypeClient := by tauto
      simp [AddFeedbackBooking, AddFeedbackBookingCall, hu, hb, hc, hd, Outcome.run]
  · intro rating
    by_cases hc : booking.UserID = uid ∧ user.Type_ = commons.UserTypeClient
    · simp [RateBooking, RateBookingCall, hu, hb, hc.1, hc.2, h1, h2, h3, h4, Outcome.run]
    · have hd : booking.UserID ≠ uid ∨ user.Type_ ≠ commons.UserTypeClient := by tauto
      simp [RateBooking, RateBookingCall, hu, hb, hc, hd, Outcome.run]

/-- C21, amended, at the fixture: booking 15 has the status "pendiente". Its
owner `clientA` cancelling it hands UpdateBooking the booking still
"pendiente", with Observations "Booking cancelled by user"; the admin
finishing it gets Observations "Booking finished by admin"; the owner's
feedback on it is rejected with ErrBookingNotFinished. -/
theorem C21_unknown_status_passes_transitions_witness :
    (∃ b', CancelBookingCall Fixture.db ⟨15, 1⟩ = .callUpdateBooking b' ∧
      b'.Status = "pendiente" ∧ b'.Observations = some "Booking cancelled by user") ∧
    (∃ b', FinishBookingCall Fixture.db ⟨15, 2⟩ = .callUpdateBooking b' ∧
      b'.Status = "pendiente" ∧ b'.Observations = some "Booking finished by admin") ∧
    AddFeedbackBooking Fixture.db ⟨15, 1, "great"⟩ = ⟨none, some .ErrBookingNotFinished⟩ :=
  ⟨(C21_unknown_status_passes_transitions Fixture.db 15 1 Fixture.clientA
      (Fixture.bookingOf 15 "pendiente" none) rfl rfl (Or.inl rfl)
      (by decide) (by decide) (by decide) (by decide)).1.imp
        fun _ h => ⟨h.1, h.2.2.1, h.2.2.2.2.2 (by decide)⟩,
    (C21_unknown_status_passes_transitions Fixture.db 15 2 Fixture.admin
      (Fixture.bookingOf 15 "pendiente" none) rfl rfl (Or.inr rfl)
      (by decide) (by decide) (by decide) (by decide)).2.2.1.imp
        fun _ h => ⟨h.1, h.2.2.1, h.2.2.2.2.1 rfl⟩,
    (C21_unknown_status_passes_transitions Fixture.db 15 1 Fixture.clientA
      (Fixture.bookingOf 15 "pendiente" none) rfl rfl (Or.inl rfl)
      (by decide) (by decide) (by decide) (by decide)).2.2.2.1 "great"⟩

end Backend
